import Mathlib

/-!
TH02 temperature / humidity sensor driver (`th02_driver.c`)

A shallow embedding of the acquisition path of the driver: the three register
helpers `read_status`, `read_data`, `write_config`, the acquisition routine
`read_sensor` and the outward query `th02_read_raw`.

The I2C bus is the environment.  It is modelled as an arbitrary deterministic
function of the history of events seen so far on the device (`Bus`); every call
of `i2c_master_send` / `i2c_master_recv` appends one `Event` to the device log,
together with the value the bus returned, so that statements about "the
transactions of a call" are statements about the suffix of the log that the
call appended.

C integers: `int` values are `Int` (no arithmetic here leaves the 32-bit
range), `u8` values are `Nat` reduced `% 256` where they are stored.

For concurrent callers the same code is given a second time in step form
(`read_sensor_prog`): a call is the tree of its atomic actions on the device.
Run alone the step form is `read_sensor` (`exec_read_sensor_prog`); two callers
are interleaved by a schedule (`concurrentCalls`).
-/

namespace TH02

/-! ## Constants of the driver -/

/-- Register address `#define TH02_STATUS 0x0`. -/
def TH02_STATUS : Nat := 0x0
/-- Register address `#define TH02_DATA 0x1`. -/
def TH02_DATA : Nat := 0x1
/-- Register address `#define TH02_CONFIG 0x3`. -/
def TH02_CONFIG : Nat := 0x3

/-- Bit index `#define TH02_CONFIG_START 0x0`. -/
def TH02_CONFIG_START : Nat := 0x0
/-- Bit index `#define TH02_CONFIG_TEMP 0x4`. -/
def TH02_CONFIG_TEMP : Nat := 0x4

/-- Poll bound `#define TH02_MAX_RETRY 0x10`. -/
def TH02_MAX_RETRY : Int := 0x10

/-! ## Constants and helpers of the kernel headers the driver includes -/

/-- Kernel macro `BIT(nr)`, that is `1UL << nr` (linux/bits.h). -/
def BIT (nr : Nat) : Nat := 1 <<< nr

/-- Kernel errno `EIO` (errno-base.h). -/
def EIO : Int := 5
/-- Kernel errno `EINVAL` (errno-base.h). -/
def EINVAL : Int := 22

/-- Channel type `IIO_TEMP` of `enum iio_chan_type` (linux/iio/types.h). -/
def IIO_TEMP : Int := 9
/-- Channel type `IIO_HUMIDITYRELATIVE` of `enum iio_chan_type`. -/
def IIO_HUMIDITYRELATIVE : Int := 18
/-- Info mask `IIO_CHAN_INFO_PROCESSED` of `enum iio_chan_info_enum`. -/
def IIO_CHAN_INFO_PROCESSED : Int := 1
/-- Return code `IIO_VAL_INT` (linux/iio/types.h). -/
def IIO_VAL_INT : Int := 1

/-! ## Environment: events, bus, device -/

/-- One observable step of the driver on a device.  `send` and `recv` are the
two bus primitives, recorded with the value the bus returned (and, for `recv`,
the bytes it stored into the caller's buffer). -/
inductive Event where
  | lock
  | unlock
  | msleep (msecs : Nat)
  | send (bytes : List Nat) (ret : Int)
  | recv (count : Nat) (ret : Int) (data : List Nat)
  deriving DecidableEq, Repr

/-- The bus behind `struct i2c_client`: what `i2c_master_send` returns for the
given bytes, and what `i2c_master_recv` returns and stores for the given count,
each as a function of the history of the device. -/
structure Bus where
  send : List Event → List Nat → Int
  recv : List Event → Nat → Int × List Nat

/-- State of `struct th02_device`: the mutex `lock` (held or free) and the log
of events performed on the device and its client so far. -/
structure th02_device where
  lock : Bool
  log : List Event
  deriving DecidableEq, Repr

/-- Kernel `mutex_lock`.  On a mutex that is held the caller sleeps until it is
released; in this sequential model that call does not return (`none`). -/
def mutex_lock (device : th02_device) : Option th02_device :=
  if device.lock then none
  else some { lock := true, log := device.log ++ [Event.lock] }

/-- Kernel `mutex_unlock`. -/
def mutex_unlock (device : th02_device) : th02_device :=
  { lock := false, log := device.log ++ [Event.unlock] }

/-- Kernel `msleep`. -/
def msleep (device : th02_device) (msecs : Nat) : th02_device :=
  { device with log := device.log ++ [Event.msleep msecs] }

/-- Kernel `i2c_master_send(client, buf, count)` with `count = buf.length`:
returns what the bus answers. -/
def i2c_master_send (client : Bus) (device : th02_device) (buf : List Nat) :
    Int × th02_device :=
  let ret := client.send device.log buf
  (ret, { device with log := device.log ++ [Event.send buf ret] })

/-- Kernel `i2c_master_recv(client, buf, count)`: returns what the bus answers
and overwrites the front of `buf` with the bytes the bus delivered (at most
`count` of them, each a `u8`). -/
def i2c_master_recv (client : Bus) (device : th02_device) (buf : List Nat) (count : Nat) :
    Int × List Nat × th02_device :=
  let r := client.recv device.log count
  let data := (r.2.take count).map (fun b => b % 256)
  (r.1, data ++ buf.drop data.length,
    { device with log := device.log ++ [Event.recv count r.1 data] })

/-! ## Register helpers -/

/-- Source `read_status(client, status)`: returns `(ret, *status, device)`. -/
def read_status (client : Bus) (device : th02_device) (status : Nat) :
    Int × Nat × th02_device :=
  let reg := TH02_STATUS
  let s := i2c_master_send client device [reg]
  if s.1 < 0 then (s.1, status, s.2)
  else
    let r := i2c_master_recv client s.2 [status] 1
    if r.1 < 0 then (r.1, r.2.1.headD status, r.2.2)
    else (0, r.2.1.headD status, r.2.2)

/-- Source `read_data(client, buf)`: returns `(ret, buf, device)`. -/
def read_data (client : Bus) (device : th02_device) (buf : List Nat) :
    Int × List Nat × th02_device :=
  let addr := TH02_DATA
  let s := i2c_master_send client device [addr]
  if s.1 < 0 then (s.1, buf, s.2)
  else
    let r := i2c_master_recv client s.2 buf 2
    if r.1 < 0 then (r.1, r.2.1, r.2.2)
    else if r.1 ≠ 2 then (- EIO, r.2.1, r.2.2)
    else (0, r.2.1, r.2.2)

/-- Source `write_config(client, config)`: returns `(ret, device)`. -/
def write_config (client : Bus) (device : th02_device) (config : Nat) :
    Int × th02_device :=
  let buf := [TH02_CONFIG, config]
  let s := i2c_master_send client device buf
  if s.1 < 0 then (s.1, s.2)
  else (0, s.2)

/-! ## Acquisition -/

/-- The `while (status != 0 && polling++ != TH02_MAX_RETRY)` loop of
`read_sensor`, one iteration per unit of `fuel`.  The result is the device after
the loop and `some ret` when the loop was left through `goto err`, `none` when
its condition became false.  `none` for the whole result means the fuel ran
out. -/
def poll_loop (client : Bus) :
    Nat → th02_device → Nat → Int → Option (th02_device × Option Int)
  | 0, _, _, _ => none
  | fuel + 1, device, status, polling =>
    if status ≠ 0 then
      if polling ≠ TH02_MAX_RETRY then
        let d1 := msleep device 1
        let r := read_status client d1 status
        if r.1 < 0 then some (r.2.2, some r.1)
        else poll_loop client fuel r.2.2 r.2.1 (polling + 1)
      else some (device, none)
    else some (device, none)

/-- Source `read_sensor(device, type, result)`: returns `(ret, *result, device)`,
or `none` when the call does not return (mutex held, or loop fuel exhausted). -/
def read_sensor (fuel : Nat) (client : Bus) (device : th02_device) (type : Int)
    (result : Int) : Option (Int × Int × th02_device) :=
  let polling : Int := 0
  let buf : List Nat := [0, 0]
  let status : Nat := 1
  -- switch (type)
  let config? : Option Nat :=
    if type = IIO_TEMP then some ((BIT TH02_CONFIG_TEMP ||| BIT TH02_CONFIG_START) % 256)
    else if type = IIO_HUMIDITYRELATIVE then some (BIT TH02_CONFIG_START % 256)
    else none
  match config? with
  | none => some (- EINVAL, result, device)
  | some config =>
    match mutex_lock device with
    | none => none
    | some d1 =>
      let c := write_config client d1 config
      if c.1 < 0 then some (c.1, result, mutex_unlock c.2)
      else
        match poll_loop client fuel c.2 status polling with
        | none => none
        | some (d3, some ret) => some (ret, result, mutex_unlock d3)
        | some (d3, none) =>
          let r := read_data client d3 buf
          if r.1 < 0 then some (r.1, result, mutex_unlock r.2.2)
          else
            let b1 := r.2.1.getD 1 0
            let b0 := r.2.1.getD 0 0
            if type = IIO_TEMP then
              some (0, Int.tdiv ((b1 <<< 6 ||| b0 >>> 2 : Nat) : Int) 32 - 50,
                mutex_unlock r.2.2)
            else if type = IIO_HUMIDITYRELATIVE then
              some (0, Int.tdiv ((b1 <<< 4 ||| b0 >>> 4 : Nat) : Int) 16 - 24,
                mutex_unlock r.2.2)
            else some (- EINVAL, result, mutex_unlock r.2.2)

/-- Source `th02_read_raw(th02_iio, channel, val, val2, mask)` with
`channel_type = channel->type`; `result0` is the indeterminate initial content
of the local `s32 result`.  Returns `(ret, *val, *val2, device)`. -/
def th02_read_raw (fuel : Nat) (client : Bus) (device : th02_device) (channel_type : Int)
    (val val2 : Int) (mask : Int) (result0 : Int) :
    Option (Int × Int × Int × th02_device) :=
  if mask = IIO_CHAN_INFO_PROCESSED then
    if channel_type = IIO_TEMP ∨ channel_type = IIO_HUMIDITYRELATIVE then
      match read_sensor fuel client device channel_type result0 with
      | none => none
      | some (ret, result, d) =>
        if ret ≠ 0 then some (ret, val, val2, d)
        else some (IIO_VAL_INT, result, val2, d)
    else some (- EINVAL, val, val2, device)
  else some (- EINVAL, val, val2, device)

/-! ## Sample buses for concrete runs -/

/-- A bus on which every transfer succeeds in full, the status register reads
`status`, and the data register reads `low, high`. -/
def idealBus (status low high : Nat) : Bus where
  send := fun _ bytes => bytes.length
  recv := fun _ count => (count, if count = 1 then [status] else [low, high])

/-- A device whose mutex is free and that has seen no event yet. -/
def freshDevice : th02_device := { lock := false, log := [] }

/-! ## Relational description of the runs -/

/-- Events of one completed iteration of the poll loop. -/
def pollIter (a b : Int) (d : List Nat) : List Event :=
  [Event.msleep 1, Event.send [TH02_STATUS] a, Event.recv 1 b d]

/-- Events and exit of the poll loop entered with the given `status` and
`polling`: the last component is `some e` for an exit through `goto err`. -/
inductive PollRun : Nat → Int → List Event → Option Int → Prop
  | idle (p : Int) : PollRun 0 p [] none
  | exhausted (s : Nat) : s ≠ 0 → PollRun s TH02_MAX_RETRY [] none
  | send_fail (s : Nat) (p e : Int) : s ≠ 0 → p ≠ TH02_MAX_RETRY → e < 0 →
      PollRun s p [Event.msleep 1, Event.send [TH02_STATUS] e] (some e)
  | recv_fail (s : Nat) (p a e : Int) (d : List Nat) : s ≠ 0 → p ≠ TH02_MAX_RETRY →
      0 ≤ a → e < 0 → PollRun s p (pollIter a e d) (some e)
  | step (s : Nat) (p a b : Int) (d : List Nat) (tr : List Event) (r : Option Int) :
      s ≠ 0 → p ≠ TH02_MAX_RETRY → 0 ≤ a → 0 ≤ b → d.length ≤ 1 → (∀ x ∈ d, x < 256) →
      PollRun (d.headD s) (p + 1) tr r → PollRun s p (pollIter a b d ++ tr) r

/-- The value byte `read_sensor` writes to CONFIG for a valid channel type. -/
def IsConfig (type : Int) (config : Nat) : Prop :=
  (type = IIO_TEMP ∧ config = (BIT TH02_CONFIG_TEMP ||| BIT TH02_CONFIG_START) % 256) ∨
  (type ≠ IIO_TEMP ∧ type = IIO_HUMIDITYRELATIVE ∧ config = BIT TH02_CONFIG_START % 256)

/-- Content of `buf` (initially `{0, 0}`) after a receive stored `d`. -/
def bufAfter (d : List Nat) : List Nat := d ++ [0, 0].drop d.length

/-- The conversion `read_sensor` applies to `buf` for a valid channel type. -/
def convert (type : Int) (buf : List Nat) : Int :=
  if type = IIO_TEMP then
    Int.tdiv ((buf.getD 1 0 <<< 6 ||| buf.getD 0 0 >>> 2 : Nat) : Int) 32 - 50
  else Int.tdiv ((buf.getD 1 0 <<< 4 ||| buf.getD 0 0 >>> 4 : Nat) : Int) 16 - 24

/-- Events, return value and final content of the result cell of one call of
`read_sensor type result`. -/
inductive SensorRun (type result : Int) : List Event → Int → Int → Prop
  | invalid : type ≠ IIO_TEMP → type ≠ IIO_HUMIDITYRELATIVE →
      SensorRun type result [] (- EINVAL) result
  | config_fail (cfg : Nat) (e : Int) : IsConfig type cfg → e < 0 →
      SensorRun type result
        [Event.lock, Event.send [TH02_CONFIG, cfg] e, Event.unlock] e result
  | poll_fail (cfg : Nat) (a e : Int) (tr : List Event) : IsConfig type cfg → 0 ≤ a →
      PollRun 1 0 tr (some e) →
      SensorRun type result
        ([Event.lock, Event.send [TH02_CONFIG, cfg] a] ++ tr ++ [Event.unlock]) e result
  | data_send_fail (cfg : Nat) (a e : Int) (tr : List Event) : IsConfig type cfg → 0 ≤ a →
      PollRun 1 0 tr none → e < 0 →
      SensorRun type result
        ([Event.lock, Event.send [TH02_CONFIG, cfg] a] ++ tr ++
          [Event.send [TH02_DATA] e, Event.unlock]) e result
  | data_recv_fail (cfg : Nat) (a b e : Int) (tr : List Event) (d : List Nat) :
      IsConfig type cfg → 0 ≤ a → PollRun 1 0 tr none → 0 ≤ b → e < 0 →
      SensorRun type result
        ([Event.lock, Event.send [TH02_CONFIG, cfg] a] ++ tr ++
          [Event.send [TH02_DATA] b, Event.recv 2 e d, Event.unlock]) e result
  | data_short (cfg : Nat) (a b n : Int) (tr : List Event) (d : List Nat) :
      IsConfig type cfg → 0 ≤ a → PollRun 1 0 tr none → 0 ≤ b → 0 ≤ n → n ≠ 2 →
      SensorRun type result
        ([Event.lock, Event.send [TH02_CONFIG, cfg] a] ++ tr ++
          [Event.send [TH02_DATA] b, Event.recv 2 n d, Event.unlock]) (- EIO) result
  | done (cfg : Nat) (a b : Int) (tr : List Event) (d : List Nat) :
      IsConfig type cfg → 0 ≤ a → PollRun 1 0 tr none → 0 ≤ b →
      d.length ≤ 2 → (∀ x ∈ d, x < 256) →
      SensorRun type result
        ([Event.lock, Event.send [TH02_CONFIG, cfg] a] ++ tr ++
          [Event.send [TH02_DATA] b, Event.recv 2 2 d, Event.unlock]) 0
        (convert type (bufAfter d))

/-! ## Observations on traces -/

/-- Value a bus primitive returned, for the events that are bus primitives. -/
def Event.busRet : Event → Option Int
  | Event.send _ ret => some ret
  | Event.recv _ ret _ => some ret
  | _ => none

/-- Whether the event is a bus primitive (`send` or `recv`). -/
def Event.isBus (e : Event) : Bool := e.busRet.isSome

/-- The bus transactions of a trace, in order. -/
def busTrace (tr : List Event) : List Event := tr.filter Event.isBus

/-- A bus primitive succeeded in full: it transferred every byte asked for. -/
def Event.ok : Event → Prop
  | Event.send bytes ret => ret = bytes.length
  | Event.recv count ret data => ret = count ∧ data.length = count
  | _ => True

/-- No bus primitive of the trace returned a negative value. -/
def NoFail (tr : List Event) : Prop := ∀ e ∈ tr, ∀ x, e.busRet = some x → 0 ≤ x

/-- Bus transactions of a run of STATUS reads, one per entry: the address send
with its return value, then the 1-byte receive with its return value and the
bytes it stored. -/
def statusReads : List (Int × Int × List Nat) → List Event
  | [] => []
  | (a, b, d) :: rest =>
    Event.send [TH02_STATUS] a :: Event.recv 1 b d :: statusReads rest

/-- A bus like `idealBus` except that the send issued when the device log has
`n` entries fails with `-EIO`. -/
def failingBus (n : Nat) (status low high : Nat) : Bus where
  send := fun hist bytes => if hist.length = n then - EIO else bytes.length
  recv := fun _ count => (count, if count = 1 then [status] else [low, high])

/-- A bus like `idealBus` except that the 2-byte receive reports `n` bytes. -/
def shortBus (n : Int) (status low high : Nat) : Bus where
  send := fun _ bytes => bytes.length
  recv := fun _ count => if count = 1 then (1, [status]) else (n, [low, high])

/-- Values of the variable `status` after each STATUS read of a run in turn,
starting from `status`: the byte the receive stored, or the value before the
read when the receive stored no byte. -/
def statusValues : Nat → List (Int × Int × List Nat) → List Nat
  | _, [] => []
  | status, (_, _, d) :: rest => d.headD status :: statusValues (d.headD status) rest

/-- The bytes stored by the 1-byte receives (the STATUS receives) of a trace. -/
def statusData (tr : List Event) : List (List Nat) :=
  tr.filterMap (fun e => match e with
    | Event.recv 1 _ d => some d
    | _ => none)

/-! ## Step form of the acquisition, for concurrent callers

For two callers on one device the calls of `read_sensor` are cut into their
atomic actions on the device: `mutex_lock`, `mutex_unlock`, `msleep`,
`i2c_master_send` and `i2c_master_recv`.  A call is a `Prog`: the next action
and, for each answer of the environment, the rest of the call.  The
computations between two actions touch only locals of the call. -/

/-- A call in progress: the next atomic action on the device and how the call
goes on after it; `done ret result` is a call that has returned `ret` with the
result cell holding `result`; `stuck` is a poll loop whose fuel has run out. -/
inductive Prog where
  | done (ret result : Int)
  | stuck
  | lock (k : Prog)
  | unlock (k : Prog)
  | sleep (msecs : Nat) (k : Prog)
  | send (buf : List Nat) (k : Int → Prog)
  | recv (buf : List Nat) (count : Nat) (k : Int → List Nat → Prog)

/-- Return value and result cell of a call that has returned. -/
def Prog.returned : Prog → Option (Int × Int)
  | Prog.done ret result => some (ret, result)
  | _ => none

/-- Step form of `read_status(client, status)`; `k ret status` is the rest of
the caller. -/
def read_status_prog (status : Nat) (k : Int → Nat → Prog) : Prog :=
  let reg := TH02_STATUS
  Prog.send [reg] (fun ret =>
    if ret < 0 then k ret status
    else Prog.recv [status] 1 (fun ret buf =>
      if ret < 0 then k ret (buf.headD status)
      else k 0 (buf.headD status)))

/-- Step form of `read_data(client, buf)`; `k ret buf` is the rest of the
caller. -/
def read_data_prog (buf : List Nat) (k : Int → List Nat → Prog) : Prog :=
  let addr := TH02_DATA
  Prog.send [addr] (fun ret =>
    if ret < 0 then k ret buf
    else Prog.recv buf 2 (fun ret buf =>
      if ret < 0 then k ret buf
      else if ret ≠ 2 then k (- EIO) buf
      else k 0 buf))

/-- Step form of `write_config(client, config)`; `k ret` is the rest of the
caller. -/
def write_config_prog (config : Nat) (k : Int → Prog) : Prog :=
  let buf := [TH02_CONFIG, config]
  Prog.send buf (fun ret =>
    if ret < 0 then k ret
    else k 0)

/-- Step form of the poll loop of `read_sensor`; `k (some ret)` is the rest of
the caller after `goto err`, `k none` after a normal exit of the loop. -/
def poll_loop_prog : Nat → Nat → Int → (Option Int → Prog) → Prog
  | 0, _, _, _ => Prog.stuck
  | fuel + 1, status, polling, k =>
    if status ≠ 0 then
      if polling ≠ TH02_MAX_RETRY then
        Prog.sleep 1 (read_status_prog status (fun ret status' =>
          if ret < 0 then k (some ret)
          else poll_loop_prog fuel status' (polling + 1) k))
      else k none
    else k none

/-- Step form of `read_sensor(device, type, result)`. -/
def read_sensor_prog (fuel : Nat) (type : Int) (result : Int) : Prog :=
  let polling : Int := 0
  let buf : List Nat := [0, 0]
  let status : Nat := 1
  let config? : Option Nat :=
    if type = IIO_TEMP then some ((BIT TH02_CONFIG_TEMP ||| BIT TH02_CONFIG_START) % 256)
    else if type = IIO_HUMIDITYRELATIVE then some (BIT TH02_CONFIG_START % 256)
    else none
  match config? with
  | none => Prog.done (- EINVAL) result
  | some config =>
    Prog.lock (write_config_prog config (fun ret =>
      if ret < 0 then Prog.unlock (Prog.done ret result)
      else poll_loop_prog fuel status polling (fun r =>
        match r with
        | some ret => Prog.unlock (Prog.done ret result)
        | none => read_data_prog buf (fun ret buf =>
          if ret < 0 then Prog.unlock (Prog.done ret result)
          else
            let b1 := buf.getD 1 0
            let b0 := buf.getD 0 0
            if type = IIO_TEMP then
              Prog.unlock (Prog.done 0
                (Int.tdiv ((b1 <<< 6 ||| b0 >>> 2 : Nat) : Int) 32 - 50))
            else if type = IIO_HUMIDITYRELATIVE then
              Prog.unlock (Prog.done 0
                (Int.tdiv ((b1 <<< 4 ||| b0 >>> 4 : Nat) : Int) 16 - 24))
            else Prog.unlock (Prog.done (- EINVAL) result)))))

/-- A call run alone, from start to return: `none` when it never returns. -/
def Prog.exec (client : Bus) : Prog → th02_device → Option (Int × Int × th02_device)
  | Prog.done ret result, device => some (ret, result, device)
  | Prog.stuck, _ => none
  | Prog.lock k, device =>
    match mutex_lock device with
    | none => none
    | some d1 => Prog.exec client k d1
  | Prog.unlock k, device => Prog.exec client k (mutex_unlock device)
  | Prog.sleep msecs k, device => Prog.exec client k (msleep device msecs)
  | Prog.send buf k, device =>
    Prog.exec client (k (i2c_master_send client device buf).1)
      (i2c_master_send client device buf).2
  | Prog.recv buf count k, device =>
    Prog.exec client
      (k (i2c_master_recv client device buf count).1
        (i2c_master_recv client device buf count).2.1)
      (i2c_master_recv client device buf count).2.2

/-- One atomic action of a call on the device.  A call that waits in
`mutex_lock` for a held mutex, a call that has returned and a stuck call make
no progress. -/
def Prog.step (client : Bus) (device : th02_device) : Prog → th02_device × Prog
  | Prog.done ret result => (device, Prog.done ret result)
  | Prog.stuck => (device, Prog.stuck)
  | Prog.lock k =>
    match mutex_lock device with
    | none => (device, Prog.lock k)
    | some d1 => (d1, k)
  | Prog.unlock k => (mutex_unlock device, k)
  | Prog.sleep msecs k => (msleep device msecs, k)
  | Prog.send buf k =>
    ((i2c_master_send client device buf).2, k (i2c_master_send client device buf).1)
  | Prog.recv buf count k =>
    ((i2c_master_recv client device buf count).2.2,
      k (i2c_master_recv client device buf count).1
        (i2c_master_recv client device buf count).2.1)

/-- Two concurrent callers on one device. -/
structure Sys where
  device : th02_device
  caller1 : Prog
  caller2 : Prog

/-- The system after the scheduler lets one caller (`false`: the first, `true`:
the second) take its next atomic action. -/
def Sys.step (client : Bus) (s : Sys) (second : Bool) : Sys :=
  if second then
    { device := (Prog.step client s.device s.caller2).1
      caller1 := s.caller1
      caller2 := (Prog.step client s.device s.caller2).2 }
  else
    { device := (Prog.step client s.device s.caller1).1
      caller1 := (Prog.step client s.device s.caller1).2
      caller2 := s.caller2 }

/-- The system after a schedule, the list of the callers chosen in turn: every
interleaving of the two calls is the run of some schedule. -/
def Sys.run (client : Bus) : List Bool → Sys → Sys
  | [], s => s
  | second :: rest, s => Sys.run client rest (Sys.step client s second)

/-- A call inside its critical section: up to and including its `mutex_unlock`
it takes no `mutex_lock`, and it returns right after the `mutex_unlock`. -/
inductive Inside : Prog → Prop
  | unlock (ret result : Int) : Inside (Prog.unlock (Prog.done ret result))
  | stuck : Inside Prog.stuck
  | sleep (msecs : Nat) (k : Prog) : Inside k → Inside (Prog.sleep msecs k)
  | send (buf : List Nat) (k : Int → Prog) : (∀ r, Inside (k r)) → Inside (Prog.send buf k)
  | recv (buf : List Nat) (count : Nat) (k : Int → List Nat → Prog) :
      (∀ r b, Inside (k r b)) → Inside (Prog.recv buf count k)

/-- A call before its critical section: it has returned without one, or its next
action is the `mutex_lock` that opens it. -/
def Outside (p : Prog) : Prop :=
  (∃ ret result, p = Prog.done ret result) ∨ ∃ k, p = Prog.lock k ∧ Inside k

/-- Two concurrent calls `read_sensor(device, type1, &result1)` and
`read_sensor(device, type2, &result2)` on the device `d0`, after the schedule
`sched`. -/
def concurrentCalls (fuel : Nat) (client : Bus) (d0 : th02_device)
    (type1 result1 type2 result2 : Int) (sched : List Bool) : Sys :=
  Sys.run client sched
    { device := d0
      caller1 := read_sensor_prog fuel type1 result1
      caller2 := read_sensor_prog fuel type2 result2 }

/-- A schedule that alternates between the second and the first caller for
sixteen actions and then lets the first caller run. -/
def alternatingSchedule : List Bool :=
  [true, false, true, false, true, false, true, false, true, false, true, false,
    true, false, true, false, false, false, false, false, false, false, false]

/-- State of two callers, started as `P` and `Q` on `d0` and now `p` and `q` on
`d`, in which the critical section of `P` comes first: `p` is inside it, or has
returned while `q` has not started, is inside its own, or has returned too.
What each caller has done and will do is what it does when run alone from the
device state at which it started. -/
def Serial (client : Bus) (d0 : th02_device) (P Q p q : Prog) (d : th02_device) : Prop :=
  (d.lock = true ∧ Inside p ∧ q = Q ∧ Prog.exec client p d = Prog.exec client P d0) ∨
  (d.lock = false ∧ q = Q ∧
    ∃ r v, p = Prog.done r v ∧ Prog.exec client P d0 = some (r, v, d)) ∨
  (d.lock = true ∧ Inside q ∧
    ∃ r v d1, p = Prog.done r v ∧ Prog.exec client P d0 = some (r, v, d1) ∧
      d1.lock = false ∧ Prog.exec client q d = Prog.exec client Q d1) ∨
  (d.lock = false ∧
    ∃ r v d1 r' v', p = Prog.done r v ∧ Prog.exec client P d0 = some (r, v, d1) ∧
      d1.lock = false ∧ q = Prog.done r' v' ∧ Prog.exec client Q d1 = some (r', v', d))

/-- Invariant of two concurrent callers started as `P` and `Q` on `d0`: nothing
has happened yet, or the state is serial in one of the two orders. -/
def SerialInv (client : Bus) (d0 : th02_device) (P Q : Prog) (s : Sys) : Prop :=
  (s.device = d0 ∧ s.caller1 = P ∧ s.caller2 = Q) ∨
  Serial client d0 P Q s.caller1 s.caller2 s.device ∨
  Serial client d0 Q P s.caller2 s.caller1 s.device

/-! ## The functions realise the relations -/

theorem headD_store (d : List Nat) (status : Nat) :
    (d ++ [status].drop d.length).headD status = d.headD status := by
  cases d <;> simp

theorem stored_length (l : List Nat) (count : Nat) :
    ((l.take count).map (fun b => b % 256)).length ≤ count := by
  simp [List.length_take]

theorem stored_lt (l : List Nat) (count : Nat) :
    ∀ x ∈ (l.take count).map (fun b => b % 256), x < 256 := by
  intro x hx
  rcases List.mem_map.1 hx with ⟨y, _, rfl⟩
  exact Nat.mod_lt _ (by decide)

/-- The three ways `read_status` can go. -/
theorem read_status_cases (client : Bus) (device : th02_device) (status : Nat) :
    (∃ e : Int, e < 0 ∧ read_status client device status =
        (e, status, ⟨device.lock, device.log ++ [Event.send [TH02_STATUS] e]⟩)) ∨
    (∃ (a e : Int) (d : List Nat), 0 ≤ a ∧ e < 0 ∧ read_status client device status =
        (e, d.headD status,
          ⟨device.lock, device.log ++ [Event.send [TH02_STATUS] a, Event.recv 1 e d]⟩)) ∨
    (∃ (a b : Int) (d : List Nat), 0 ≤ a ∧ 0 ≤ b ∧ d.length ≤ 1 ∧ (∀ x ∈ d, x < 256) ∧
      read_status client device status =
        (0, d.headD status,
          ⟨device.lock, device.log ++ [Event.send [TH02_STATUS] a, Event.recv 1 b d]⟩)) := by
  unfold read_status
  simp only [i2c_master_send, i2c_master_recv]
  generalize client.send device.log [TH02_STATUS] = a
  generalize client.recv (device.log ++ [Event.send [TH02_STATUS] a]) 1 = r
  split
  · next h1 => exact Or.inl ⟨_, h1, rfl⟩
  · next h1 =>
    split
    · next h2 =>
      refine Or.inr (Or.inl ⟨a, r.1, (r.2.take 1).map (fun b => b % 256),
        Int.not_lt.1 h1, h2, ?_⟩)
      simp only [headD_store, List.append_assoc, List.singleton_append]
    · next h2 =>
      refine Or.inr (Or.inr ⟨a, r.1, (r.2.take 1).map (fun b => b % 256),
        Int.not_lt.1 h1, Int.not_lt.1 h2, stored_length _ 1, stored_lt _ 1, ?_⟩)
      simp only [headD_store, List.append_assoc, List.singleton_append]

/-- The poll loop, when it returns, leaves the mutex as it was and appends a
trace described by `PollRun`. -/
theorem poll_loop_run (client : Bus) :
    ∀ (fuel : Nat) (device : th02_device) (status : Nat) (polling : Int)
      (device' : th02_device) (r : Option Int),
      poll_loop client fuel device status polling = some (device', r) →
      device'.lock = device.lock ∧
        ∃ tr, device'.log = device.log ++ tr ∧ PollRun status polling tr r := by
  intro fuel
  induction fuel with
  | zero => intro device status polling device' r h; simp [poll_loop] at h
  | succ fuel ih =>
    intro device status polling device' r h
    unfold poll_loop at h
    by_cases hs : status = 0
    · subst hs
      simp at h
      obtain ⟨rfl, rfl⟩ := h
      exact ⟨rfl, [], by simp, PollRun.idle polling⟩
    · by_cases hp : polling = TH02_MAX_RETRY
      · subst hp
        simp [hs] at h
        obtain ⟨rfl, rfl⟩ := h
        exact ⟨rfl, [], by simp, PollRun.exhausted status hs⟩
      · simp only [ne_eq, hs, not_false_eq_true, hp, if_true] at h
        rcases read_status_cases client (msleep device 1) status with
          ⟨e, he, heq⟩ | ⟨a, e, d, ha, he, heq⟩ | ⟨a, b, d, ha, hb, hd, hd', heq⟩
        · rw [heq] at h
          simp only [he, if_true, Option.some.injEq, Prod.mk.injEq] at h
          obtain ⟨rfl, rfl⟩ := h
          exact ⟨rfl, _, by simp [msleep], PollRun.send_fail status polling _ hs hp he⟩
        · rw [heq] at h
          simp only [he, if_true, Option.some.injEq, Prod.mk.injEq] at h
          obtain ⟨rfl, rfl⟩ := h
          exact ⟨rfl, pollIter a e d, by simp [msleep, pollIter],
            PollRun.recv_fail status polling a e d hs hp ha he⟩
        · rw [heq] at h
          simp only [lt_self_iff_false, if_false] at h
          obtain ⟨hl, tr, htr, hrun⟩ := ih _ _ _ _ _ h
          refine ⟨by simpa [msleep] using hl, _, ?_,
            PollRun.step status polling a b d tr r hs hp ha hb hd hd' hrun⟩
          rw [htr]
          simp [pollIter, msleep]

/-- With `polling` between 0 and the bound, `TH02_MAX_RETRY - polling + 1` units
of fuel are enough for the poll loop to return. -/
theorem poll_loop_returns (client : Bus) :
    ∀ (fuel : Nat) (device : th02_device) (status : Nat) (polling : Int),
      0 ≤ polling → polling ≤ TH02_MAX_RETRY → TH02_MAX_RETRY - polling < fuel →
      ∃ x, poll_loop client fuel device status polling = some x := by
  intro fuel
  induction fuel with
  | zero =>
    intro device status polling h0 h1 h2
    exfalso
    simp only [TH02_MAX_RETRY] at h1 h2
    omega
  | succ fuel ih =>
    intro device status polling h0 h1 h2
    unfold poll_loop
    by_cases hs : status = 0
    · simp [hs]
    · by_cases hp : polling = TH02_MAX_RETRY
      · simp [hs, hp]
      · simp only [ne_eq, hs, not_false_eq_true, hp, if_true]
        split
        · exact ⟨_, rfl⟩
        · apply ih
          · omega
          · simp only [TH02_MAX_RETRY] at h1 hp ⊢
            omega
          · simp only [TH02_MAX_RETRY] at h2 ⊢
            push_cast at h2 ⊢
            omega

/-- The two ways `write_config` can go. -/
theorem write_config_cases (client : Bus) (device : th02_device) (config : Nat) :
    (∃ e : Int, e < 0 ∧ write_config client device config =
        (e, ⟨device.lock, device.log ++ [Event.send [TH02_CONFIG, config] e]⟩)) ∨
    (∃ a : Int, 0 ≤ a ∧ write_config client device config =
        (0, ⟨device.lock, device.log ++ [Event.send [TH02_CONFIG, config] a]⟩)) := by
  unfold write_config
  simp only [i2c_master_send]
  split
  · next h1 => exact Or.inl ⟨_, h1, rfl⟩
  · next h1 => exact Or.inr ⟨_, Int.not_lt.1 h1, rfl⟩

/-- The four ways `read_data` can go on the zeroed buffer of `read_sensor`. -/
theorem read_data_cases (client : Bus) (device : th02_device) :
    (∃ e : Int, e < 0 ∧ read_data client device [0, 0] =
        (e, [0, 0], ⟨device.lock, device.log ++ [Event.send [TH02_DATA] e]⟩)) ∨
    (∃ (b e : Int) (d : List Nat), 0 ≤ b ∧ e < 0 ∧ read_data client device [0, 0] =
        (e, bufAfter d,
          ⟨device.lock, device.log ++ [Event.send [TH02_DATA] b, Event.recv 2 e d]⟩)) ∨
    (∃ (b n : Int) (d : List Nat), 0 ≤ b ∧ 0 ≤ n ∧ n ≠ 2 ∧
      read_data client device [0, 0] =
        (- EIO, bufAfter d,
          ⟨device.lock, device.log ++ [Event.send [TH02_DATA] b, Event.recv 2 n d]⟩)) ∨
    (∃ (b : Int) (d : List Nat), 0 ≤ b ∧ d.length ≤ 2 ∧ (∀ x ∈ d, x < 256) ∧
      read_data client device [0, 0] =
        (0, bufAfter d,
          ⟨device.lock, device.log ++ [Event.send [TH02_DATA] b, Event.recv 2 2 d]⟩)) := by
  unfold read_data
  simp only [i2c_master_send, i2c_master_recv]
  generalize client.send device.log [TH02_DATA] = b
  generalize client.recv (device.log ++ [Event.send [TH02_DATA] b]) 2 = r
  split
  · next h1 => exact Or.inl ⟨_, h1, rfl⟩
  · next h1 =>
    split
    · next h2 =>
      refine Or.inr (Or.inl ⟨b, r.1, (r.2.take 2).map (fun b => b % 256),
        Int.not_lt.1 h1, h2, ?_⟩)
      simp only [bufAfter, List.append_assoc, List.singleton_append]
    · next h2 =>
      split
      · next h3 =>
        refine Or.inr (Or.inr (Or.inl ⟨b, r.1, (r.2.take 2).map (fun b => b % 256),
          Int.not_lt.1 h1, Int.not_lt.1 h2, h3, ?_⟩))
        simp only [bufAfter, List.append_assoc, List.singleton_append]
      · next h3 =>
        have h3' : r.1 = 2 := not_not.1 h3
        refine Or.inr (Or.inr (Or.inr ⟨b, (r.2.take 2).map (fun b => b % 256),
          Int.not_lt.1 h1, stored_length _ 2, stored_lt _ 2, ?_⟩))
        simp only [bufAfter, List.append_assoc, List.singleton_append, h3']

/-- A valid channel type has a CONFIG byte, the one `read_sensor` selects. -/
theorem config_of_valid (type : Int) (h : type = IIO_TEMP ∨ type = IIO_HUMIDITYRELATIVE) :
    ∃ cfg, IsConfig type cfg ∧
      (if type = IIO_TEMP then some ((BIT TH02_CONFIG_TEMP ||| BIT TH02_CONFIG_START) % 256)
        else if type = IIO_HUMIDITYRELATIVE then some (BIT TH02_CONFIG_START % 256)
        else none) = some cfg := by
  by_cases ht : type = IIO_TEMP
  · exact ⟨_, Or.inl ⟨ht, rfl⟩, by simp [ht]⟩
  · rcases h with h | h
    · exact absurd h ht
    · exact ⟨_, Or.inr ⟨ht, h, rfl⟩, by rw [if_neg ht, if_pos h]⟩

/-- Every returning call of `read_sensor` appends a trace described by
`SensorRun` and leaves the mutex as it found it. -/
theorem read_sensor_run (fuel : Nat) (client : Bus) (device : th02_device) (type result : Int)
    (ret result' : Int) (device' : th02_device)
    (h : read_sensor fuel client device type result = some (ret, result', device')) :
    device'.lock = device.lock ∧
      ∃ tr, device'.log = device.log ++ tr ∧ SensorRun type result tr ret result' := by
  unfold read_sensor at h
  by_cases hv : type = IIO_TEMP ∨ type = IIO_HUMIDITYRELATIVE
  · obtain ⟨cfg, hcfg, hsel⟩ := config_of_valid type hv
    simp only [hsel] at h
    by_cases hl : device.lock = true
    · simp [mutex_lock, hl] at h
    · have hl' : device.lock = false := by simpa using hl
      simp only [mutex_lock, hl', Bool.false_eq_true, if_false] at h
      rcases write_config_cases client ⟨true, device.log ++ [Event.lock]⟩ cfg with
        ⟨e, he, heq⟩ | ⟨a, ha, heq⟩
      · rw [heq] at h
        simp only [he, if_true, Option.some.injEq, Prod.mk.injEq] at h
        obtain ⟨rfl, rfl, rfl⟩ := h
        exact ⟨by simp [mutex_unlock, hl'], _, by simp [mutex_unlock],
          SensorRun.config_fail cfg _ hcfg he⟩
      · rw [heq] at h
        simp only [lt_self_iff_false, if_false] at h
        split at h
        · exact absurd h (by simp)
        · next d3 e hpoll =>
          obtain ⟨_, tr, htr, hrun⟩ := poll_loop_run client _ _ _ _ _ _ hpoll
          simp only at htr
          simp only [Option.some.injEq, Prod.mk.injEq] at h
          obtain ⟨rfl, rfl, rfl⟩ := h
          exact ⟨by simp [mutex_unlock, hl'], _, by simp [mutex_unlock, htr],
            SensorRun.poll_fail cfg a _ tr hcfg ha hrun⟩
        · next d3 hpoll =>
          obtain ⟨_, tr, htr, hrun⟩ := poll_loop_run client _ _ _ _ _ _ hpoll
          simp only at htr
          rcases read_data_cases client d3 with
            ⟨e, he, hq⟩ | ⟨b, e, d, hb, he, hq⟩ | ⟨b, n, d, hb, hn, hn2, hq⟩ |
              ⟨b, d, hb, hd, hd', hq⟩
          · rw [hq] at h
            simp only [he, if_true, Option.some.injEq, Prod.mk.injEq] at h
            obtain ⟨rfl, rfl, rfl⟩ := h
            exact ⟨by simp [mutex_unlock, hl'], _, by simp [mutex_unlock, htr],
              SensorRun.data_send_fail cfg a _ tr hcfg ha hrun he⟩
          · rw [hq] at h
            simp only [he, if_true, Option.some.injEq, Prod.mk.injEq] at h
            obtain ⟨rfl, rfl, rfl⟩ := h
            exact ⟨by simp [mutex_unlock, hl'], _, by simp [mutex_unlock, htr],
              SensorRun.data_recv_fail cfg a b _ tr d hcfg ha hrun hb he⟩
          · rw [hq] at h
            have hneg : - EIO < 0 := by decide
            simp only [hneg, if_true, Option.some.injEq, Prod.mk.injEq] at h
            obtain ⟨rfl, rfl, rfl⟩ := h
            exact ⟨by simp [mutex_unlock, hl'], _, by simp [mutex_unlock, htr],
              SensorRun.data_short cfg a b n tr d hcfg ha hrun hb hn hn2⟩
          · rw [hq] at h
            simp only [lt_self_iff_false, if_false] at h
            rcases hcfg with ⟨ht, hc⟩ | ⟨ht, hh, hc⟩
            · simp only [ht, if_true, Option.some.injEq, Prod.mk.injEq] at h
              obtain ⟨rfl, rfl, rfl⟩ := h
              refine ⟨by simp [mutex_unlock, hl'],
              [Event.lock, Event.send [TH02_CONFIG, cfg] a] ++ tr ++
                [Event.send [TH02_DATA] b, Event.recv 2 2 d, Event.unlock],
              by simp [mutex_unlock, htr], ?_⟩
              have := @SensorRun.done type result cfg a b tr d
                (Or.inl ⟨ht, hc⟩) ha hrun hb hd hd'
              simpa [convert, ht] using this
            · simp only [ht, hh, if_true, if_false, Option.some.injEq, Prod.mk.injEq] at h
              obtain ⟨rfl, rfl, rfl⟩ := h
              refine ⟨by simp [mutex_unlock, hl'],
              [Event.lock, Event.send [TH02_CONFIG, cfg] a] ++ tr ++
                [Event.send [TH02_DATA] b, Event.recv 2 2 d, Event.unlock],
              by simp [mutex_unlock, htr], ?_⟩
              have := @SensorRun.done type result cfg a b tr d
                (Or.inr ⟨ht, hh, hc⟩) ha hrun hb hd hd'
              simpa [convert, ht, hh] using this
  · have h1 : type ≠ IIO_TEMP := fun c => hv (Or.inl c)
    have h2 : type ≠ IIO_HUMIDITYRELATIVE := fun c => hv (Or.inr c)
    simp only [h1, h2, if_false, Option.some.injEq, Prod.mk.injEq] at h
    obtain ⟨rfl, rfl, rfl⟩ := h
    exact ⟨rfl, [], by simp, SensorRun.invalid h1 h2⟩

/-- A call of `read_sensor` returns whenever the mutex is free and the fuel
exceeds the poll bound. -/
theorem read_sensor_returns (fuel : Nat) (client : Bus) (device : th02_device)
    (type result : Int) (hfuel : 16 < fuel) (hlock : device.lock = false) :
    ∃ x, read_sensor fuel client device type result = some x := by
  unfold read_sensor
  by_cases hv : type = IIO_TEMP ∨ type = IIO_HUMIDITYRELATIVE
  · obtain ⟨cfg, _, hsel⟩ := config_of_valid type hv
    simp only [hsel, mutex_lock, hlock, Bool.false_eq_true, if_false]
    split
    · exact ⟨_, rfl⟩
    · obtain ⟨x, hx⟩ := poll_loop_returns client fuel
        (write_config client ⟨true, device.log ++ [Event.lock]⟩ cfg).2 1 0 (le_refl 0)
        (by decide) (by simp only [TH02_MAX_RETRY]; omega)
      rw [hx]
      obtain ⟨d3, r⟩ := x
      cases r with
      | some e => exact ⟨_, rfl⟩
      | none =>
        simp only
        split
        · exact ⟨_, rfl⟩
        · split
          · exact ⟨_, rfl⟩
          · split <;> exact ⟨_, rfl⟩
  · have h1 : type ≠ IIO_TEMP := fun c => hv (Or.inl c)
    have h2 : type ≠ IIO_HUMIDITYRELATIVE := fun c => hv (Or.inr c)
    simp only [h1, h2, if_false]
    exact ⟨_, rfl⟩

/-! ## Facts about poll traces -/

theorem pollRun_mem {s : Nat} {p : Int} {tr : List Event} {r : Option Int}
    (h : PollRun s p tr r) :
    ∀ e ∈ tr, e = Event.msleep 1 ∨ (∃ a, e = Event.send [TH02_STATUS] a) ∨
      ∃ b d, e = Event.recv 1 b d := by
  induction h with
  | idle p => intro e he; simp at he
  | exhausted s _ => intro e he; simp at he
  | send_fail s p e _ _ _ =>
    intro x hx
    simp only [List.mem_cons, List.mem_singleton, List.not_mem_nil, or_false] at hx
    rcases hx with rfl | rfl
    · exact Or.inl rfl
    · exact Or.inr (Or.inl ⟨_, rfl⟩)
  | recv_fail s p a e d _ _ _ _ =>
    intro x hx
    simp only [pollIter, List.mem_cons, List.mem_singleton, List.not_mem_nil, or_false] at hx
    rcases hx with rfl | rfl | rfl
    · exact Or.inl rfl
    · exact Or.inr (Or.inl ⟨_, rfl⟩)
    · exact Or.inr (Or.inr ⟨_, _, rfl⟩)
  | step s p a b d tr r _ _ _ _ _ _ _ ih =>
    intro x hx
    simp only [pollIter, List.cons_append, List.nil_append, List.mem_cons] at hx
    rcases hx with rfl | rfl | rfl | hx
    · exact Or.inl rfl
    · exact Or.inr (Or.inl ⟨_, rfl⟩)
    · exact Or.inr (Or.inr ⟨_, _, rfl⟩)
    · exact ih x hx

/-- A poll loop left through its condition saw no failing bus primitive. -/
theorem pollRun_none_noFail {s : Nat} {p : Int} {tr : List Event} {r : Option Int}
    (h : PollRun s p tr r) : r = none → NoFail tr := by
  induction h with
  | idle p => intro _ e he; simp at he
  | exhausted s _ => intro _ e he; simp at he
  | send_fail s p e _ _ _ => intro hr; cases hr
  | recv_fail s p a e d _ _ _ _ => intro hr; cases hr
  | step s p a b d tr r _ _ ha hb _ _ _ ih =>
    intro hr x hx y hy
    simp only [pollIter, List.cons_append, List.nil_append, List.mem_cons] at hx
    rcases hx with rfl | rfl | rfl | hx
    · simp [Event.busRet] at hy
    · simp only [Event.busRet, Option.some.injEq] at hy; omega
    · simp only [Event.busRet, Option.some.injEq] at hy; omega
    · exact ih hr x hx y hy

/-- A poll loop left through `goto err` ends with the failing bus primitive,
whose negative return value is the one carried out; nothing before it failed. -/
theorem pollRun_some {s : Nat} {p : Int} {tr : List Event} {r : Option Int}
    (h : PollRun s p tr r) : ∀ e, r = some e →
      e < 0 ∧ ∃ good f, tr = good ++ [f] ∧ NoFail good ∧ f.busRet = some e := by
  induction h with
  | idle p => intro e hr; cases hr
  | exhausted s _ => intro e hr; cases hr
  | send_fail s p e _ _ he =>
    intro e' hr
    cases hr
    refine ⟨he, [Event.msleep 1], _, rfl, ?_, rfl⟩
    intro x hx y hy
    simp only [List.mem_singleton] at hx
    subst hx
    simp [Event.busRet] at hy
  | recv_fail s p a e d _ _ ha he =>
    intro e' hr
    cases hr
    refine ⟨he, [Event.msleep 1, Event.send [TH02_STATUS] a], _, rfl, ?_, rfl⟩
    intro x hx y hy
    simp only [List.mem_cons, List.mem_singleton, List.not_mem_nil, or_false] at hx
    rcases hx with rfl | rfl
    · simp [Event.busRet] at hy
    · simp only [Event.busRet, Option.some.injEq] at hy; omega
  | step s p a b d tr r _ _ ha hb _ _ _ ih =>
    intro e hr
    obtain ⟨he, good, f, htr, hgood, hf⟩ := ih e hr
    refine ⟨he, pollIter a b d ++ good, f, by rw [htr, List.append_assoc], ?_, hf⟩
    intro x hx y hy
    simp only [pollIter, List.cons_append, List.nil_append, List.mem_cons] at hx
    rcases hx with rfl | rfl | rfl | hx
    · simp [Event.busRet] at hy
    · simp only [Event.busRet, Option.some.injEq] at hy; omega
    · simp only [Event.busRet, Option.some.injEq] at hy; omega
    · exact hgood x hx y hy

theorem busTrace_pollIter (a b : Int) (d : List Nat) (tr : List Event) :
    busTrace (pollIter a b d ++ tr) =
      Event.send [TH02_STATUS] a :: Event.recv 1 b d :: busTrace tr := by
  simp [busTrace, pollIter, List.filter, Event.isBus, Event.busRet]

/-- A poll loop left through its condition made at most `TH02_MAX_RETRY - polling`
STATUS reads and nothing else on the bus, and at least one when it was entered
with a non-zero status below the bound. -/
theorem pollRun_shape {s : Nat} {p : Int} {tr : List Event} {r : Option Int}
    (h : PollRun s p tr r) : r = none → 0 ≤ p → p ≤ TH02_MAX_RETRY →
      ∃ ss : List (Int × Int × List Nat), (ss.length : Int) ≤ TH02_MAX_RETRY - p ∧
        (s ≠ 0 → p < TH02_MAX_RETRY → 1 ≤ ss.length) ∧ busTrace tr = statusReads ss := by
  induction h with
  | idle p =>
    intro _ _ h1
    exact ⟨[], by simpa using h1, fun h => absurd rfl h, rfl⟩
  | exhausted s _ =>
    intro _ _ _
    exact ⟨[], by simp, fun _ h => absurd h (lt_irrefl _), rfl⟩
  | send_fail s p e _ _ _ => intro hr; cases hr
  | recv_fail s p a e d _ _ _ _ => intro hr; cases hr
  | step s p a b d tr r _ hp _ _ _ _ _ ih =>
    intro hr h0 h1
    have h1' : p + 1 ≤ TH02_MAX_RETRY := by
      simp only [TH02_MAX_RETRY] at h1 hp ⊢
      omega
    obtain ⟨ss, hlen, _, htr⟩ := ih hr (by omega) h1'
    refine ⟨(a, b, d) :: ss, ?_, fun _ _ => by simp, ?_⟩
    · simp only [List.length_cons, Nat.cast_add, Nat.cast_one]
      omega
    · rw [busTrace_pollIter, htr, statusReads]

/-- A poll loop that is entered with a non-zero status and whose STATUS reads
all succeed and deliver a byte with bit 0 set makes exactly
`TH02_MAX_RETRY - polling` STATUS reads and is left through its condition. -/
theorem pollRun_busy {s : Nat} {p : Int} {tr : List Event} {r : Option Int}
    (h : PollRun s p tr r) : s ≠ 0 → 0 ≤ p → p ≤ TH02_MAX_RETRY →
      (∀ a, Event.send [TH02_STATUS] a ∈ tr → 0 ≤ a) →
      (∀ b d, Event.recv 1 b d ∈ tr → 0 ≤ b ∧ ∃ x, d = [x] ∧ x % 2 = 1) →
      r = none ∧ ∃ ss : List (Int × Int × List Nat),
        (ss.length : Int) = TH02_MAX_RETRY - p ∧ busTrace tr = statusReads ss := by
  induction h with
  | idle p => intro h; exact absurd rfl h
  | exhausted s _ =>
    intro _ _ _ _ _
    exact ⟨rfl, [], by simp, rfl⟩
  | send_fail s p e _ _ he =>
    intro _ _ _ hsend _
    have := hsend e (by simp)
    omega
  | recv_fail s p a e d _ _ _ he =>
    intro _ _ _ _ hrecv
    have := (hrecv e d (by simp [pollIter])).1
    omega
  | step s p a b d tr r _ hp _ _ _ _ _ ih =>
    intro _ h0 h1 hsend hrecv
    have h1' : p + 1 ≤ TH02_MAX_RETRY := by
      simp only [TH02_MAX_RETRY] at h1 hp ⊢
      omega
    obtain ⟨_, x, hx, hodd⟩ := hrecv b d (by simp [pollIter])
    have hne : d.headD s ≠ 0 := by
      subst hx
      simp only [List.headD_cons]
      omega
    obtain ⟨hr, ss, hlen, htr⟩ := ih hne (by omega) h1'
      (fun a' ha' => hsend a' (List.mem_append_right _ ha'))
      (fun b' d' hb' => hrecv b' d' (List.mem_append_right _ hb'))
    refine ⟨hr, (a, b, d) :: ss, ?_, ?_⟩
    · simp only [List.length_cons, Nat.cast_add, Nat.cast_one]
      omega
    · rw [busTrace_pollIter, htr, statusReads]

/-! ## Facts about the traces of `read_sensor` -/

theorem pollRun_no_recv2 {s : Nat} {p : Int} {tr : List Event} {r : Option Int}
    (h : PollRun s p tr r) (n : Int) (d : List Nat) : Event.recv 2 n d ∉ tr := by
  intro hmem
  rcases pollRun_mem h _ hmem with h1 | ⟨a, h1⟩ | ⟨b, d', h1⟩
  · cases h1
  · cases h1
  · cases h1

theorem ok_busRet {e : Event} (h : e.ok) (x : Int) (hx : e.busRet = some x) : 0 ≤ x := by
  cases e with
  | lock => simp [Event.busRet] at hx
  | unlock => simp [Event.busRet] at hx
  | msleep m => simp [Event.busRet] at hx
  | send bytes ret =>
    simp only [Event.busRet, Option.some.injEq] at hx
    simp only [Event.ok] at h
    omega
  | recv count ret data =>
    simp only [Event.busRet, Option.some.injEq] at hx
    simp only [Event.ok] at h
    omega

/-- The 2-byte receive decides the outcome: a negative return value is passed
on, any other count than 2 gives `-EIO`, and 2 gives success with the value
converted from the buffer. -/
theorem sensorRun_data {type result : Int} {tr : List Event} {ret result' : Int}
    (h : SensorRun type result tr ret result') (n : Int) (d : List Nat)
    (hmem : Event.recv 2 n d ∈ tr) :
    (n < 0 ∧ ret = n ∧ result' = result) ∨
    (0 ≤ n ∧ n ≠ 2 ∧ ret = - EIO ∧ result' = result) ∨
    (n = 2 ∧ ret = 0 ∧ result' = convert type (bufAfter d) ∧ d.length ≤ 2 ∧
      ∀ x ∈ d, x < 256) := by
  cases h with
  | invalid _ _ => simp at hmem
  | config_fail cfg e _ _ => simp at hmem
  | poll_fail cfg a e tr' _ _ hp =>
    simp at hmem
    exact absurd hmem (pollRun_no_recv2 hp n d)
  | data_send_fail cfg a e tr' _ _ hp _ =>
    simp at hmem
    exact absurd hmem (pollRun_no_recv2 hp n d)
  | data_recv_fail cfg a b e tr' d' _ _ hp _ he =>
    simp at hmem
    rcases hmem with hmem | ⟨rfl, rfl⟩
    · exact absurd hmem (pollRun_no_recv2 hp n d)
    · exact Or.inl ⟨he, rfl, rfl⟩
  | data_short cfg a b m tr' d' _ _ hp _ hm hm2 =>
    simp at hmem
    rcases hmem with hmem | ⟨rfl, rfl⟩
    · exact absurd hmem (pollRun_no_recv2 hp n d)
    · exact Or.inr (Or.inl ⟨hm, hm2, rfl, rfl⟩)
  | done cfg a b tr' d' _ _ hp _ hd hd' =>
    simp at hmem
    rcases hmem with hmem | ⟨rfl, rfl⟩
    · exact absurd hmem (pollRun_no_recv2 hp n d)
    · exact Or.inr (Or.inr ⟨rfl, rfl, rfl, hd, hd'⟩)

/-- When every bus primitive of a call for a valid channel type succeeds in
full, the call returns 0 and its trace has the 2-byte receive of a sample. -/
theorem sensorRun_ok {type result : Int} {tr : List Event} {ret result' : Int}
    (h : SensorRun type result tr ret result')
    (hv : type = IIO_TEMP ∨ type = IIO_HUMIDITYRELATIVE) (hok : ∀ e ∈ tr, e.ok) :
    ret = 0 ∧ ∃ low high, Event.recv 2 2 [low, high] ∈ tr := by
  cases h with
  | invalid h1 h2 => rcases hv with hv | hv <;> contradiction
  | config_fail cfg e _ he =>
    have := ok_busRet (hok (Event.send [TH02_CONFIG, cfg] ret) (by simp)) ret rfl
    omega
  | poll_fail cfg a e tr' _ _ hp =>
    obtain ⟨he, good, f, rfl, _, hf⟩ := pollRun_some hp ret rfl
    have := ok_busRet (hok f (by simp)) ret hf
    omega
  | data_send_fail cfg a e tr' _ _ hp he =>
    have := ok_busRet (hok (Event.send [TH02_DATA] ret) (by simp)) ret rfl
    omega
  | data_recv_fail cfg a b e tr' d _ _ hp _ he =>
    have := ok_busRet (hok (Event.recv 2 ret d) (by simp)) ret rfl
    omega
  | data_short cfg a b n tr' d _ _ hp _ _ hn2 =>
    have := hok (Event.recv 2 n d) (by simp)
    simp only [Event.ok] at this
    exact absurd this.1 (by simpa using hn2)
  | done cfg a b tr' d _ _ hp _ _ _ =>
    have := hok (Event.recv 2 2 d) (by simp)
    simp only [Event.ok] at this
    obtain ⟨_, hlen⟩ := this
    match d, hlen with
    | [low, high], _ => exact ⟨rfl, low, high, by simp⟩

theorem convert_temp (low high : Nat) :
    convert IIO_TEMP (bufAfter [low, high]) =
      (((high <<< 6 ||| low >>> 2) / 32 : Nat) : Int) - 50 := by
  simp only [convert, bufAfter, if_true]
  rw [Int.ofNat_tdiv]
  rfl

theorem convert_humidity (low high : Nat) :
    convert IIO_HUMIDITYRELATIVE (bufAfter [low, high]) =
      (((high <<< 4 ||| low >>> 4) / 16 : Nat) : Int) - 24 := by
  have hne : ¬ (IIO_HUMIDITYRELATIVE = IIO_TEMP) := by decide
  simp only [convert, bufAfter, hne, if_false]
  rw [Int.ofNat_tdiv]
  rfl

theorem busTrace_append (l1 l2 : List Event) :
    busTrace (l1 ++ l2) = busTrace l1 ++ busTrace l2 := by
  simp [busTrace]

/-- A call that returned 0 wrote CONFIG once, made between one and
`TH02_MAX_RETRY` STATUS reads, then read DATA once, receiving 2 bytes. -/
theorem sensorRun_zero {type result : Int} {tr : List Event} {ret result' : Int}
    (h : SensorRun type result tr ret result') (h0 : ret = 0) :
    (type = IIO_TEMP ∨ type = IIO_HUMIDITYRELATIVE) ∧
    ∃ (cfg : Nat) (a : Int) (ss : List (Int × Int × List Nat)) (b : Int) (d : List Nat),
      1 ≤ ss.length ∧ ss.length ≤ 16 ∧
      busTrace tr = Event.send [TH02_CONFIG, cfg] a ::
        (statusReads ss ++ [Event.send [TH02_DATA] b, Event.recv 2 2 d]) := by
  cases h with
  | invalid _ _ => exact absurd h0 (by decide)
  | config_fail cfg _ _ he => omega
  | poll_fail cfg a _ tr' _ _ hp =>
    have := (pollRun_some hp ret rfl).1
    omega
  | data_send_fail cfg a _ tr' _ _ hp he => omega
  | data_recv_fail cfg a b _ tr' d _ _ hp _ he => omega
  | data_short cfg a b n tr' d _ _ hp _ _ _ => exact absurd h0 (by decide)
  | done cfg a b tr' d hcfg _ hp _ _ _ =>
    obtain ⟨ss, hlen, hpos, htr⟩ := pollRun_shape hp rfl (le_refl 0) (by decide)
    refine ⟨?_, cfg, a, ss, b, d, hpos (by decide) (by decide), ?_, ?_⟩
    · rcases hcfg with ⟨h, _⟩ | ⟨_, h, _⟩
      · exact Or.inl h
      · exact Or.inr h
    · simp only [TH02_MAX_RETRY] at hlen
      omega
    · rw [busTrace_append, busTrace_append, htr]
      rfl

/-- A call for a valid channel type whose CONFIG write succeeds and whose STATUS
reads all succeed and deliver a byte with bit 0 set makes exactly
`TH02_MAX_RETRY` STATUS reads and then the DATA read: the address send and,
unless that send returned a negative value (which the call then returns), the
2-byte receive, whose return value decides the outcome. -/
theorem sensorRun_busy {type result : Int} {tr : List Event} {ret result' : Int}
    (h : SensorRun type result tr ret result')
    (hv : type = IIO_TEMP ∨ type = IIO_HUMIDITYRELATIVE)
    (hconfig : ∀ v a, Event.send [TH02_CONFIG, v] a ∈ tr → 0 ≤ a)
    (hsend : ∀ a, Event.send [TH02_STATUS] a ∈ tr → 0 ≤ a)
    (hrecv : ∀ b d, Event.recv 1 b d ∈ tr → 0 ≤ b ∧ ∃ x, d = [x] ∧ x % 2 = 1) :
    ∃ (cfg : Nat) (a : Int) (ss : List (Int × Int × List Nat)) (c : Int)
      (rest : List Event),
      ss.length = 16 ∧
      busTrace tr = Event.send [TH02_CONFIG, cfg] a ::
        (statusReads ss ++ Event.send [TH02_DATA] c :: rest) ∧
      ((c < 0 ∧ rest = [] ∧ ret = c ∧ result' = result) ∨
        (0 ≤ c ∧ ∃ n d, rest = [Event.recv 2 n d] ∧
          (n = 2 → ret = 0 ∧ result' = convert type (bufAfter d)) ∧
          (n < 0 → ret = n ∧ result' = result) ∧
          (0 ≤ n → n ≠ 2 → ret = - EIO ∧ result' = result))) := by
  have key : ∀ (l1 : List Event) (tr' l2 : List Event) (r : Option Int),
      tr = l1 ++ tr' ++ l2 → PollRun 1 0 tr' r →
      r = none ∧ ∃ ss : List (Int × Int × List Nat),
        ss.length = 16 ∧ busTrace tr' = statusReads ss := by
    intro l1 tr' l2 r htr hp
    obtain ⟨hr, ss, hlen, hss⟩ := pollRun_busy hp (by decide) (le_refl 0) (by decide)
      (fun a ha => hsend a (by rw [htr]; simp [ha]))
      (fun b d hb => hrecv b d (by rw [htr]; simp [hb]))
    refine ⟨hr, ss, ?_, hss⟩
    simp only [TH02_MAX_RETRY] at hlen
    omega
  cases h with
  | invalid h1 h2 => rcases hv with hv | hv <;> contradiction
  | config_fail cfg _ _ he =>
    have := hconfig cfg ret (by simp)
    omega
  | poll_fail cfg a _ tr' _ _ hp =>
    have := (key _ tr' _ _ rfl hp).1
    cases this
  | data_send_fail cfg a _ tr' _ _ hp he =>
    obtain ⟨_, ss, hlen, hss⟩ := key _ tr' _ _ rfl hp
    refine ⟨cfg, a, ss, ret, [], hlen, ?_, Or.inl ⟨he, rfl, rfl, rfl⟩⟩
    rw [busTrace_append, busTrace_append, hss]
    rfl
  | data_recv_fail cfg a b _ tr' d _ _ hp hb he =>
    obtain ⟨_, ss, hlen, hss⟩ := key _ tr' _ _ rfl hp
    refine ⟨cfg, a, ss, b, [Event.recv 2 ret d], hlen, ?_,
      Or.inr ⟨hb, ret, d, rfl, ?_, fun _ => ⟨rfl, rfl⟩, ?_⟩⟩
    · rw [busTrace_append, busTrace_append, hss]
      rfl
    · intro h2
      omega
    · intro h0 _
      omega
  | data_short cfg a b n tr' d _ _ hp hb hn hn2 =>
    obtain ⟨_, ss, hlen, hss⟩ := key _ tr' _ _ rfl hp
    refine ⟨cfg, a, ss, b, [Event.recv 2 n d], hlen, ?_,
      Or.inr ⟨hb, n, d, rfl, fun h2 => absurd h2 hn2, ?_, fun _ _ => ⟨rfl, rfl⟩⟩⟩
    · rw [busTrace_append, busTrace_append, hss]
      rfl
    · intro hneg
      omega
  | done cfg a b tr' d _ _ hp hb _ _ =>
    obtain ⟨_, ss, hlen, hss⟩ := key _ tr' _ _ rfl hp
    refine ⟨cfg, a, ss, b, [Event.recv 2 2 d], hlen, ?_,
      Or.inr ⟨hb, 2, d, rfl, fun _ => ⟨rfl, rfl⟩, ?_, fun _ h2 => absurd rfl h2⟩⟩
    · rw [busTrace_append, busTrace_append, hss]
      rfl
    · intro hneg
      omega

theorem noFail_append {l1 l2 : List Event} (h1 : NoFail l1) (h2 : NoFail l2) :
    NoFail (l1 ++ l2) := by
  intro e he x hx
  rcases List.mem_append.1 he with h | h
  · exact h1 e h x hx
  · exact h2 e h x hx

theorem noFail_cons {e : Event} {l : List Event} (h1 : ∀ x, e.busRet = some x → 0 ≤ x)
    (h2 : NoFail l) : NoFail (e :: l) := by
  intro e' he x hx
  rcases List.mem_cons.1 he with h | h
  · subst h
    exact h1 x hx
  · exact h2 e' h x hx

theorem noFail_nil : NoFail [] := by
  intro e he
  simp at he

/-- In a trace `good ++ f :: tail` where nothing in `good` failed and `tail` has
no bus primitive, a failing bus primitive can only sit at the place of `f`. -/
theorem fail_last {good tail pre post : List Event} {f e : Event} {x : Int}
    (hgood : NoFail good) (htail : ∀ t ∈ tail, t.busRet = none)
    (heq : good ++ f :: tail = pre ++ e :: post) (he : e.busRet = some x) (hx : x < 0) :
    e = f ∧ post = tail := by
  rcases List.append_eq_append_iff.1 heq with ⟨a', hpre, hrest⟩ | ⟨c', hgd, hrest⟩
  · cases a' with
    | nil =>
      simp only [List.nil_append, List.cons.injEq] at hrest
      exact ⟨hrest.1.symm, hrest.2.symm⟩
    | cons y ys =>
      simp only [List.cons_append, List.cons.injEq] at hrest
      have hmem : e ∈ tail := by rw [hrest.2]; simp
      have := htail e hmem
      rw [he] at this
      cases this
  · cases c' with
    | nil =>
      simp only [List.nil_append, List.cons.injEq] at hrest
      exact ⟨hrest.1, hrest.2⟩
    | cons y ys =>
      simp only [List.cons_append, List.cons.injEq] at hrest
      have hmem : e ∈ good := by rw [hgd, hrest.1]; simp
      have := hgood e hmem x he
      omega

theorem noFail_decomp {tr pre post : List Event} {e : Event} {x : Int}
    (h : NoFail tr) (heq : tr = pre ++ e :: post) (he : e.busRet = some x) (hx : x < 0) :
    False := by
  have := h e (by rw [heq]; simp) x he
  omega

/-- A negative value returned by a bus primitive of a call is the value the call
returns, and no bus primitive follows the failing one. -/
theorem sensorRun_fail {type result : Int} {tr : List Event} {ret result' : Int}
    (h : SensorRun type result tr ret result') (pre : List Event) (e : Event)
    (post : List Event) (x : Int) (heq : tr = pre ++ e :: post)
    (he : e.busRet = some x) (hx : x < 0) : ret = x ∧ busTrace post = [] := by
  have hlock : ∀ y, Event.lock.busRet = some y → 0 ≤ y := by
    intro y hy; simp [Event.busRet] at hy
  have hunlock : ∀ t ∈ [Event.unlock], t.busRet = none := by
    intro t ht
    simp only [List.mem_singleton] at ht
    subst ht
    rfl
  have hnn : ∀ (bytes : List Nat) (a : Int), 0 ≤ a →
      ∀ y, (Event.send bytes a).busRet = some y → 0 ≤ y := by
    intro bytes a ha y hy
    simp only [Event.busRet, Option.some.injEq] at hy
    omega
  have hnr : ∀ (d : List Nat) (a : Int), 0 ≤ a →
      ∀ y, (Event.recv 2 a d).busRet = some y → 0 ≤ y := by
    intro d a ha y hy
    simp only [Event.busRet, Option.some.injEq] at hy
    omega
  cases h with
  | invalid _ _ => simp at heq
  | config_fail cfg _ _ _ =>
    have hg : NoFail [Event.lock] := noFail_cons hlock noFail_nil
    obtain ⟨h1, h2⟩ := fail_last hg hunlock
      (show [Event.lock] ++ Event.send [TH02_CONFIG, cfg] ret :: [Event.unlock] = _ from heq)
      he hx
    subst h1 h2
    simp only [Event.busRet, Option.some.injEq] at he
    exact ⟨he, rfl⟩
  | poll_fail cfg a _ tr' _ ha hp =>
    obtain ⟨_, good, f, rfl, hgood, hf⟩ := pollRun_some hp ret rfl
    have hg : NoFail ([Event.lock, Event.send [TH02_CONFIG, cfg] a] ++ good) :=
      noFail_append (noFail_cons hlock (noFail_cons (hnn _ a ha) noFail_nil)) hgood
    obtain ⟨h1, h2⟩ := fail_last hg hunlock
      (show ([Event.lock, Event.send [TH02_CONFIG, cfg] a] ++ good) ++ f :: [Event.unlock]
        = _ by rw [← heq]; simp) he hx
    subst h1 h2
    rw [hf] at he
    exact ⟨by simpa using he, rfl⟩
  | data_send_fail cfg a _ tr' _ ha hp _ =>
    have hg : NoFail ([Event.lock, Event.send [TH02_CONFIG, cfg] a] ++ tr') :=
      noFail_append (noFail_cons hlock (noFail_cons (hnn _ a ha) noFail_nil))
        (pollRun_none_noFail hp rfl)
    obtain ⟨h1, h2⟩ := fail_last hg hunlock
      (show ([Event.lock, Event.send [TH02_CONFIG, cfg] a] ++ tr') ++
        Event.send [TH02_DATA] ret :: [Event.unlock] = _ by rw [← heq]) he hx
    subst h1 h2
    simp only [Event.busRet, Option.some.injEq] at he
    exact ⟨he, rfl⟩
  | data_recv_fail cfg a b _ tr' d _ ha hp hb _ =>
    have hg : NoFail ([Event.lock, Event.send [TH02_CONFIG, cfg] a] ++ tr' ++
        [Event.send [TH02_DATA] b]) :=
      noFail_append
        (noFail_append (noFail_cons hlock (noFail_cons (hnn _ a ha) noFail_nil))
          (pollRun_none_noFail hp rfl))
        (noFail_cons (hnn _ b hb) noFail_nil)
    obtain ⟨h1, h2⟩ := fail_last hg hunlock
      (show ([Event.lock, Event.send [TH02_CONFIG, cfg] a] ++ tr' ++
        [Event.send [TH02_DATA] b]) ++ Event.recv 2 ret d :: [Event.unlock] = _
        by rw [← heq]; simp) he hx
    subst h1 h2
    simp only [Event.busRet, Option.some.injEq] at he
    exact ⟨he, rfl⟩
  | data_short cfg a b n tr' d _ ha hp hb hn _ =>
    have hg : NoFail ([Event.lock, Event.send [TH02_CONFIG, cfg] a] ++ tr' ++
        [Event.send [TH02_DATA] b, Event.recv 2 n d, Event.unlock]) :=
      noFail_append
        (noFail_append (noFail_cons hlock (noFail_cons (hnn _ a ha) noFail_nil))
          (pollRun_none_noFail hp rfl))
        (noFail_cons (hnn _ b hb) (noFail_cons (hnr d n hn)
          (noFail_cons (fun y hy => by simp [Event.busRet] at hy) noFail_nil)))
    exact (noFail_decomp hg heq he hx).elim
  | done cfg a b tr' d _ ha hp hb _ _ =>
    have hg : NoFail ([Event.lock, Event.send [TH02_CONFIG, cfg] a] ++ tr' ++
        [Event.send [TH02_DATA] b, Event.recv 2 2 d, Event.unlock]) :=
      noFail_append
        (noFail_append (noFail_cons hlock (noFail_cons (hnn _ a ha) noFail_nil))
          (pollRun_none_noFail hp rfl))
        (noFail_cons (hnn _ b hb) (noFail_cons (hnr d 2 (by decide))
          (noFail_cons (fun y hy => by simp [Event.busRet] at hy) noFail_nil)))
    exact (noFail_decomp hg heq he hx).elim

/-- The return value of `read_sensor` is never positive, and the result cell
changes only when it is 0. -/
theorem sensorRun_ret {type result : Int} {tr : List Event} {ret result' : Int}
    (h : SensorRun type result tr ret result') :
    ret ≤ 0 ∧ (ret ≠ 0 → result' = result) := by
  cases h with
  | invalid _ _ => exact ⟨by decide, fun _ => rfl⟩
  | config_fail cfg _ _ he => exact ⟨by omega, fun _ => rfl⟩
  | poll_fail cfg a _ tr' _ _ hp =>
    have := (pollRun_some hp ret rfl).1
    exact ⟨by omega, fun _ => rfl⟩
  | data_send_fail cfg a _ tr' _ _ hp he => exact ⟨by omega, fun _ => rfl⟩
  | data_recv_fail cfg a b _ tr' d _ _ hp _ he => exact ⟨by omega, fun _ => rfl⟩
  | data_short cfg a b n tr' d _ _ hp _ _ _ => exact ⟨by decide, fun _ => rfl⟩
  | done cfg a b tr' d _ _ hp _ _ _ => exact ⟨le_refl 0, fun h => absurd rfl h⟩

/-- The first bus primitive of a call for a valid channel type is the CONFIG
write with the byte selected for the type, and the call has no other send to
CONFIG. -/
theorem sensorRun_config {type result : Int} {tr : List Event} {ret result' : Int}
    (h : SensorRun type result tr ret result')
    (hv : type = IIO_TEMP ∨ type = IIO_HUMIDITYRELATIVE) :
    ∃ (cfg : Nat) (a : Int) (rest : List Event), IsConfig type cfg ∧
      busTrace tr = Event.send [TH02_CONFIG, cfg] a :: rest ∧
      ∀ v b, Event.send [TH02_CONFIG, v] b ∈ tr → v = cfg := by
  have key : ∀ {s : Nat} {p : Int} {tr' : List Event} {r : Option Int},
      PollRun s p tr' r → ∀ v b, Event.send [TH02_CONFIG, v] b ∉ tr' := by
    intro s p tr' r hp v b hmem
    rcases pollRun_mem hp _ hmem with h1 | ⟨a, h1⟩ | ⟨b, d', h1⟩
    · cases h1
    · cases h1
    · cases h1
  cases h with
  | invalid h1 h2 => rcases hv with hv | hv <;> contradiction
  | config_fail cfg _ hcfg _ =>
    refine ⟨cfg, ret, [], hcfg, rfl, ?_⟩
    intro v b hmem
    simp at hmem
    exact hmem.1
  | poll_fail cfg a _ tr' hcfg _ hp =>
    refine ⟨cfg, a, busTrace tr' ++ [], hcfg,
      by rw [busTrace_append, busTrace_append]; rfl, ?_⟩
    intro v b hmem
    simp at hmem
    rcases hmem with h | h
    · exact h.1
    · exact absurd h (key hp v b)
  | data_send_fail cfg a _ tr' hcfg _ hp _ =>
    refine ⟨cfg, a, busTrace tr' ++ [Event.send [TH02_DATA] ret], hcfg,
      by rw [busTrace_append, busTrace_append]; rfl, ?_⟩
    intro v b hmem
    simp [TH02_DATA] at hmem
    rcases hmem with h | h
    · exact h.1
    · exact absurd h (key hp v b)
  | data_recv_fail cfg a b' _ tr' d hcfg _ hp _ _ =>
    refine ⟨cfg, a, busTrace tr' ++ [Event.send [TH02_DATA] b', Event.recv 2 ret d], hcfg,
      by rw [busTrace_append, busTrace_append]; rfl, ?_⟩
    intro v b hmem
    simp [TH02_DATA] at hmem
    rcases hmem with h | h
    · exact h.1
    · exact absurd h (key hp v b)
  | data_short cfg a b' n tr' d hcfg _ hp _ _ _ =>
    refine ⟨cfg, a, busTrace tr' ++ [Event.send [TH02_DATA] b', Event.recv 2 n d], hcfg,
      by rw [busTrace_append, busTrace_append]; rfl, ?_⟩
    intro v b hmem
    simp [TH02_DATA] at hmem
    rcases hmem with h | h
    · exact h.1
    · exact absurd h (key hp v b)
  | done cfg a b' tr' d hcfg _ hp _ _ _ =>
    refine ⟨cfg, a, busTrace tr' ++ [Event.send [TH02_DATA] b', Event.recv 2 2 d], hcfg,
      by rw [busTrace_append, busTrace_append]; rfl, ?_⟩
    intro v b hmem
    simp [TH02_DATA] at hmem
    rcases hmem with h | h
    · exact h.1
    · exact absurd h (key hp v b)

theorem testBit_0x11 (i : Nat) : Nat.testBit 0x11 i = (i == 4 || i == 0) := by
  by_cases h : i < 5
  · interval_cases i <;> rfl
  · have h5 : 2 ^ 5 ≤ 2 ^ i := Nat.pow_le_pow_right (by decide) (by omega)
    have hlt : 0x11 < 2 ^ i := lt_of_lt_of_le (by decide) h5
    rw [Nat.testBit_lt_two_pow hlt]
    have h4 : (i == 4) = false := by simp; omega
    have h0 : (i == 0) = false := by simp; omega
    rw [h4, h0]
    rfl

theorem testBit_0x01 (i : Nat) : Nat.testBit 0x01 i = (i == 0) := by
  by_cases h : i < 1
  · interval_cases i
    rfl
  · have h1 : 2 ^ 1 ≤ 2 ^ i := Nat.pow_le_pow_right (by decide) (by omega)
    have hlt : 0x01 < 2 ^ i := lt_of_lt_of_le (by decide) h1
    rw [Nat.testBit_lt_two_pow hlt]
    have h0 : (i == 0) = false := by simp; omega
    rw [h0]

/-! ## The claims -/

/-- C1 (temperature conversion): a `read_sensor` call for `IIO_TEMP` on a free
device returns; when all its bus primitives succeed in full it returns 0 after
a 2-byte receive of a sample; and whenever its 2-byte receive returned 2 and
stored `low` in `buf[0]` and `high` in `buf[1]`, both bytes are below 256, the
call returns 0 and the result cell holds
`floor(((high << 6) | (low >> 2)) / 32) - 50`, which is 206 for the sample
`high = 0x80`, `low = 0x00`. -/
theorem C1_temperature_conversion (fuel : Nat) (client : Bus) (device : th02_device)
    (result : Int) (hfuel : 16 < fuel) (hlock : device.lock = false) :
    ∃ (ret result' : Int) (device' : th02_device) (tr : List Event),
      read_sensor fuel client device IIO_TEMP result = some (ret, result', device') ∧
      device'.log = device.log ++ tr ∧
      ((∀ e ∈ tr, e.ok) → ret = 0 ∧ ∃ low high, Event.recv 2 2 [low, high] ∈ tr) ∧
      ∀ low high, Event.recv 2 2 [low, high] ∈ tr →
        low < 256 ∧ high < 256 ∧ ret = 0 ∧
        result' = (((high <<< 6 ||| low >>> 2) / 32 : Nat) : Int) - 50 ∧
        (high = 0x80 → low = 0x00 → result' = 206) := by
  obtain ⟨⟨ret, result', device'⟩, hrun⟩ :=
    read_sensor_returns fuel client device IIO_TEMP result hfuel hlock
  obtain ⟨_, tr, hlog, hsr⟩ := read_sensor_run _ _ _ _ _ _ _ _ hrun
  refine ⟨ret, result', device', tr, hrun, hlog, sensorRun_ok hsr (Or.inl rfl), ?_⟩
  intro low high hmem
  rcases sensorRun_data hsr 2 [low, high] hmem with ⟨h, _⟩ | ⟨_, h, _⟩ | ⟨_, h0, hres, _, hlt⟩
  · omega
  · exact absurd rfl h
  · rw [convert_temp] at hres
    refine ⟨hlt low (by simp), hlt high (by simp), h0, hres, ?_⟩
    intro hh hl
    rw [hres, hh, hl]
    decide

/-- C1, witness: on a bus that always succeeds and delivers the sample
`high = 0x80`, `low = 0x00`, the temperature read returns 0 and stores 206. -/
theorem C1_temperature_conversion_witness :
    (16 < 17 ∧ freshDevice.lock = false) ∧
    (∃ (ret result' : Int) (device' : th02_device) (tr : List Event),
      read_sensor 17 (idealBus 0 0x00 0x80) freshDevice IIO_TEMP 0 =
        some (ret, result', device') ∧
      device'.log = freshDevice.log ++ tr ∧
      ((∀ e ∈ tr, e.ok) → ret = 0 ∧ ∃ low high, Event.recv 2 2 [low, high] ∈ tr) ∧
      ∀ low high, Event.recv 2 2 [low, high] ∈ tr →
        low < 256 ∧ high < 256 ∧ ret = 0 ∧
        result' = (((high <<< 6 ||| low >>> 2) / 32 : Nat) : Int) - 50 ∧
        (high = 0x80 → low = 0x00 → result' = 206)) ∧
    read_sensor 17 (idealBus 0 0x00 0x80) freshDevice IIO_TEMP 0 =
      some (0, 206, ⟨false, [Event.lock, Event.send [3, 0x11] 2, Event.msleep 1,
        Event.send [0] 1, Event.recv 1 1 [0], Event.send [1] 1, Event.recv 2 2 [0x00, 0x80],
        Event.unlock]⟩) :=
  ⟨⟨by decide, rfl⟩,
    C1_temperature_conversion 17 (idealBus 0 0x00 0x80) freshDevice 0 (by decide) rfl,
    by decide⟩

/-- C2 (humidity conversion): a `read_sensor` call for `IIO_HUMIDITYRELATIVE` on
a free device returns; when all its bus primitives succeed in full it returns 0
after a 2-byte receive of a sample; and whenever its 2-byte receive returned 2
and stored `low` in `buf[0]` and `high` in `buf[1]`, both bytes are below 256,
the call returns 0 and the result cell holds
`floor(((high << 4) | (low >> 4)) / 16) - 24`, which is 24 for the sample
`high = 0x30`, `low = 0x00`. -/
theorem C2_humidity_conversion (fuel : Nat) (client : Bus) (device : th02_device)
    (result : Int) (hfuel : 16 < fuel) (hlock : device.lock = false) :
    ∃ (ret result' : Int) (device' : th02_device) (tr : List Event),
      read_sensor fuel client device IIO_HUMIDITYRELATIVE result =
        some (ret, result', device') ∧
      device'.log = device.log ++ tr ∧
      ((∀ e ∈ tr, e.ok) → ret = 0 ∧ ∃ low high, Event.recv 2 2 [low, high] ∈ tr) ∧
      ∀ low high, Event.recv 2 2 [low, high] ∈ tr →
        low < 256 ∧ high < 256 ∧ ret = 0 ∧
        result' = (((high <<< 4 ||| low >>> 4) / 16 : Nat) : Int) - 24 ∧
        (high = 0x30 → low = 0x00 → result' = 24) := by
  obtain ⟨⟨ret, result', device'⟩, hrun⟩ :=
    read_sensor_returns fuel client device IIO_HUMIDITYRELATIVE result hfuel hlock
  obtain ⟨_, tr, hlog, hsr⟩ := read_sensor_run _ _ _ _ _ _ _ _ hrun
  refine ⟨ret, result', device', tr, hrun, hlog, sensorRun_ok hsr (Or.inr rfl), ?_⟩
  intro low high hmem
  rcases sensorRun_data hsr 2 [low, high] hmem with ⟨h, _⟩ | ⟨_, h, _⟩ | ⟨_, h0, hres, _, hlt⟩
  · omega
  · exact absurd rfl h
  · rw [convert_humidity] at hres
    refine ⟨hlt low (by simp), hlt high (by simp), h0, hres, ?_⟩
    intro hh hl
    rw [hres, hh, hl]
    decide

/-- C2, witness: on a bus that always succeeds and delivers the sample
`high = 0x30`, `low = 0x00`, the humidity read returns 0 and stores 24. -/
theorem C2_humidity_conversion_witness :
    (16 < 17 ∧ freshDevice.lock = false) ∧
    (∃ (ret result' : Int) (device' : th02_device) (tr : List Event),
      read_sensor 17 (idealBus 0 0x00 0x30) freshDevice IIO_HUMIDITYRELATIVE 0 =
        some (ret, result', device') ∧
      device'.log = freshDevice.log ++ tr ∧
      ((∀ e ∈ tr, e.ok) → ret = 0 ∧ ∃ low high, Event.recv 2 2 [low, high] ∈ tr) ∧
      ∀ low high, Event.recv 2 2 [low, high] ∈ tr →
        low < 256 ∧ high < 256 ∧ ret = 0 ∧
        result' = (((high <<< 4 ||| low >>> 4) / 16 : Nat) : Int) - 24 ∧
        (high = 0x30 → low = 0x00 → result' = 24)) ∧
    read_sensor 17 (idealBus 0 0x00 0x30) freshDevice IIO_HUMIDITYRELATIVE 0 =
      some (0, 24, ⟨false, [Event.lock, Event.send [3, 0x01] 2, Event.msleep 1,
        Event.send [0] 1, Event.recv 1 1 [0], Event.send [1] 1, Event.recv 2 2 [0x00, 0x30],
        Event.unlock]⟩) :=
  ⟨⟨by decide, rfl⟩,
    C2_humidity_conversion 17 (idealBus 0 0x00 0x30) freshDevice 0 (by decide) rfl,
    by decide⟩

/-- C3 (shape of a successful cycle): whenever `read_sensor` returns 0, the
channel type is `IIO_TEMP` or `IIO_HUMIDITYRELATIVE` and the bus transactions of
the call are, in this order, one CONFIG write, `k` STATUS reads with
`1 ≤ k ≤ 16`, and one DATA read whose 2-byte receive returned 2. -/
theorem C3_successful_cycle_shape (fuel : Nat) (client : Bus) (device : th02_device)
    (type result result' : Int) (device' : th02_device) (tr : List Event)
    (hrun : read_sensor fuel client device type result = some (0, result', device'))
    (hlog : device'.log = device.log ++ tr) :
    (type = IIO_TEMP ∨ type = IIO_HUMIDITYRELATIVE) ∧
    ∃ (cfg : Nat) (a : Int) (ss : List (Int × Int × List Nat)) (b : Int) (d : List Nat),
      1 ≤ ss.length ∧ ss.length ≤ 16 ∧
      busTrace tr = Event.send [TH02_CONFIG, cfg] a ::
        (statusReads ss ++ [Event.send [TH02_DATA] b, Event.recv 2 2 d]) := by
  obtain ⟨_, tr0, hlog0, hsr⟩ := read_sensor_run _ _ _ _ _ _ _ _ hrun
  have htr : tr0 = tr := List.append_cancel_left (hlog0.symm.trans hlog)
  subst htr
  exact sensorRun_zero hsr rfl

/-- C3, witness: a temperature read on a bus that always succeeds and reports
"not busy" at the first poll. -/
theorem C3_successful_cycle_shape_witness :
    (read_sensor 17 (idealBus 0 0x00 0x80) freshDevice IIO_TEMP 0 =
        some (0, 206, ⟨false, [Event.lock, Event.send [3, 0x11] 2, Event.msleep 1,
          Event.send [0] 1, Event.recv 1 1 [0], Event.send [1] 1,
          Event.recv 2 2 [0x00, 0x80], Event.unlock]⟩) ∧
      (⟨false, [Event.lock, Event.send [3, 0x11] 2, Event.msleep 1,
          Event.send [0] 1, Event.recv 1 1 [0], Event.send [1] 1,
          Event.recv 2 2 [0x00, 0x80], Event.unlock]⟩ : th02_device).log =
        freshDevice.log ++ [Event.lock, Event.send [3, 0x11] 2, Event.msleep 1,
          Event.send [0] 1, Event.recv 1 1 [0], Event.send [1] 1,
          Event.recv 2 2 [0x00, 0x80], Event.unlock]) ∧
    ((IIO_TEMP = IIO_TEMP ∨ IIO_TEMP = IIO_HUMIDITYRELATIVE) ∧
    ∃ (cfg : Nat) (a : Int) (ss : List (Int × Int × List Nat)) (b : Int) (d : List Nat),
      1 ≤ ss.length ∧ ss.length ≤ 16 ∧
      busTrace [Event.lock, Event.send [3, 0x11] 2, Event.msleep 1,
          Event.send [0] 1, Event.recv 1 1 [0], Event.send [1] 1,
          Event.recv 2 2 [0x00, 0x80], Event.unlock] =
        Event.send [TH02_CONFIG, cfg] a ::
          (statusReads ss ++ [Event.send [TH02_DATA] b, Event.recv 2 2 d])) :=
  ⟨⟨by decide, rfl⟩,
    C3_successful_cycle_shape 17 (idealBus 0 0x00 0x80) freshDevice IIO_TEMP 0 206
      ⟨false, [Event.lock, Event.send [3, 0x11] 2, Event.msleep 1,
        Event.send [0] 1, Event.recv 1 1 [0], Event.send [1] 1,
        Event.recv 2 2 [0x00, 0x80], Event.unlock]⟩
      [Event.lock, Event.send [3, 0x11] 2, Event.msleep 1,
        Event.send [0] 1, Event.recv 1 1 [0], Event.send [1] 1,
        Event.recv 2 2 [0x00, 0x80], Event.unlock]
      (by decide) rfl⟩

/-- C4 (bounded polling without timeout failure): a `read_sensor` call for a
valid channel type on a free device returns; if its CONFIG send did not fail and
every STATUS address send and every STATUS receive of the call did not fail and
each receive stored a byte with bit 0 set, then the bus transactions of the call
are the CONFIG write, exactly 16 STATUS reads (never a 17th), and then the DATA
read: the address send `[TH02_DATA]` and, whenever that send returned a
non-negative value, the 2-byte receive right after it (when the send returned a
negative value the call returns that value and issues no receive).  If the
receive returned 2, the call returns 0 and the result cell holds the value
converted from the received bytes; if it returned a negative value the call
returns it, and for any other count it returns `-EIO`, the result cell being
left as it was in both cases.  Exhausting the 16 polls is not an error. -/
theorem C4_bounded_polling (fuel : Nat) (client : Bus) (device : th02_device)
    (type result : Int) (hfuel : 16 < fuel) (hlock : device.lock = false)
    (hv : type = IIO_TEMP ∨ type = IIO_HUMIDITYRELATIVE) :
    ∃ (ret result' : Int) (device' : th02_device) (tr : List Event),
      read_sensor fuel client device type result = some (ret, result', device') ∧
      device'.log = device.log ++ tr ∧
      ((∀ v a, Event.send [TH02_CONFIG, v] a ∈ tr → 0 ≤ a) →
        (∀ a, Event.send [TH02_STATUS] a ∈ tr → 0 ≤ a) →
        (∀ b d, Event.recv 1 b d ∈ tr → 0 ≤ b ∧ ∃ x, d = [x] ∧ x % 2 = 1) →
        (∃ (cfg : Nat) (a : Int) (ss : List (Int × Int × List Nat)) (c : Int)
          (rest : List Event),
          ss.length = 16 ∧
          busTrace tr = Event.send [TH02_CONFIG, cfg] a ::
            (statusReads ss ++ Event.send [TH02_DATA] c :: rest) ∧
          ((c < 0 ∧ rest = [] ∧ ret = c ∧ result' = result) ∨
            (0 ≤ c ∧ ∃ n d, rest = [Event.recv 2 n d] ∧
              (n = 2 → ret = 0 ∧ result' = convert type (bufAfter d)) ∧
              (n < 0 → ret = n ∧ result' = result) ∧
              (0 ≤ n → n ≠ 2 → ret = - EIO ∧ result' = result)))) ∧
        ∀ low high, Event.recv 2 2 [low, high] ∈ tr →
          ret = 0 ∧
          result' = if type = IIO_TEMP
            then (((high <<< 6 ||| low >>> 2) / 32 : Nat) : Int) - 50
            else (((high <<< 4 ||| low >>> 4) / 16 : Nat) : Int) - 24) := by
  obtain ⟨⟨ret, result', device'⟩, hrun⟩ :=
    read_sensor_returns fuel client device type result hfuel hlock
  obtain ⟨_, tr, hlog, hsr⟩ := read_sensor_run _ _ _ _ _ _ _ _ hrun
  refine ⟨ret, result', device', tr, hrun, hlog, ?_⟩
  intro hconfig hsend hrecv
  refine ⟨sensorRun_busy hsr hv hconfig hsend hrecv, ?_⟩
  intro low high hmem
  rcases sensorRun_data hsr 2 [low, high] hmem with ⟨h, _⟩ | ⟨_, h, _⟩ | ⟨_, h0, hres, _, _⟩
  · omega
  · exact absurd rfl h
  · refine ⟨h0, ?_⟩
    rcases hv with hv | hv
    · subst hv
      rw [hres, convert_temp, if_pos rfl]
    · subst hv
      rw [hres, convert_humidity, if_neg (by decide)]

/-- C4, witness: a humidity read on a bus whose status register always reads 1
(busy) and whose sends all report 0 bytes sent.  The call makes 16 STATUS
reads, 35 bus primitives in all, the last of them the 2-byte receive of the
DATA read, and returns 0 with the converted sample. -/
theorem C4_bounded_polling_witness :
    (16 < 17 ∧ freshDevice.lock = false ∧
      (IIO_HUMIDITYRELATIVE = IIO_TEMP ∨ IIO_HUMIDITYRELATIVE = IIO_HUMIDITYRELATIVE)) ∧
    (∃ (ret result' : Int) (device' : th02_device) (tr : List Event),
      read_sensor 17
          ⟨fun _ _ => 0, fun _ count =>
            if count = 1 then (1, [0x01]) else (2, [0x00, 0x30])⟩
          freshDevice IIO_HUMIDITYRELATIVE 7 = some (ret, result', device') ∧
      device'.log = freshDevice.log ++ tr ∧
      ((∀ v a, Event.send [TH02_CONFIG, v] a ∈ tr → 0 ≤ a) →
        (∀ a, Event.send [TH02_STATUS] a ∈ tr → 0 ≤ a) →
        (∀ b d, Event.recv 1 b d ∈ tr → 0 ≤ b ∧ ∃ x, d = [x] ∧ x % 2 = 1) →
        (∃ (cfg : Nat) (a : Int) (ss : List (Int × Int × List Nat)) (c : Int)
          (rest : List Event),
          ss.length = 16 ∧
          busTrace tr = Event.send [TH02_CONFIG, cfg] a ::
            (statusReads ss ++ Event.send [TH02_DATA] c :: rest) ∧
          ((c < 0 ∧ rest = [] ∧ ret = c ∧ result' = 7) ∨
            (0 ≤ c ∧ ∃ n d, rest = [Event.recv 2 n d] ∧
              (n = 2 → ret = 0 ∧ result' = convert IIO_HUMIDITYRELATIVE (bufAfter d)) ∧
              (n < 0 → ret = n ∧ result' = 7) ∧
              (0 ≤ n → n ≠ 2 → ret = - EIO ∧ result' = 7)))) ∧
        ∀ low high, Event.recv 2 2 [low, high] ∈ tr →
          ret = 0 ∧
          result' = if IIO_HUMIDITYRELATIVE = IIO_TEMP
            then (((high <<< 6 ||| low >>> 2) / 32 : Nat) : Int) - 50
            else (((high <<< 4 ||| low >>> 4) / 16 : Nat) : Int) - 24)) ∧
    (read_sensor 17
          ⟨fun _ _ => 0, fun _ count =>
            if count = 1 then (1, [0x01]) else (2, [0x00, 0x30])⟩
          freshDevice IIO_HUMIDITYRELATIVE 7).map
        (fun x => (x.1, x.2.1, (busTrace x.2.2.log).length, statusData x.2.2.log)) =
      some (0, 24, 35, List.replicate 16 [0x01]) ∧
    (read_sensor 17
          ⟨fun _ _ => 0, fun _ count =>
            if count = 1 then (1, [0x01]) else (2, [0x00, 0x30])⟩
          freshDevice IIO_HUMIDITYRELATIVE 7).map
        (fun x => (busTrace x.2.2.log).getLast?) =
      some (some (Event.recv 2 2 [0x00, 0x30])) :=
  ⟨⟨by decide, rfl, Or.inr rfl⟩,
    C4_bounded_polling 17
      ⟨fun _ _ => 0, fun _ count =>
        if count = 1 then (1, [0x01]) else (2, [0x00, 0x30])⟩
      freshDevice IIO_HUMIDITYRELATIVE 7 (by decide) rfl (Or.inr rfl),
    by decide, by decide⟩

/-- C5 (unknown channel type): for a channel type other than `IIO_TEMP` and
`IIO_HUMIDITYRELATIVE`, `read_sensor` returns `-EINVAL` and leaves the result
cell and the device as they were: the log gains no event (no send, no receive,
no lock) and the mutex is not touched.  This holds whatever the fuel and
whether or not the mutex is held. -/
theorem C5_unknown_channel_type (fuel : Nat) (client : Bus) (device : th02_device)
    (type result : Int) (h1 : type ≠ IIO_TEMP) (h2 : type ≠ IIO_HUMIDITYRELATIVE) :
    read_sensor fuel client device type result = some (- EINVAL, result, device) := by
  unfold read_sensor
  simp only [h1, h2, if_false]

/-- C5, witness: channel type 0 (`IIO_VOLTAGE`) on a device whose mutex is held
by somebody else. -/
theorem C5_unknown_channel_type_witness :
    ((0 : Int) ≠ IIO_TEMP ∧ (0 : Int) ≠ IIO_HUMIDITYRELATIVE) ∧
    read_sensor 0 (idealBus 0 0 0) ⟨true, [Event.lock]⟩ 0 7 =
      some (-22, 7, ⟨true, [Event.lock]⟩) :=
  ⟨⟨by decide, by decide⟩,
    C5_unknown_channel_type 0 (idealBus 0 0 0) ⟨true, [Event.lock]⟩ 0 7 (by decide)
      (by decide)⟩

/-- C6 (lock is never left held): for every channel type and every bus, a
`read_sensor` call on a device whose mutex is free returns with the mutex free
again, whatever the outcome; and a subsequent `read_sensor` call on the device
as the first call left it, for a valid channel type, returns as well, with the
mutex free, and returns 0 when all its bus primitives succeed in full. -/
theorem C6_lock_released (fuel : Nat) (client : Bus) (device : th02_device)
    (type result : Int) (hfuel : 16 < fuel) (hlock : device.lock = false) :
    ∃ (ret result' : Int) (device' : th02_device),
      read_sensor fuel client device type result = some (ret, result', device') ∧
      device'.lock = false ∧
      ∀ type2 result2 : Int, type2 = IIO_TEMP ∨ type2 = IIO_HUMIDITYRELATIVE →
        ∃ (ret2 result2' : Int) (device2 : th02_device) (tr2 : List Event),
          read_sensor fuel client device' type2 result2 = some (ret2, result2', device2) ∧
          device2.log = device'.log ++ tr2 ∧ device2.lock = false ∧
          ((∀ e ∈ tr2, e.ok) → ret2 = 0) := by
  obtain ⟨⟨ret, result', device'⟩, hrun⟩ :=
    read_sensor_returns fuel client device type result hfuel hlock
  obtain ⟨hl, _⟩ := read_sensor_run _ _ _ _ _ _ _ _ hrun
  have hl' : device'.lock = false := hl.trans hlock
  refine ⟨ret, result', device', hrun, hl', ?_⟩
  intro type2 result2 hv
  obtain ⟨⟨ret2, result2', device2⟩, hrun2⟩ :=
    read_sensor_returns fuel client device' type2 result2 hfuel hl'
  obtain ⟨hl2, tr2, hlog2, hsr2⟩ := read_sensor_run _ _ _ _ _ _ _ _ hrun2
  exact ⟨ret2, result2', device2, tr2, hrun2, hlog2, hl2.trans hl',
    fun hok => (sensorRun_ok hsr2 hv hok).1⟩

/-- C6, witness: on a bus whose STATUS address send of the first cycle fails
with `-EIO`, the first temperature read returns `-EIO` with the mutex released,
and the next temperature read on the same device returns 0 and stores 206. -/
theorem C6_lock_released_witness :
    (16 < 17 ∧ freshDevice.lock = false) ∧
    (∃ (ret result' : Int) (device' : th02_device),
      read_sensor 17 (failingBus 3 0 0x00 0x80) freshDevice IIO_TEMP 7 =
        some (ret, result', device') ∧
      device'.lock = false ∧
      ∀ type2 result2 : Int, type2 = IIO_TEMP ∨ type2 = IIO_HUMIDITYRELATIVE →
        ∃ (ret2 result2' : Int) (device2 : th02_device) (tr2 : List Event),
          read_sensor 17 (failingBus 3 0 0x00 0x80) device' type2 result2 =
            some (ret2, result2', device2) ∧
          device2.log = device'.log ++ tr2 ∧ device2.lock = false ∧
          ((∀ e ∈ tr2, e.ok) → ret2 = 0)) ∧
    read_sensor 17 (failingBus 3 0 0x00 0x80) freshDevice IIO_TEMP 7 =
      some (-5, 7, ⟨false, [Event.lock, Event.send [3, 0x11] 2, Event.msleep 1,
        Event.send [0] (-5), Event.unlock]⟩) ∧
    read_sensor 17 (failingBus 3 0 0x00 0x80)
        ⟨false, [Event.lock, Event.send [3, 0x11] 2, Event.msleep 1,
          Event.send [0] (-5), Event.unlock]⟩ IIO_TEMP 7 =
      some (0, 206, ⟨false, [Event.lock, Event.send [3, 0x11] 2, Event.msleep 1,
        Event.send [0] (-5), Event.unlock,
        Event.lock, Event.send [3, 0x11] 2, Event.msleep 1, Event.send [0] 1,
        Event.recv 1 1 [0], Event.send [1] 1, Event.recv 2 2 [0x00, 0x80],
        Event.unlock]⟩) :=
  ⟨⟨by decide, rfl⟩,
    C6_lock_released 17 (failingBus 3 0 0x00 0x80) freshDevice IIO_TEMP 7 (by decide) rfl,
    by decide, by decide⟩

/-- C7 (bus errors propagate unchanged and stop the cycle): a `read_sensor` call
on a free device, for any channel type and so for the two valid ones, returns,
and if any bus primitive of the call (at whatever position of its trace)
returned a negative value `x`, the call returns exactly `x` and no bus primitive
follows the failing one. -/
theorem C7_bus_errors_propagate (fuel : Nat) (client : Bus) (device : th02_device)
    (type result : Int) (hfuel : 16 < fuel) (hlock : device.lock = false) :
    ∃ (ret result' : Int) (device' : th02_device) (tr : List Event),
      read_sensor fuel client device type result = some (ret, result', device') ∧
      device'.log = device.log ++ tr ∧
      ∀ (pre : List Event) (e : Event) (post : List Event) (x : Int),
        tr = pre ++ e :: post → e.busRet = some x → x < 0 →
        ret = x ∧ busTrace post = [] := by
  obtain ⟨⟨ret, result', device'⟩, hrun⟩ :=
    read_sensor_returns fuel client device type result hfuel hlock
  obtain ⟨_, tr, hlog, hsr⟩ := read_sensor_run _ _ _ _ _ _ _ _ hrun
  exact ⟨ret, result', device', tr, hrun, hlog, sensorRun_fail hsr⟩

/-- C7, witness: the receive of the first STATUS read fails with `-EIO`; the
humidity read returns `-EIO` and the failing receive is its last bus
primitive. -/
theorem C7_bus_errors_propagate_witness :
    (16 < 17 ∧ freshDevice.lock = false) ∧
    (∃ (ret result' : Int) (device' : th02_device) (tr : List Event),
      read_sensor 17 ⟨fun _ bytes => bytes.length, fun _ _ => (- EIO, [])⟩ freshDevice
        IIO_HUMIDITYRELATIVE 7 = some (ret, result', device') ∧
      device'.log = freshDevice.log ++ tr ∧
      ∀ (pre : List Event) (e : Event) (post : List Event) (x : Int),
        tr = pre ++ e :: post → e.busRet = some x → x < 0 →
        ret = x ∧ busTrace post = []) ∧
    read_sensor 17 ⟨fun _ bytes => bytes.length, fun _ _ => (- EIO, [])⟩ freshDevice
        IIO_HUMIDITYRELATIVE 7 =
      some (-5, 7, ⟨false, [Event.lock, Event.send [3, 0x01] 2, Event.msleep 1,
        Event.send [0] 1, Event.recv 1 (-5) [], Event.unlock]⟩) :=
  ⟨⟨by decide, rfl⟩,
    C7_bus_errors_propagate 17 ⟨fun _ bytes => bytes.length, fun _ _ => (- EIO, [])⟩
      freshDevice IIO_HUMIDITYRELATIVE 7 (by decide) rfl,
    by decide⟩

/-- C8 (short DATA read): a `read_sensor` call on a free device, for any channel
type and so for the two valid ones, returns, and if its 2-byte receive (the
receive of the DATA read) reported a count of 0 or 1, the call returns `-EIO`
and the result cell is left as it was (no conversion is stored). -/
theorem C8_short_data_read (fuel : Nat) (client : Bus) (device : th02_device)
    (type result : Int) (hfuel : 16 < fuel) (hlock : device.lock = false) :
    ∃ (ret result' : Int) (device' : th02_device) (tr : List Event),
      read_sensor fuel client device type result = some (ret, result', device') ∧
      device'.log = device.log ++ tr ∧
      ∀ (n : Int) (d : List Nat), Event.recv 2 n d ∈ tr → n = 0 ∨ n = 1 →
        ret = - EIO ∧ result' = result := by
  obtain ⟨⟨ret, result', device'⟩, hrun⟩ :=
    read_sensor_returns fuel client device type result hfuel hlock
  obtain ⟨_, tr, hlog, hsr⟩ := read_sensor_run _ _ _ _ _ _ _ _ hrun
  refine ⟨ret, result', device', tr, hrun, hlog, ?_⟩
  intro n d hmem hn
  rcases sensorRun_data hsr n d hmem with ⟨h, _⟩ | ⟨_, _, h1, h2⟩ | ⟨h, _⟩
  · omega
  · exact ⟨h1, h2⟩
  · omega

/-- C8, witness: the 2-byte receive reports 1 byte; the temperature read
returns `-EIO` (-5) and the result cell keeps its old content 7. -/
theorem C8_short_data_read_witness :
    (16 < 17 ∧ freshDevice.lock = false) ∧
    (∃ (ret result' : Int) (device' : th02_device) (tr : List Event),
      read_sensor 17 (shortBus 1 0 0x00 0x80) freshDevice IIO_TEMP 7 =
        some (ret, result', device') ∧
      device'.log = freshDevice.log ++ tr ∧
      ∀ (n : Int) (d : List Nat), Event.recv 2 n d ∈ tr → n = 0 ∨ n = 1 →
        ret = - EIO ∧ result' = 7) ∧
    read_sensor 17 (shortBus 1 0 0x00 0x80) freshDevice IIO_TEMP 7 =
      some (-5, 7, ⟨false, [Event.lock, Event.send [3, 0x11] 2, Event.msleep 1,
        Event.send [0] 1, Event.recv 1 1 [0], Event.send [1] 1,
        Event.recv 2 1 [0x00, 0x80], Event.unlock]⟩) :=
  ⟨⟨by decide, rfl⟩,
    C8_short_data_read 17 (shortBus 1 0 0x00 0x80) freshDevice IIO_TEMP 7 (by decide) rfl,
    by decide⟩

/-- C9 (no partial-result leakage): on a free device, for every channel type,
mask and bus, `read_sensor` returns and leaves the result cell as it was
whenever its return value is not 0; and `th02_read_raw` returns either
`IIO_VAL_INT` or a negative error code, and in the latter case leaves `*val` as
it was (`*val2` is left as it was in every case). -/
theorem C9_no_partial_result (fuel : Nat) (client : Bus) (device : th02_device)
    (type result val val2 mask result0 : Int) (hfuel : 16 < fuel)
    (hlock : device.lock = false) :
    (∃ (ret result' : Int) (device' : th02_device),
      read_sensor fuel client device type result = some (ret, result', device') ∧
      (ret ≠ 0 → result' = result)) ∧
    (∃ (ret val' val2' : Int) (device' : th02_device),
      th02_read_raw fuel client device type val val2 mask result0 =
        some (ret, val', val2', device') ∧
      (ret = IIO_VAL_INT ∨ ret < 0) ∧ (ret < 0 → val' = val) ∧ val2' = val2) := by
  constructor
  · obtain ⟨⟨ret, result', device'⟩, hrun⟩ :=
      read_sensor_returns fuel client device type result hfuel hlock
    obtain ⟨_, tr, _, hsr⟩ := read_sensor_run _ _ _ _ _ _ _ _ hrun
    exact ⟨ret, result', device', hrun, (sensorRun_ret hsr).2⟩
  · unfold th02_read_raw
    have hneg : - EINVAL < 0 := by decide
    by_cases hm : mask = IIO_CHAN_INFO_PROCESSED
    · by_cases hv : type = IIO_TEMP ∨ type = IIO_HUMIDITYRELATIVE
      · obtain ⟨⟨ret, result', device'⟩, hrun⟩ :=
          read_sensor_returns fuel client device type result0 hfuel hlock
        obtain ⟨_, tr, _, hsr⟩ := read_sensor_run _ _ _ _ _ _ _ _ hrun
        have hle := (sensorRun_ret hsr).1
        simp only [hm, hv, if_true, hrun]
        by_cases h0 : ret = 0
        · refine ⟨IIO_VAL_INT, result', val2, device', by simp [h0], Or.inl rfl, ?_, rfl⟩
          intro h
          exact absurd h (by decide)
        · refine ⟨ret, val, val2, device', by simp [h0], Or.inr (by omega),
            fun _ => rfl, rfl⟩
      · simp only [hm, hv, if_true, if_false]
        exact ⟨_, _, _, _, rfl, Or.inr hneg, fun _ => rfl, rfl⟩
    · simp only [hm, if_false]
      exact ⟨_, _, _, _, rfl, Or.inr hneg, fun _ => rfl, rfl⟩

/-- C9, witness: the DATA receive reports 1 byte although the bus stored two
bytes into the buffer; `read_sensor` and `th02_read_raw` both return `-EIO` and
leave the caller's cell at its old content (7, respectively 8). -/
theorem C9_no_partial_result_witness :
    (16 < 17 ∧ freshDevice.lock = false) ∧
    ((∃ (ret result' : Int) (device' : th02_device),
      read_sensor 17 (shortBus 1 0 0x00 0x80) freshDevice IIO_TEMP 7 =
        some (ret, result', device') ∧
      (ret ≠ 0 → result' = 7)) ∧
    (∃ (ret val' val2' : Int) (device' : th02_device),
      th02_read_raw 17 (shortBus 1 0 0x00 0x80) freshDevice IIO_TEMP 8 9
          IIO_CHAN_INFO_PROCESSED 0 =
        some (ret, val', val2', device') ∧
      (ret = IIO_VAL_INT ∨ ret < 0) ∧ (ret < 0 → val' = 8) ∧ val2' = 9)) ∧
    (read_sensor 17 (shortBus 1 0 0x00 0x80) freshDevice IIO_TEMP 7).map
        (fun x => (x.1, x.2.1)) = some (-5, 7) ∧
    (th02_read_raw 17 (shortBus 1 0 0x00 0x80) freshDevice IIO_TEMP 8 9
        IIO_CHAN_INFO_PROCESSED 0).map (fun x => (x.1, x.2.1, x.2.2.1)) =
      some (-5, 8, 9) ∧
    (th02_read_raw 17 (idealBus 0 0x00 0x80) freshDevice IIO_TEMP 8 9
        IIO_CHAN_INFO_PROCESSED 0).map (fun x => (x.1, x.2.1, x.2.2.1)) =
      some (1, 206, 9) :=
  ⟨⟨by decide, rfl⟩,
    C9_no_partial_result 17 (shortBus 1 0 0x00 0x80) freshDevice IIO_TEMP 7 8 9
      IIO_CHAN_INFO_PROCESSED 0 (by decide) rfl,
    by decide, by decide, by decide⟩

/-- C10, as stated, fails: in a temperature read the value byte sent to CONFIG
is `0x11` (bits 4 and 0), not `0x05` (bits 2 and 0), because
`TH02_CONFIG_TEMP = 0x4` is used as a bit index through `BIT`. -/
theorem C10_config_bit_pattern_counterexample :
    read_sensor 17 (idealBus 0 0x00 0x80) freshDevice IIO_TEMP 0 =
      some (0, 206, ⟨false, [Event.lock, Event.send [TH02_CONFIG, 0x11] 2, Event.msleep 1,
        Event.send [TH02_STATUS] 1, Event.recv 1 1 [0], Event.send [TH02_DATA] 1,
        Event.recv 2 2 [0x00, 0x80], Event.unlock]⟩) ∧
    (0x11 : Nat) ≠ 0x05 ∧ Nat.testBit 0x11 2 = false ∧ Nat.testBit 0x11 4 = true := by
  decide

/-- C10, amended (CONFIG bit pattern): a `read_sensor` call for a valid channel
type on a free device returns; its first bus primitive is the send of
`[TH02_CONFIG, cfg]`, it sends to CONFIG with no other value byte, and `cfg` is
`BIT(TH02_CONFIG_TEMP) | BIT(TH02_CONFIG_START) = 0x11`, the byte with exactly
bits 4 and 0 set, for `IIO_TEMP`, and `BIT(TH02_CONFIG_START) = 0x01`, the byte
with exactly bit 0 set, for `IIO_HUMIDITYRELATIVE`. -/
theorem C10_config_bit_pattern (fuel : Nat) (client : Bus) (device : th02_device)
    (type result : Int) (hfuel : 16 < fuel) (hlock : device.lock = false)
    (hv : type = IIO_TEMP ∨ type = IIO_HUMIDITYRELATIVE) :
    ∃ (ret result' : Int) (device' : th02_device) (tr : List Event),
      read_sensor fuel client device type result = some (ret, result', device') ∧
      device'.log = device.log ++ tr ∧
      ∃ (cfg : Nat) (a : Int) (rest : List Event),
        busTrace tr = Event.send [TH02_CONFIG, cfg] a :: rest ∧
        (∀ v b, Event.send [TH02_CONFIG, v] b ∈ tr → v = cfg) ∧
        (type = IIO_TEMP →
          cfg = BIT TH02_CONFIG_TEMP ||| BIT TH02_CONFIG_START ∧ cfg = 0x11 ∧
          ∀ i, cfg.testBit i = (i == 4 || i == 0)) ∧
        (type = IIO_HUMIDITYRELATIVE →
          cfg = BIT TH02_CONFIG_START ∧ cfg = 0x01 ∧ ∀ i, cfg.testBit i = (i == 0)) := by
  obtain ⟨⟨ret, result', device'⟩, hrun⟩ :=
    read_sensor_returns fuel client device type result hfuel hlock
  obtain ⟨_, tr, hlog, hsr⟩ := read_sensor_run _ _ _ _ _ _ _ _ hrun
  obtain ⟨cfg, a, rest, hcfg, hbus, honly⟩ := sensorRun_config hsr hv
  refine ⟨ret, result', device', tr, hrun, hlog, cfg, a, rest, hbus, honly, ?_, ?_⟩
  · intro ht
    rcases hcfg with ⟨_, hc⟩ | ⟨hne, _, _⟩
    · have h11 : cfg = 0x11 := hc.trans (by decide)
      refine ⟨hc.trans (by decide), h11, ?_⟩
      intro i
      rw [h11]
      exact testBit_0x11 i
    · exact absurd ht hne
  · intro hh
    rcases hcfg with ⟨ht, _⟩ | ⟨_, _, hc⟩
    · rw [ht] at hh
      exact absurd hh (by decide)
    · have h01 : cfg = 0x01 := hc.trans (by decide)
      refine ⟨hc.trans (by decide), h01, ?_⟩
      intro i
      rw [h01]
      exact testBit_0x01 i

/-- C10, amended, witness: temperature read on a bus that always succeeds; the
CONFIG send carries `0x11`. -/
theorem C10_config_bit_pattern_witness :
    (16 < 17 ∧ freshDevice.lock = false ∧
      (IIO_TEMP = IIO_TEMP ∨ IIO_TEMP = IIO_HUMIDITYRELATIVE)) ∧
    (∃ (ret result' : Int) (device' : th02_device) (tr : List Event),
      read_sensor 17 (idealBus 0 0x00 0x80) freshDevice IIO_TEMP 0 =
        some (ret, result', device') ∧
      device'.log = freshDevice.log ++ tr ∧
      ∃ (cfg : Nat) (a : Int) (rest : List Event),
        busTrace tr = Event.send [TH02_CONFIG, cfg] a :: rest ∧
        (∀ v b, Event.send [TH02_CONFIG, v] b ∈ tr → v = cfg) ∧
        (IIO_TEMP = IIO_TEMP →
          cfg = BIT TH02_CONFIG_TEMP ||| BIT TH02_CONFIG_START ∧ cfg = 0x11 ∧
          ∀ i, cfg.testBit i = (i == 4 || i == 0)) ∧
        (IIO_TEMP = IIO_HUMIDITYRELATIVE →
          cfg = BIT TH02_CONFIG_START ∧ cfg = 0x01 ∧ ∀ i, cfg.testBit i = (i == 0))) ∧
    (read_sensor 17 (idealBus 0 0x00 0x80) freshDevice IIO_TEMP 0).map
        (fun x => (busTrace x.2.2.log).head?) = some (some (Event.send [3, 0x11] 2)) ∧
    (read_sensor 17 (idealBus 0 0x00 0x80) freshDevice IIO_HUMIDITYRELATIVE 0).map
        (fun x => (busTrace x.2.2.log).head?) = some (some (Event.send [3, 0x01] 2)) :=
  ⟨⟨by decide, rfl, Or.inl rfl⟩,
    C10_config_bit_pattern 17 (idealBus 0 0x00 0x80) freshDevice IIO_TEMP 0 (by decide) rfl
      (Or.inl rfl),
    by decide, by decide⟩

/-! ## The poll exit test -/

/-- A poll loop left through its condition made as many STATUS reads as the
position of the first zero among the values `status` took, capped by the reads
left before the bound (none at all when it was entered with status 0). -/
theorem pollRun_count {s : Nat} {p : Int} {tr : List Event} {r : Option Int}
    (h : PollRun s p tr r) : r = none → 0 ≤ p → p ≤ TH02_MAX_RETRY →
      ∃ ss : List (Int × Int × List Nat), busTrace tr = statusReads ss ∧
        ss.length = if s = 0 then 0
          else min (TH02_MAX_RETRY - p).toNat
            ((statusValues s ss).findIdx (fun x => x == 0) + 1) := by
  induction h with
  | idle p =>
    intro _ _ _
    exact ⟨[], rfl, by simp⟩
  | exhausted s hs =>
    intro _ _ _
    exact ⟨[], rfl, by simp [hs]⟩
  | send_fail s p e _ _ _ => intro hr; cases hr
  | recv_fail s p a e d _ _ _ _ => intro hr; cases hr
  | step s p a b d tr r hs hp _ _ _ _ _ ih =>
    intro hr h0 h1
    have h1' : p + 1 ≤ TH02_MAX_RETRY := by
      simp only [TH02_MAX_RETRY] at h1 hp ⊢
      omega
    obtain ⟨ss, htr, hlen⟩ := ih hr (by omega) h1'
    refine ⟨(a, b, d) :: ss, by rw [busTrace_pollIter, htr, statusReads], ?_⟩
    simp only [List.length_cons, hs, if_false, statusValues, List.findIdx_cons]
    simp only [TH02_MAX_RETRY] at h1 hp hlen ⊢
    by_cases hz : d.headD s = 0
    · rw [hz] at hlen ⊢
      simp only [if_true] at hlen
      rw [hlen]
      simp only [beq_self_eq_true, cond_true]
      omega
    · simp only [hz, if_false] at hlen
      have hb : (d.headD s == 0) = false := by simpa using hz
      rw [hlen, hb]
      simp only [cond_false]
      omega

/-- In a call for a valid channel type whose CONFIG send and STATUS sends and
receives did not fail, the number of STATUS reads is the position of the first
zero among the values of `status`, capped at `TH02_MAX_RETRY`. -/
theorem sensorRun_count {type result : Int} {tr : List Event} {ret result' : Int}
    (h : SensorRun type result tr ret result')
    (hv : type = IIO_TEMP ∨ type = IIO_HUMIDITYRELATIVE)
    (hconfig : ∀ v a, Event.send [TH02_CONFIG, v] a ∈ tr → 0 ≤ a)
    (hsend : ∀ a, Event.send [TH02_STATUS] a ∈ tr → 0 ≤ a)
    (hrecv : ∀ b d, Event.recv 1 b d ∈ tr → 0 ≤ b) :
    ∃ (cfg : Nat) (a : Int) (ss : List (Int × Int × List Nat)) (c : Int)
      (rest : List Event),
      busTrace tr = Event.send [TH02_CONFIG, cfg] a ::
        (statusReads ss ++ Event.send [TH02_DATA] c :: rest) ∧
      ss.length = min 16 ((statusValues 1 ss).findIdx (fun x => x == 0) + 1) := by
  have key : ∀ (tr' : List Event), PollRun 1 0 tr' none →
      ∃ ss : List (Int × Int × List Nat), busTrace tr' = statusReads ss ∧
        ss.length = min 16 ((statusValues 1 ss).findIdx (fun x => x == 0) + 1) := by
    intro tr' hp
    obtain ⟨ss, hss, hlen⟩ := pollRun_count hp rfl (le_refl 0) (by decide)
    refine ⟨ss, hss, ?_⟩
    simpa [TH02_MAX_RETRY] using hlen
  cases h with
  | invalid h1 h2 => rcases hv with hv | hv <;> contradiction
  | config_fail cfg _ _ he =>
    have := hconfig cfg ret (by simp)
    omega
  | poll_fail cfg a _ tr' _ _ hp =>
    obtain ⟨he, good, f, rfl, _, hf⟩ := pollRun_some hp ret rfl
    rcases pollRun_mem hp f (by simp) with h1 | ⟨x, h1⟩ | ⟨x, d, h1⟩
    · subst h1
      simp [Event.busRet] at hf
    · subst h1
      simp only [Event.busRet, Option.some.injEq] at hf
      have := hsend x (by simp)
      omega
    · subst h1
      simp only [Event.busRet, Option.some.injEq] at hf
      have := hrecv x d (by simp)
      omega
  | data_send_fail cfg a _ tr' _ _ hp he =>
    obtain ⟨ss, hss, hlen⟩ := key tr' hp
    refine ⟨cfg, a, ss, ret, [], ?_, hlen⟩
    rw [busTrace_append, busTrace_append, hss]
    rfl
  | data_recv_fail cfg a b _ tr' d _ _ hp _ he =>
    obtain ⟨ss, hss, hlen⟩ := key tr' hp
    refine ⟨cfg, a, ss, b, [Event.recv 2 ret d], ?_, hlen⟩
    rw [busTrace_append, busTrace_append, hss]
    rfl
  | data_short cfg a b n tr' d _ _ hp _ _ _ =>
    obtain ⟨ss, hss, hlen⟩ := key tr' hp
    refine ⟨cfg, a, ss, b, [Event.recv 2 n d], ?_, hlen⟩
    rw [busTrace_append, busTrace_append, hss]
    rfl
  | done cfg a b tr' d _ _ hp _ _ _ =>
    obtain ⟨ss, hss, hlen⟩ := key tr' hp
    refine ⟨cfg, a, ss, b, [Event.recv 2 2 d], ?_, hlen⟩
    rw [busTrace_append, busTrace_append, hss]
    rfl

/-- C11, as stated, fails: on a bus whose status register always reads `0x02`
(bit 0 clear, byte non-zero) the temperature read makes 16 STATUS reads, each
storing `0x02`, where the claim gives `min(16, 1) = 1`: the loop tests
`status != 0`, not bit 0. -/
theorem C11_poll_exit_counterexample :
    (read_sensor 17 (idealBus 0x02 0x00 0x80) freshDevice IIO_TEMP 0).map
        (fun x => (x.1, x.2.1, statusData x.2.2.log)) =
      some (0, 206, List.replicate 16 [0x02]) ∧
    Nat.testBit 0x02 0 = false ∧ min 16 1 ≠ (List.replicate 16 [0x02]).length := by
  decide

/-- C11, amended (poll exit on a zero status): a `read_sensor` call for a valid
channel type on a free device returns, and if its CONFIG send and its STATUS
sends and receives did not fail, its bus transactions are the CONFIG write, `k`
STATUS reads and then the start of the DATA read, where `k` is the 1-based
position of the first STATUS read after which `status` is 0 (all eight bits are
tested), capped at 16: polling goes on exactly while `status` is non-zero and
fewer than 16 reads have been made. -/
theorem C11_poll_exit (fuel : Nat) (client : Bus) (device : th02_device)
    (type result : Int) (hfuel : 16 < fuel) (hlock : device.lock = false)
    (hv : type = IIO_TEMP ∨ type = IIO_HUMIDITYRELATIVE) :
    ∃ (ret result' : Int) (device' : th02_device) (tr : List Event),
      read_sensor fuel client device type result = some (ret, result', device') ∧
      device'.log = device.log ++ tr ∧
      ((∀ v a, Event.send [TH02_CONFIG, v] a ∈ tr → 0 ≤ a) →
        (∀ a, Event.send [TH02_STATUS] a ∈ tr → 0 ≤ a) →
        (∀ b d, Event.recv 1 b d ∈ tr → 0 ≤ b) →
        ∃ (cfg : Nat) (a : Int) (ss : List (Int × Int × List Nat)) (c : Int)
          (rest : List Event),
          busTrace tr = Event.send [TH02_CONFIG, cfg] a ::
            (statusReads ss ++ Event.send [TH02_DATA] c :: rest) ∧
          ss.length = min 16 ((statusValues 1 ss).findIdx (fun x => x == 0) + 1)) := by
  obtain ⟨⟨ret, result', device'⟩, hrun⟩ :=
    read_sensor_returns fuel client device type result hfuel hlock
  obtain ⟨_, tr, hlog, hsr⟩ := read_sensor_run _ _ _ _ _ _ _ _ hrun
  exact ⟨ret, result', device', tr, hrun, hlog, sensorRun_count hsr hv⟩

/-- C11, amended, witness: the status register reads `0x02`, `0x02`, `0x00`; the
humidity read makes three STATUS reads. -/
theorem C11_poll_exit_witness :
    (16 < 17 ∧ freshDevice.lock = false ∧
      (IIO_HUMIDITYRELATIVE = IIO_TEMP ∨ IIO_HUMIDITYRELATIVE = IIO_HUMIDITYRELATIVE)) ∧
    (∃ (ret result' : Int) (device' : th02_device) (tr : List Event),
      read_sensor 17
          ⟨fun _ bytes => bytes.length, fun hist count =>
            if count = 1 then (1, [if hist.length < 9 then 0x02 else 0x00])
            else (2, [0x00, 0x30])⟩
          freshDevice IIO_HUMIDITYRELATIVE 0 = some (ret, result', device') ∧
      device'.log = freshDevice.log ++ tr ∧
      ((∀ v a, Event.send [TH02_CONFIG, v] a ∈ tr → 0 ≤ a) →
        (∀ a, Event.send [TH02_STATUS] a ∈ tr → 0 ≤ a) →
        (∀ b d, Event.recv 1 b d ∈ tr → 0 ≤ b) →
        ∃ (cfg : Nat) (a : Int) (ss : List (Int × Int × List Nat)) (c : Int)
          (rest : List Event),
          busTrace tr = Event.send [TH02_CONFIG, cfg] a ::
            (statusReads ss ++ Event.send [TH02_DATA] c :: rest) ∧
          ss.length = min 16 ((statusValues 1 ss).findIdx (fun x => x == 0) + 1))) ∧
    (read_sensor 17
          ⟨fun _ bytes => bytes.length, fun hist count =>
            if count = 1 then (1, [if hist.length < 9 then 0x02 else 0x00])
            else (2, [0x00, 0x30])⟩
          freshDevice IIO_HUMIDITYRELATIVE 0).map
        (fun x => (x.1, x.2.1, statusData x.2.2.log)) =
      some (0, 24, [[0x02], [0x02], [0x00]]) :=
  ⟨⟨by decide, rfl, Or.inr rfl⟩,
    C11_poll_exit 17
      ⟨fun _ bytes => bytes.length, fun hist count =>
        if count = 1 then (1, [if hist.length < 9 then 0x02 else 0x00])
        else (2, [0x00, 0x30])⟩
      freshDevice IIO_HUMIDITYRELATIVE 0 (by decide) rfl (Or.inr rfl),
    by decide⟩

/-- C12 (register wire format): `read_status` sends the one byte `[0x00]` and,
unless that send returned a negative value, then receives 1 byte, and does
nothing else on the bus; `read_data` sends the one byte `[0x01]` and, unless
that send returned a negative value, then receives 2 bytes; `write_config` makes
the single send `[0x03, config]` and no receive.  In each case the value logged
for the send is what the bus returned for it. -/
theorem C12_register_wire_format (client : Bus) (device : th02_device)
    (status config : Nat) (buf : List Nat) :
    (∃ (a b : Int) (d : List Nat), a = client.send device.log [0x00] ∧
      (read_status client device status).2.2.log = device.log ++
        (if a < 0 then [Event.send [0x00] a]
          else [Event.send [0x00] a, Event.recv 1 b d])) ∧
    (∃ (a b : Int) (d : List Nat), a = client.send device.log [0x01] ∧
      (read_data client device buf).2.2.log = device.log ++
        (if a < 0 then [Event.send [0x01] a]
          else [Event.send [0x01] a, Event.recv 2 b d])) ∧
    (∃ a : Int, a = client.send device.log [0x03, config] ∧
      (write_config client device config).2.log = device.log ++
        [Event.send [0x03, config] a]) := by
  refine ⟨?_, ?_, ?_⟩
  · refine ⟨client.send device.log [0x00],
      (client.recv (device.log ++ [Event.send [0x00] (client.send device.log [0x00])]) 1).1,
      ((client.recv (device.log ++
        [Event.send [0x00] (client.send device.log [0x00])]) 1).2.take 1).map
          (fun b => b % 256), rfl, ?_⟩
    unfold read_status
    simp only [i2c_master_send, i2c_master_recv, TH02_STATUS]
    split
    · rfl
    · split <;> simp
  · refine ⟨client.send device.log [0x01],
      (client.recv (device.log ++ [Event.send [0x01] (client.send device.log [0x01])]) 2).1,
      ((client.recv (device.log ++
        [Event.send [0x01] (client.send device.log [0x01])]) 2).2.take 2).map
          (fun b => b % 256), rfl, ?_⟩
    unfold read_data
    simp only [i2c_master_send, i2c_master_recv, TH02_DATA]
    split
    · rfl
    · split
      · simp
      · split <;> simp
  · refine ⟨client.send device.log [0x03, config], rfl, ?_⟩
    unfold write_config
    simp only [i2c_master_send, TH02_CONFIG]
    split <;> rfl

/-! ## The outward query, the failure condition and the value range -/

theorem mem_of_mem_busTrace {e : Event} {tr : List Event} (h : e ∈ busTrace tr) :
    e ∈ tr :=
  (List.mem_filter.1 h).1

/-- A call that returned 0 received a 2-byte sample and stored its
conversion. -/
theorem sensorRun_zero_value {type result : Int} {tr : List Event} {ret result' : Int}
    (h : SensorRun type result tr ret result') (h0 : ret = 0) :
    ∃ d, Event.recv 2 2 d ∈ tr ∧ result' = convert type (bufAfter d) := by
  obtain ⟨_, cfg, a, ss, b, d, _, _, hbus⟩ := sensorRun_zero h h0
  have hmem : Event.recv 2 2 d ∈ tr := by
    apply mem_of_mem_busTrace
    rw [hbus]
    simp
  rcases sensorRun_data h 2 d hmem with ⟨h1, _⟩ | ⟨_, h1, _⟩ | ⟨_, _, hres, _⟩
  · omega
  · exact absurd rfl h1
  · exact ⟨d, hmem, hres⟩

/-- C13 (outward query): for `mask = IIO_CHAN_INFO_PROCESSED` and a channel of
type `IIO_TEMP` or `IIO_HUMIDITYRELATIVE`, on a free device, `th02_read_raw`
returns and is one `read_sensor` call for that type: the device afterwards is
the device after that call; when the call returned 0 the query returns
`IIO_VAL_INT` and `*val` holds the value `read_sensor` converted from the
2-byte sample it received; when the call returned another code the query
returns that code and `*val` is unchanged; `*val2` is unchanged in both cases.
For any other mask or any other channel type the query returns `-EINVAL` and
leaves device (no bus transaction), `*val` and `*val2` as they were. -/
theorem C13_read_raw (fuel : Nat) (client : Bus) (device : th02_device)
    (channel_type val val2 mask result0 : Int) (hfuel : 16 < fuel)
    (hlock : device.lock = false) :
    (mask = IIO_CHAN_INFO_PROCESSED →
      channel_type = IIO_TEMP ∨ channel_type = IIO_HUMIDITYRELATIVE →
      ∃ (ret result' : Int) (device' : th02_device) (tr : List Event),
        read_sensor fuel client device channel_type result0 =
          some (ret, result', device') ∧
        device'.log = device.log ++ tr ∧
        th02_read_raw fuel client device channel_type val val2 mask result0 =
          some (if ret = 0 then IIO_VAL_INT else ret, if ret = 0 then result' else val,
            val2, device') ∧
        (ret = 0 → ∃ d, Event.recv 2 2 d ∈ tr ∧
          result' = convert channel_type (bufAfter d))) ∧
    (mask ≠ IIO_CHAN_INFO_PROCESSED ∨
        (channel_type ≠ IIO_TEMP ∧ channel_type ≠ IIO_HUMIDITYRELATIVE) →
      th02_read_raw fuel client device channel_type val val2 mask result0 =
        some (- EINVAL, val, val2, device)) := by
  constructor
  · intro hm hv
    obtain ⟨⟨ret, result', device'⟩, hrun⟩ :=
      read_sensor_returns fuel client device channel_type result0 hfuel hlock
    obtain ⟨_, tr, hlog, hsr⟩ := read_sensor_run _ _ _ _ _ _ _ _ hrun
    refine ⟨ret, result', device', tr, hrun, hlog, ?_, sensorRun_zero_value hsr⟩
    unfold th02_read_raw
    simp only [hm, hv, if_true, hrun]
    by_cases h0 : ret = 0
    · simp [h0]
    · simp [h0]
  · intro h
    unfold th02_read_raw
    rcases h with h | ⟨h1, h2⟩
    · simp only [h, if_false]
    · have hv : ¬ (channel_type = IIO_TEMP ∨ channel_type = IIO_HUMIDITYRELATIVE) := by
        intro hv
        rcases hv with hv | hv
        · exact h1 hv
        · exact h2 hv
      by_cases hm : mask = IIO_CHAN_INFO_PROCESSED
      · simp only [hm, hv, if_true, if_false]
      · simp only [hm, if_false]

/-- C13, witness: a processed temperature query on a bus that always succeeds
returns `IIO_VAL_INT` with `*val = 206` and `*val2` untouched; the same query
with the 2-byte receive reporting 1 byte returns `-EIO`; a query with mask
`IIO_CHAN_INFO_RAW` (0) returns `-EINVAL` without touching the device. -/
theorem C13_read_raw_witness :
    (16 < 17 ∧ freshDevice.lock = false) ∧
    ((IIO_CHAN_INFO_PROCESSED = IIO_CHAN_INFO_PROCESSED →
      IIO_TEMP = IIO_TEMP ∨ IIO_TEMP = IIO_HUMIDITYRELATIVE →
      ∃ (ret result' : Int) (device' : th02_device) (tr : List Event),
        read_sensor 17 (idealBus 0 0x00 0x80) freshDevice IIO_TEMP 5 =
          some (ret, result', device') ∧
        device'.log = freshDevice.log ++ tr ∧
        th02_read_raw 17 (idealBus 0 0x00 0x80) freshDevice IIO_TEMP 8 9
            IIO_CHAN_INFO_PROCESSED 5 =
          some (if ret = 0 then IIO_VAL_INT else ret, if ret = 0 then result' else 8,
            9, device') ∧
        (ret = 0 → ∃ d, Event.recv 2 2 d ∈ tr ∧
          result' = convert IIO_TEMP (bufAfter d))) ∧
    (IIO_CHAN_INFO_PROCESSED ≠ IIO_CHAN_INFO_PROCESSED ∨
        (IIO_TEMP ≠ IIO_TEMP ∧ IIO_TEMP ≠ IIO_HUMIDITYRELATIVE) →
      th02_read_raw 17 (idealBus 0 0x00 0x80) freshDevice IIO_TEMP 8 9
          IIO_CHAN_INFO_PROCESSED 5 =
        some (- EINVAL, 8, 9, freshDevice))) ∧
    th02_read_raw 17 (idealBus 0 0x00 0x80) freshDevice IIO_TEMP 8 9
        IIO_CHAN_INFO_PROCESSED 5 =
      some (1, 206, 9, ⟨false, [Event.lock, Event.send [3, 0x11] 2, Event.msleep 1,
        Event.send [0] 1, Event.recv 1 1 [0], Event.send [1] 1,
        Event.recv 2 2 [0x00, 0x80], Event.unlock]⟩) ∧
    (th02_read_raw 17 (shortBus 1 0 0x00 0x80) freshDevice IIO_TEMP 8 9
        IIO_CHAN_INFO_PROCESSED 5).map (fun x => (x.1, x.2.1, x.2.2.1)) =
      some (-5, 8, 9) ∧
    th02_read_raw 17 (idealBus 0 0x00 0x80) freshDevice IIO_TEMP 8 9 0 5 =
      some (-22, 8, 9, freshDevice) ∧
    th02_read_raw 17 (idealBus 0 0x00 0x80) freshDevice 0 8 9 IIO_CHAN_INFO_PROCESSED 5 =
      some (-22, 8, 9, freshDevice) :=
  ⟨⟨by decide, rfl⟩,
    C13_read_raw 17 (idealBus 0 0x00 0x80) freshDevice IIO_TEMP 8 9
      IIO_CHAN_INFO_PROCESSED 5 (by decide) rfl,
    by decide, by decide, by decide, by decide⟩

/-- For a valid channel type the call returns a non-zero code exactly when a
bus primitive returned a negative value or the 2-byte receive returned a count
other than 2. -/
theorem sensorRun_nonzero {type result : Int} {tr : List Event} {ret result' : Int}
    (h : SensorRun type result tr ret result')
    (hv : type = IIO_TEMP ∨ type = IIO_HUMIDITYRELATIVE) :
    ret ≠ 0 ↔ ((∃ e ∈ tr, ∃ x, e.busRet = some x ∧ x < 0) ∨
      ∃ n d, Event.recv 2 n d ∈ tr ∧ n ≠ 2) := by
  constructor
  · intro hne
    cases h with
    | invalid h1 h2 => rcases hv with hv | hv <;> contradiction
    | config_fail cfg _ _ he =>
      exact Or.inl ⟨Event.send [TH02_CONFIG, cfg] ret, by simp, ret, rfl, he⟩
    | poll_fail cfg a _ tr' _ _ hp =>
      obtain ⟨he, good, f, rfl, _, hf⟩ := pollRun_some hp ret rfl
      exact Or.inl ⟨f, by simp, ret, hf, he⟩
    | data_send_fail cfg a _ tr' _ _ hp he =>
      exact Or.inl ⟨Event.send [TH02_DATA] ret, by simp, ret, rfl, he⟩
    | data_recv_fail cfg a b _ tr' d _ _ hp _ he =>
      exact Or.inl ⟨Event.recv 2 ret d, by simp, ret, rfl, he⟩
    | data_short cfg a b n tr' d _ _ hp _ _ hn2 =>
      exact Or.inr ⟨n, d, by simp, hn2⟩
    | done cfg a b tr' d _ _ hp _ _ _ => exact absurd rfl hne
  · intro hr
    rcases hr with ⟨e, he, x, hx, hneg⟩ | ⟨n, d, hmem, hn⟩
    · obtain ⟨pre, post, hsplit⟩ := List.append_of_mem he
      have := (sensorRun_fail h pre e post x hsplit hx hneg).1
      omega
    · rcases sensorRun_data h n d hmem with ⟨h1, h2, _⟩ | ⟨_, _, h2, _⟩ | ⟨h1, _⟩
      · omega
      · rw [h2]
        decide
      · exact absurd h1 hn

theorem statusValues_unchanged (s : Nat) (hs : s ≠ 0) :
    ∀ ss : List (Int × Int × List Nat), (∀ x ∈ ss, x.2.2 = []) →
      (statusValues s ss).findIdx (fun x => x == 0) = ss.length := by
  intro ss
  induction ss with
  | nil => intro _; rfl
  | cons x rest ih =>
    intro hall
    obtain ⟨a, b, d⟩ := x
    have hd : d = [] := hall (a, b, d) (by simp)
    subst hd
    have hb : (s == 0) = false := by simpa using hs
    simp only [statusValues, List.headD_nil, List.findIdx_cons, hb, cond_false,
      List.length_cons]
    rw [ih (fun y hy => hall y (List.mem_cons_of_mem _ hy))]

theorem mem_statusReads {a b : Int} {d : List Nat} :
    ∀ ss : List (Int × Int × List Nat), (a, b, d) ∈ ss →
      Event.recv 1 b d ∈ statusReads ss := by
  intro ss
  induction ss with
  | nil => intro h; simp at h
  | cons x rest ih =>
    intro h
    obtain ⟨a', b', d'⟩ := x
    rcases List.mem_cons.1 h with h | h
    · cases h
      simp [statusReads]
    · simp only [statusReads, List.mem_cons]
      exact Or.inr (Or.inr (ih h))

/-- C15 (exact failure condition): a `read_sensor` call for a valid channel type
on a free device returns, and its return value is non-zero if and only if some
bus primitive of the call returned a negative value or its 2-byte receive (the
DATA receive) returned a count other than 2; so sends and STATUS receives that
return any non-negative count, also one below the count asked for, do not fail
the call.  And when no bus primitive failed and every STATUS receive stored no
byte, `status` keeps its previous (initial, non-zero) value for the loop test:
the call makes 16 STATUS reads before it starts the DATA read. -/
theorem C15_exact_failure_condition (fuel : Nat) (client : Bus) (device : th02_device)
    (type result : Int) (hfuel : 16 < fuel) (hlock : device.lock = false)
    (hv : type = IIO_TEMP ∨ type = IIO_HUMIDITYRELATIVE) :
    ∃ (ret result' : Int) (device' : th02_device) (tr : List Event),
      read_sensor fuel client device type result = some (ret, result', device') ∧
      device'.log = device.log ++ tr ∧
      (ret ≠ 0 ↔ ((∃ e ∈ tr, ∃ x, e.busRet = some x ∧ x < 0) ∨
        ∃ n d, Event.recv 2 n d ∈ tr ∧ n ≠ 2)) ∧
      (NoFail tr → (∀ b d, Event.recv 1 b d ∈ tr → d = []) →
        ∃ (cfg : Nat) (a : Int) (ss : List (Int × Int × List Nat)) (c : Int)
          (rest : List Event),
          busTrace tr = Event.send [TH02_CONFIG, cfg] a ::
            (statusReads ss ++ Event.send [TH02_DATA] c :: rest) ∧
          ss.length = 16) := by
  obtain ⟨⟨ret, result', device'⟩, hrun⟩ :=
    read_sensor_returns fuel client device type result hfuel hlock
  obtain ⟨_, tr, hlog, hsr⟩ := read_sensor_run _ _ _ _ _ _ _ _ hrun
  refine ⟨ret, result', device', tr, hrun, hlog, sensorRun_nonzero hsr hv, ?_⟩
  intro hnf hempty
  obtain ⟨cfg, a, ss, c, rest, hbus, hlen⟩ := sensorRun_count hsr hv
    (fun v x hx => hnf _ hx x rfl) (fun x hx => hnf _ hx x rfl)
    (fun b d hb => hnf _ hb b rfl)
  refine ⟨cfg, a, ss, c, rest, hbus, ?_⟩
  have hall : ∀ x ∈ ss, x.2.2 = [] := by
    intro x hx
    obtain ⟨a', b', d'⟩ := x
    apply hempty b' d'
    apply mem_of_mem_busTrace
    rw [hbus]
    simp only [List.mem_cons, List.mem_append]
    exact Or.inr (Or.inl (mem_statusReads ss hx))
  rw [statusValues_unchanged 1 (by decide) ss hall] at hlen
  omega

/-- C15, witness: every send reports 0 bytes sent, every STATUS receive reports
0 bytes and stores none, the DATA receive returns 2: the temperature read makes
16 STATUS reads (35 bus primitives) and returns 0 with the converted sample. -/
theorem C15_exact_failure_condition_witness :
    (16 < 17 ∧ freshDevice.lock = false ∧
      (IIO_TEMP = IIO_TEMP ∨ IIO_TEMP = IIO_HUMIDITYRELATIVE)) ∧
    (∃ (ret result' : Int) (device' : th02_device) (tr : List Event),
      read_sensor 17
          ⟨fun _ _ => 0, fun _ count => if count = 1 then (0, []) else (2, [0x00, 0x80])⟩
          freshDevice IIO_TEMP 7 = some (ret, result', device') ∧
      device'.log = freshDevice.log ++ tr ∧
      (ret ≠ 0 ↔ ((∃ e ∈ tr, ∃ x, e.busRet = some x ∧ x < 0) ∨
        ∃ n d, Event.recv 2 n d ∈ tr ∧ n ≠ 2)) ∧
      (NoFail tr → (∀ b d, Event.recv 1 b d ∈ tr → d = []) →
        ∃ (cfg : Nat) (a : Int) (ss : List (Int × Int × List Nat)) (c : Int)
          (rest : List Event),
          busTrace tr = Event.send [TH02_CONFIG, cfg] a ::
            (statusReads ss ++ Event.send [TH02_DATA] c :: rest) ∧
          ss.length = 16)) ∧
    (read_sensor 17
          ⟨fun _ _ => 0, fun _ count => if count = 1 then (0, []) else (2, [0x00, 0x80])⟩
          freshDevice IIO_TEMP 7).map
        (fun x => (x.1, x.2.1, statusData x.2.2.log, (busTrace x.2.2.log).length)) =
      some (0, 206, List.replicate 16 [], 35) :=
  ⟨⟨by decide, rfl, Or.inl rfl⟩,
    C15_exact_failure_condition 17
      ⟨fun _ _ => 0, fun _ count => if count = 1 then (0, []) else (2, [0x00, 0x80])⟩
      freshDevice IIO_TEMP 7 (by decide) rfl (Or.inl rfl),
    by decide⟩

/-! ## Arithmetic of the conversion -/

theorem humidity_code (low high : Nat) (hl : low < 256) :
    (high <<< 4 ||| low >>> 4) = 16 * high + low / 16 := by
  have h1 : low >>> 4 < 2 ^ 4 := by rw [Nat.shiftRight_eq_div_pow]; omega
  have h2 : high <<< 4 = 2 ^ 4 * high := by rw [Nat.shiftLeft_eq, Nat.mul_comm]
  rw [h2, ← Nat.mul_add_lt_is_or h1, Nat.shiftRight_eq_div_pow]

theorem temp_code (low high : Nat) (hl : low < 256) :
    (high <<< 6 ||| low >>> 2) = 64 * high + low / 4 := by
  have h1 : low >>> 2 < 2 ^ 6 := by rw [Nat.shiftRight_eq_div_pow]; omega
  have h2 : high <<< 6 = 2 ^ 6 * high := by rw [Nat.shiftLeft_eq, Nat.mul_comm]
  rw [h2, ← Nat.mul_add_lt_is_or h1, Nat.shiftRight_eq_div_pow]

theorem convert_humidity_high (low high : Nat) (hl : low < 256) :
    convert IIO_HUMIDITYRELATIVE (bufAfter [low, high]) = (high : Int) - 24 := by
  rw [convert_humidity, humidity_code low high hl]
  have : (16 * high + low / 16) / 16 = high := by omega
  rw [this]

theorem convert_temp_high (low high : Nat) (hl : low < 256) :
    convert IIO_TEMP (bufAfter [low, high]) =
      2 * (high : Int) + ((low >>> 7 : Nat) : Int) - 50 := by
  rw [convert_temp, temp_code low high hl, Nat.shiftRight_eq_div_pow]
  have : (64 * high + low / 4) / 32 = 2 * high + low / 2 ^ 7 := by omega
  rw [this]
  push_cast
  ring

/-- C16 (humidity ignores the low byte): for every `low` in 0..255 and every
`high` (those in 0..255 in particular), the humidity conversion of the sample, `((high << 4 | low >> 4) / 16) - 24`,
equals `high - 24`, so it is the same for every other low byte; the temperature
conversion, `((high << 6 | low >> 2) / 32) - 50`, equals
`2 * high + (low >> 7) - 50`; and whenever a `read_sensor` call returns after its
2-byte receive returned 2 and stored `low, high`, the result cell holds
`high - 24` for `IIO_HUMIDITYRELATIVE` and `2 * high + (low >> 7) - 50` for
`IIO_TEMP`. -/
theorem C16_humidity_ignores_low_byte (low high : Nat) (hl : low < 256) :
    (convert IIO_HUMIDITYRELATIVE (bufAfter [low, high]) =
        (((high <<< 4 ||| low >>> 4) / 16 : Nat) : Int) - 24 ∧
      (((high <<< 4 ||| low >>> 4) / 16 : Nat) : Int) - (24 : Int) = (high : Int) - (24 : Int)) ∧
    (∀ low2, low2 < 256 →
      convert IIO_HUMIDITYRELATIVE (bufAfter [low2, high]) =
        convert IIO_HUMIDITYRELATIVE (bufAfter [low, high])) ∧
    (convert IIO_TEMP (bufAfter [low, high]) =
        (((high <<< 6 ||| low >>> 2) / 32 : Nat) : Int) - 50 ∧
      (((high <<< 6 ||| low >>> 2) / 32 : Nat) : Int) - (50 : Int) =
        (2 : Int) * (high : Int) + ((low >>> 7 : Nat) : Int) - (50 : Int)) ∧
    ∀ (fuel : Nat) (client : Bus) (device : th02_device) (type result ret result' : Int)
      (device' : th02_device) (tr : List Event),
      read_sensor fuel client device type result = some (ret, result', device') →
      device'.log = device.log ++ tr → Event.recv 2 2 [low, high] ∈ tr →
      (type = IIO_HUMIDITYRELATIVE → result' = (high : Int) - 24) ∧
      (type = IIO_TEMP → result' = 2 * (high : Int) + ((low >>> 7 : Nat) : Int) - 50) := by
  refine ⟨⟨convert_humidity low high, ?_⟩, ?_, ⟨convert_temp low high, ?_⟩, ?_⟩
  · have h := convert_humidity_high low high hl
    rw [convert_humidity] at h
    exact h
  · intro low2 hl2
    rw [convert_humidity_high low2 high hl2, convert_humidity_high low high hl]
  · have h := convert_temp_high low high hl
    rw [convert_temp] at h
    exact h
  · intro fuel client device type result ret result' device' tr hrun hlog hmem
    obtain ⟨_, tr0, hlog0, hsr⟩ := read_sensor_run _ _ _ _ _ _ _ _ hrun
    have htr : tr0 = tr := List.append_cancel_left (hlog0.symm.trans hlog)
    subst htr
    rcases sensorRun_data hsr 2 [low, high] hmem with ⟨h, _⟩ | ⟨_, h, _⟩ | ⟨_, _, hres, _⟩
    · omega
    · exact absurd rfl h
    · constructor
      · intro ht
        rw [hres, ht, convert_humidity_high low high hl]
      · intro ht
        rw [hres, ht, convert_temp_high low high hl]

/-- C16, witness: samples `(high, low) = (0x30, 0xFF)` and `(0x30, 0x00)` both
give humidity 24; sample `(0x80, 0x80)` gives temperature 207. -/
theorem C16_humidity_ignores_low_byte_witness :
    0xFF < 256 ∧
    ((convert IIO_HUMIDITYRELATIVE (bufAfter [0xFF, 0x30]) =
        (((0x30 <<< 4 ||| 0xFF >>> 4) / 16 : Nat) : Int) - 24 ∧
      (((0x30 <<< 4 ||| 0xFF >>> 4) / 16 : Nat) : Int) - (24 : Int) =
        ((0x30 : Nat) : Int) - (24 : Int)) ∧
    (∀ low2, low2 < 256 →
      convert IIO_HUMIDITYRELATIVE (bufAfter [low2, 0x30]) =
        convert IIO_HUMIDITYRELATIVE (bufAfter [0xFF, 0x30])) ∧
    (convert IIO_TEMP (bufAfter [0xFF, 0x30]) =
        (((0x30 <<< 6 ||| 0xFF >>> 2) / 32 : Nat) : Int) - 50 ∧
      (((0x30 <<< 6 ||| 0xFF >>> 2) / 32 : Nat) : Int) - (50 : Int) =
        (2 : Int) * ((0x30 : Nat) : Int) + ((0xFF >>> 7 : Nat) : Int) - (50 : Int)) ∧
    ∀ (fuel : Nat) (client : Bus) (device : th02_device) (type result ret result' : Int)
      (device' : th02_device) (tr : List Event),
      read_sensor fuel client device type result = some (ret, result', device') →
      device'.log = device.log ++ tr → Event.recv 2 2 [0xFF, 0x30] ∈ tr →
      (type = IIO_HUMIDITYRELATIVE → result' = ((0x30 : Nat) : Int) - 24) ∧
      (type = IIO_TEMP →
        result' = 2 * ((0x30 : Nat) : Int) + ((0xFF >>> 7 : Nat) : Int) - 50)) ∧
    (read_sensor 17 (idealBus 0 0xFF 0x30) freshDevice IIO_HUMIDITYRELATIVE 0).map
        (fun x => (x.1, x.2.1)) = some (0, 24) ∧
    (read_sensor 17 (idealBus 0 0x00 0x30) freshDevice IIO_HUMIDITYRELATIVE 0).map
        (fun x => (x.1, x.2.1)) = some (0, 24) ∧
    (read_sensor 17 (idealBus 0 0x80 0x80) freshDevice IIO_TEMP 0).map
        (fun x => (x.1, x.2.1)) = some (0, 207) :=
  ⟨by decide,
    C16_humidity_ignores_low_byte 0xFF 0x30 (by decide),
    by decide, by decide, by decide⟩

theorem bufAfter_lt (d : List Nat) (hd : d.length ≤ 2) (hlt : ∀ x ∈ d, x < 256) :
    (bufAfter d).getD 0 0 < 256 ∧ (bufAfter d).getD 1 0 < 256 := by
  match d, hd, hlt with
  | [], _, _ => exact ⟨by decide, by decide⟩
  | [x], _, h => exact ⟨by simpa [bufAfter] using h x (by simp), by simp [bufAfter]⟩
  | [x, y], _, h =>
    exact ⟨by simpa [bufAfter] using h x (by simp), by simpa [bufAfter] using h y (by simp)⟩

/-- Range of the conversion of a buffer of two bytes. -/
theorem convert_bounds (type : Int) (buf : List Nat) (h0 : buf.getD 0 0 < 256)
    (h1 : buf.getD 1 0 < 256) :
    (type = IIO_TEMP → -50 ≤ convert type buf ∧ convert type buf ≤ 461) ∧
    (type ≠ IIO_TEMP → -24 ≤ convert type buf ∧ convert type buf ≤ 231) := by
  constructor
  · intro ht
    have hc := temp_code (buf.getD 0 0) (buf.getD 1 0) h0
    have hdiv : Int.tdiv ((buf.getD 1 0 <<< 6 ||| buf.getD 0 0 >>> 2 : Nat) : Int) 32 =
        (((buf.getD 1 0 <<< 6 ||| buf.getD 0 0 >>> 2) / 32 : Nat) : Int) := by
      rw [Int.ofNat_tdiv]
      rfl
    simp only [convert, ht, if_true]
    rw [hdiv, hc]
    omega
  · intro ht
    have hc := humidity_code (buf.getD 0 0) (buf.getD 1 0) h0
    have hdiv : Int.tdiv ((buf.getD 1 0 <<< 4 ||| buf.getD 0 0 >>> 4 : Nat) : Int) 16 =
        (((buf.getD 1 0 <<< 4 ||| buf.getD 0 0 >>> 4) / 16 : Nat) : Int) := by
      rw [Int.ofNat_tdiv]
      rfl
    simp only [convert, ht, if_false]
    rw [hdiv, hc]
    omega

/-- C17 (result range): for every raw sample `low, high` in 0..255 the
temperature code `(high << 6) | (low >> 2)` is below `2^14` and the humidity code
`(high << 4) | (low >> 4)` is below `2^12`; the converted temperature lies in
`[-50, 461]` and the converted humidity in `[-24, 231]`, the four bounds being
attained at the samples `(0, 0)` and `(255, 255)`; every intermediate value of
the two conversions is non-negative and below `2^31`; and every `read_sensor`
call that returns 0 leaves a temperature in `[-50, 461]`, respectively a
humidity in `[-24, 231]`, in the result cell, the bounds being attained by
calls on a bus that delivers these samples. -/
theorem C17_result_range (low high : Nat) (hl : low < 256) (hh : high < 256) :
    ((high <<< 6 ||| low >>> 2) < 2 ^ 14 ∧ (high <<< 4 ||| low >>> 4) < 2 ^ 12) ∧
    ((-50 : Int) ≤ convert IIO_TEMP (bufAfter [low, high]) ∧
      convert IIO_TEMP (bufAfter [low, high]) ≤ (461 : Int)) ∧
    ((-24 : Int) ≤ convert IIO_HUMIDITYRELATIVE (bufAfter [low, high]) ∧
      convert IIO_HUMIDITYRELATIVE (bufAfter [low, high]) ≤ (231 : Int)) ∧
    (convert IIO_TEMP (bufAfter [0, 0]) = -50 ∧
      convert IIO_TEMP (bufAfter [255, 255]) = 461 ∧
      convert IIO_HUMIDITYRELATIVE (bufAfter [0, 0]) = -24 ∧
      convert IIO_HUMIDITYRELATIVE (bufAfter [255, 255]) = 231) ∧
    (high <<< 6 < 2 ^ 31 ∧ low >>> 2 < 2 ^ 31 ∧ (high <<< 6 ||| low >>> 2) / 32 < 2 ^ 31 ∧
      high <<< 4 < 2 ^ 31 ∧ low >>> 4 < 2 ^ 31 ∧ (high <<< 4 ||| low >>> 4) / 16 < 2 ^ 31) ∧
    (∀ (fuel : Nat) (client : Bus) (device : th02_device) (type result result' : Int)
      (device' : th02_device),
      read_sensor fuel client device type result = some (0, result', device') →
      (type = IIO_TEMP → (-50 : Int) ≤ result' ∧ result' ≤ (461 : Int)) ∧
      (type = IIO_HUMIDITYRELATIVE → (-24 : Int) ≤ result' ∧ result' ≤ (231 : Int))) ∧
    ((read_sensor 17 (idealBus 0 0 0) freshDevice IIO_TEMP 0).map
        (fun x => (x.1, x.2.1)) = some (0, -50) ∧
      (read_sensor 17 (idealBus 0 255 255) freshDevice IIO_TEMP 0).map
        (fun x => (x.1, x.2.1)) = some (0, 461) ∧
      (read_sensor 17 (idealBus 0 0 0) freshDevice IIO_HUMIDITYRELATIVE 0).map
        (fun x => (x.1, x.2.1)) = some (0, -24) ∧
      (read_sensor 17 (idealBus 0 255 255) freshDevice IIO_HUMIDITYRELATIVE 0).map
        (fun x => (x.1, x.2.1)) = some (0, 231)) := by
  have ht := temp_code low high hl
  have hu := humidity_code low high hl
  have hb : (bufAfter [low, high]).getD 0 0 < 256 ∧ (bufAfter [low, high]).getD 1 0 < 256 :=
    ⟨hl, hh⟩
  have hsl6 : high <<< 6 = high * 64 := by rw [Nat.shiftLeft_eq]
  have hsl4 : high <<< 4 = high * 16 := by rw [Nat.shiftLeft_eq]
  have hsr2 : low >>> 2 = low / 4 := by rw [Nat.shiftRight_eq_div_pow]
  have hsr4 : low >>> 4 = low / 16 := by rw [Nat.shiftRight_eq_div_pow]
  refine ⟨⟨by omega, by omega⟩, (convert_bounds IIO_TEMP _ hb.1 hb.2).1 rfl,
    (convert_bounds IIO_HUMIDITYRELATIVE _ hb.1 hb.2).2 (by decide),
    ⟨by decide, by decide, by decide, by decide⟩,
    ⟨by omega, by omega, by omega, by omega, by omega, by omega⟩, ?_,
    ⟨by decide, by decide, by decide, by decide⟩⟩
  intro fuel client device type result result' device' hrun
  obtain ⟨_, tr, _, hsr⟩ := read_sensor_run _ _ _ _ _ _ _ _ hrun
  obtain ⟨d, hmem, hres⟩ := sensorRun_zero_value hsr rfl
  rcases sensorRun_data hsr 2 d hmem with ⟨h, _⟩ | ⟨_, h, _⟩ | ⟨_, _, _, hd, hlt⟩
  · omega
  · exact absurd rfl h
  · obtain ⟨h0, h1⟩ := bufAfter_lt d hd hlt
    constructor
    · intro hty
      rw [hres]
      exact (convert_bounds type _ h0 h1).1 hty
    · intro hty
      rw [hres]
      apply (convert_bounds type _ h0 h1).2
      rw [hty]
      decide

/-- C17, witness: the sample `(high, low) = (255, 255)`, at which both upper
bounds are attained. -/
theorem C17_result_range_witness :
    (255 < 256 ∧ 255 < 256) ∧
    ((255 <<< 6 ||| 255 >>> 2) = 16383 ∧ (255 <<< 4 ||| 255 >>> 4) = 4095) ∧
    (((255 <<< 6 ||| 255 >>> 2) < 2 ^ 14 ∧ (255 <<< 4 ||| 255 >>> 4) < 2 ^ 12) ∧
    ((-50 : Int) ≤ convert IIO_TEMP (bufAfter [255, 255]) ∧
      convert IIO_TEMP (bufAfter [255, 255]) ≤ (461 : Int)) ∧
    ((-24 : Int) ≤ convert IIO_HUMIDITYRELATIVE (bufAfter [255, 255]) ∧
      convert IIO_HUMIDITYRELATIVE (bufAfter [255, 255]) ≤ (231 : Int)) ∧
    (convert IIO_TEMP (bufAfter [0, 0]) = -50 ∧
      convert IIO_TEMP (bufAfter [255, 255]) = 461 ∧
      convert IIO_HUMIDITYRELATIVE (bufAfter [0, 0]) = -24 ∧
      convert IIO_HUMIDITYRELATIVE (bufAfter [255, 255]) = 231) ∧
    (255 <<< 6 < 2 ^ 31 ∧ 255 >>> 2 < 2 ^ 31 ∧ (255 <<< 6 ||| 255 >>> 2) / 32 < 2 ^ 31 ∧
      255 <<< 4 < 2 ^ 31 ∧ 255 >>> 4 < 2 ^ 31 ∧ (255 <<< 4 ||| 255 >>> 4) / 16 < 2 ^ 31) ∧
    (∀ (fuel : Nat) (client : Bus) (device : th02_device) (type result result' : Int)
      (device' : th02_device),
      read_sensor fuel client device type result = some (0, result', device') →
      (type = IIO_TEMP → (-50 : Int) ≤ result' ∧ result' ≤ (461 : Int)) ∧
      (type = IIO_HUMIDITYRELATIVE → (-24 : Int) ≤ result' ∧ result' ≤ (231 : Int))) ∧
    ((read_sensor 17 (idealBus 0 0 0) freshDevice IIO_TEMP 0).map
        (fun x => (x.1, x.2.1)) = some (0, -50) ∧
      (read_sensor 17 (idealBus 0 255 255) freshDevice IIO_TEMP 0).map
        (fun x => (x.1, x.2.1)) = some (0, 461) ∧
      (read_sensor 17 (idealBus 0 0 0) freshDevice IIO_HUMIDITYRELATIVE 0).map
        (fun x => (x.1, x.2.1)) = some (0, -24) ∧
      (read_sensor 17 (idealBus 0 255 255) freshDevice IIO_HUMIDITYRELATIVE 0).map
        (fun x => (x.1, x.2.1)) = some (0, 231))) :=
  ⟨⟨by decide, by decide⟩, ⟨by decide, by decide⟩,
    C17_result_range 255 255 (by decide) (by decide)⟩

/-! ## The second channel-type check -/

theorem valid_of_isConfig {type : Int} {cfg : Nat} (h : IsConfig type cfg) :
    type = IIO_TEMP ∨ type = IIO_HUMIDITYRELATIVE := by
  rcases h with ⟨h, _⟩ | ⟨_, h, _⟩
  · exact Or.inl h
  · exact Or.inr h

/-- Where the return value of a call comes from: the first channel-type check
(no event at all), a bus primitive that returned it, the short 2-byte receive,
or success. -/
theorem sensorRun_origin {type result : Int} {tr : List Event} {ret result' : Int}
    (h : SensorRun type result tr ret result') :
    (type ≠ IIO_TEMP ∧ type ≠ IIO_HUMIDITYRELATIVE ∧ tr = [] ∧ ret = - EINVAL) ∨
    ((type = IIO_TEMP ∨ type = IIO_HUMIDITYRELATIVE) ∧ busTrace tr ≠ [] ∧
      (ret = 0 ∨ (ret = - EIO ∧ ∃ n d, Event.recv 2 n d ∈ tr ∧ 0 ≤ n ∧ n ≠ 2) ∨
        (ret < 0 ∧ ∃ e ∈ tr, e.busRet = some ret))) := by
  have hne : ∀ (cfg : Nat) (a : Int) (l1 l2 : List Event),
      busTrace ([Event.lock, Event.send [TH02_CONFIG, cfg] a] ++ l1 ++ l2) ≠ [] := by
    intro cfg a l1 l2
    rw [busTrace_append, busTrace_append]
    intro hnil
    have : Event.send [TH02_CONFIG, cfg] a ∈
        busTrace [Event.lock, Event.send [TH02_CONFIG, cfg] a] ++ busTrace l1 ++
          busTrace l2 := by
      apply List.mem_append_left
      apply List.mem_append_left
      simp [busTrace, Event.isBus, Event.busRet]
    rw [hnil] at this
    simp at this
  cases h with
  | invalid h1 h2 => exact Or.inl ⟨h1, h2, rfl, rfl⟩
  | config_fail cfg _ hcfg he =>
    refine Or.inr ⟨valid_of_isConfig hcfg, ?_,
      Or.inr (Or.inr ⟨he, Event.send [TH02_CONFIG, cfg] ret, ?_, rfl⟩)⟩
    · simp [busTrace, Event.isBus, Event.busRet]
    · simp
  | poll_fail cfg a _ tr' hcfg _ hp =>
    obtain ⟨he, good, f, rfl, _, hf⟩ := pollRun_some hp ret rfl
    exact Or.inr ⟨valid_of_isConfig hcfg, hne cfg a _ _,
      Or.inr (Or.inr ⟨he, f, by simp, hf⟩)⟩
  | data_send_fail cfg a _ tr' hcfg _ hp he =>
    exact Or.inr ⟨valid_of_isConfig hcfg, hne cfg a _ _,
      Or.inr (Or.inr ⟨he, Event.send [TH02_DATA] ret, by simp, rfl⟩)⟩
  | data_recv_fail cfg a b _ tr' d hcfg _ hp _ he =>
    exact Or.inr ⟨valid_of_isConfig hcfg, hne cfg a _ _,
      Or.inr (Or.inr ⟨he, Event.recv 2 ret d, by simp, rfl⟩)⟩
  | data_short cfg a b n tr' d hcfg _ hp _ hn hn2 =>
    exact Or.inr ⟨valid_of_isConfig hcfg, hne cfg a _ _,
      Or.inr (Or.inl ⟨rfl, n, d, by simp, hn, hn2⟩)⟩
  | done cfg a b tr' d hcfg _ hp _ _ _ =>
    exact Or.inr ⟨valid_of_isConfig hcfg, hne cfg a _ _, Or.inl rfl⟩

/-- C18 (the second channel-type check is unreachable): a `read_sensor` call on a
free device returns, and: if the call made any bus transaction, its channel type
is `IIO_TEMP` or `IIO_HUMIDITYRELATIVE`; if it reached the conversion switch
(its 2-byte receive returned 2), the type is one of the two and the call returns
0; and if it returns `-EINVAL`, then either the type is invalid and the call made
no event at all, or a bus primitive of the call itself returned `-EINVAL`.  So
no call makes bus traffic and then fails with the invalid-type error of
`read_sensor`. -/
theorem C18_second_check_unreachable (fuel : Nat) (client : Bus) (device : th02_device)
    (type result : Int) (hfuel : 16 < fuel) (hlock : device.lock = false) :
    ∃ (ret result' : Int) (device' : th02_device) (tr : List Event),
      read_sensor fuel client device type result = some (ret, result', device') ∧
      device'.log = device.log ++ tr ∧
      (busTrace tr ≠ [] → type = IIO_TEMP ∨ type = IIO_HUMIDITYRELATIVE) ∧
      (∀ d, Event.recv 2 2 d ∈ tr →
        (type = IIO_TEMP ∨ type = IIO_HUMIDITYRELATIVE) ∧ ret = 0) ∧
      (ret = - EINVAL →
        (type ≠ IIO_TEMP ∧ type ≠ IIO_HUMIDITYRELATIVE ∧ tr = []) ∨
        ∃ e ∈ tr, e.busRet = some (- EINVAL)) := by
  obtain ⟨⟨ret, result', device'⟩, hrun⟩ :=
    read_sensor_returns fuel client device type result hfuel hlock
  obtain ⟨_, tr, hlog, hsr⟩ := read_sensor_run _ _ _ _ _ _ _ _ hrun
  refine ⟨ret, result', device', tr, hrun, hlog, ?_, ?_, ?_⟩
  · intro hne
    rcases sensorRun_origin hsr with ⟨_, _, hnil, _⟩ | ⟨hv, _, _⟩
    · rw [hnil] at hne
      exact absurd rfl hne
    · exact hv
  · intro d hmem
    rcases sensorRun_origin hsr with ⟨_, _, hnil, _⟩ | ⟨hv, _, _⟩
    · rw [hnil] at hmem
      simp at hmem
    · refine ⟨hv, ?_⟩
      rcases sensorRun_data hsr 2 d hmem with ⟨h, _⟩ | ⟨_, h, _⟩ | ⟨_, h0, _⟩
      · omega
      · exact absurd rfl h
      · exact h0
  · intro hret
    rcases sensorRun_origin hsr with ⟨h1, h2, hnil, _⟩ | ⟨_, _, h0 | ⟨h5, _⟩ | ⟨_, e, he, hb⟩⟩
    · exact Or.inl ⟨h1, h2, hnil⟩
    · rw [h0] at hret
      exact absurd hret (by decide)
    · rw [h5] at hret
      exact absurd hret (by decide)
    · exact Or.inr ⟨e, he, by rw [hb, hret]⟩

/-- C18, witness: a humidity read whose DATA address send fails with `-EINVAL`
returns `-EINVAL`, the value the bus returned; a call with the invalid type 0
returns `-EINVAL` with an empty trace. -/
theorem C18_second_check_unreachable_witness :
    (16 < 17 ∧ freshDevice.lock = false) ∧
    (∃ (ret result' : Int) (device' : th02_device) (tr : List Event),
      read_sensor 17
          ⟨fun hist bytes => if hist.length = 5 then - EINVAL else bytes.length,
            fun _ count => (count, if count = 1 then [0] else [0x00, 0x30])⟩
          freshDevice IIO_HUMIDITYRELATIVE 7 = some (ret, result', device') ∧
      device'.log = freshDevice.log ++ tr ∧
      (busTrace tr ≠ [] →
        IIO_HUMIDITYRELATIVE = IIO_TEMP ∨ IIO_HUMIDITYRELATIVE = IIO_HUMIDITYRELATIVE) ∧
      (∀ d, Event.recv 2 2 d ∈ tr →
        (IIO_HUMIDITYRELATIVE = IIO_TEMP ∨ IIO_HUMIDITYRELATIVE = IIO_HUMIDITYRELATIVE) ∧
          ret = 0) ∧
      (ret = - EINVAL →
        (IIO_HUMIDITYRELATIVE ≠ IIO_TEMP ∧ IIO_HUMIDITYRELATIVE ≠ IIO_HUMIDITYRELATIVE ∧
          tr = []) ∨
        ∃ e ∈ tr, e.busRet = some (- EINVAL))) ∧
    read_sensor 17
        ⟨fun hist bytes => if hist.length = 5 then - EINVAL else bytes.length,
          fun _ count => (count, if count = 1 then [0] else [0x00, 0x30])⟩
        freshDevice IIO_HUMIDITYRELATIVE 7 =
      some (-22, 7, ⟨false, [Event.lock, Event.send [3, 0x01] 2, Event.msleep 1,
        Event.send [0] 1, Event.recv 1 1 [0], Event.send [1] (-22), Event.unlock]⟩) ∧
    read_sensor 17 (idealBus 0 0x00 0x30) freshDevice 0 7 = some (-22, 7, freshDevice) :=
  ⟨⟨by decide, rfl⟩,
    C18_second_check_unreachable 17
      ⟨fun hist bytes => if hist.length = 5 then - EINVAL else bytes.length,
        fun _ count => (count, if count = 1 then [0] else [0x00, 0x30])⟩
      freshDevice IIO_HUMIDITYRELATIVE 7 (by decide) rfl,
    by decide, by decide⟩

/-! ## Concurrent callers -/

theorem exec_done (client : Bus) (ret result : Int) (device : th02_device) :
    Prog.exec client (Prog.done ret result) device = some (ret, result, device) := rfl

theorem exec_lock (client : Bus) (k : Prog) (device : th02_device) :
    Prog.exec client (Prog.lock k) device =
      match mutex_lock device with
      | none => none
      | some d1 => Prog.exec client k d1 := rfl

theorem exec_unlock (client : Bus) (k : Prog) (device : th02_device) :
    Prog.exec client (Prog.unlock k) device = Prog.exec client k (mutex_unlock device) := rfl

theorem exec_sleep (client : Bus) (msecs : Nat) (k : Prog) (device : th02_device) :
    Prog.exec client (Prog.sleep msecs k) device =
      Prog.exec client k (msleep device msecs) := rfl

theorem exec_send (client : Bus) (buf : List Nat) (k : Int → Prog) (device : th02_device) :
    Prog.exec client (Prog.send buf k) device =
      Prog.exec client (k (i2c_master_send client device buf).1)
        (i2c_master_send client device buf).2 := rfl

theorem exec_recv (client : Bus) (buf : List Nat) (count : Nat)
    (k : Int → List Nat → Prog) (device : th02_device) :
    Prog.exec client (Prog.recv buf count k) device =
      Prog.exec client
        (k (i2c_master_recv client device buf count).1
          (i2c_master_recv client device buf count).2.1)
        (i2c_master_recv client device buf count).2.2 := rfl

theorem exec_read_status_prog (client : Bus) (status : Nat) (k : Int → Nat → Prog)
    (device : th02_device) :
    Prog.exec client (read_status_prog status k) device =
      Prog.exec client
        (k (read_status client device status).1 (read_status client device status).2.1)
        (read_status client device status).2.2 := by
  unfold read_status_prog read_status
  simp only [exec_send]
  by_cases h1 : (i2c_master_send client device [TH02_STATUS]).1 < 0
  · simp only [h1, if_true]
  · simp only [h1, if_false, exec_recv]
    by_cases h2 : (i2c_master_recv client (i2c_master_send client device [TH02_STATUS]).2
        [status] 1).1 < 0
    · simp only [h2, if_true]
    · simp only [h2, if_false]

theorem exec_read_data_prog (client : Bus) (buf : List Nat) (k : Int → List Nat → Prog)
    (device : th02_device) :
    Prog.exec client (read_data_prog buf k) device =
      Prog.exec client
        (k (read_data client device buf).1 (read_data client device buf).2.1)
        (read_data client device buf).2.2 := by
  unfold read_data_prog read_data
  simp only [exec_send]
  by_cases h1 : (i2c_master_send client device [TH02_DATA]).1 < 0
  · simp only [h1, if_true]
  · simp only [h1, if_false, exec_recv]
    by_cases h2 : (i2c_master_recv client (i2c_master_send client device [TH02_DATA]).2
        buf 2).1 < 0
    · simp only [h2, if_true]
    · simp only [h2, if_false]
      by_cases h3 : (i2c_master_recv client (i2c_master_send client device [TH02_DATA]).2
          buf 2).1 = 2
      · simp only [h3, ne_eq, not_true_eq_false, if_false]
      · simp only [h3, ne_eq, not_false_eq_true, if_true]

theorem exec_write_config_prog (client : Bus) (config : Nat) (k : Int → Prog)
    (device : th02_device) :
    Prog.exec client (write_config_prog config k) device =
      Prog.exec client (k (write_config client device config).1)
        (write_config client device config).2 := by
  unfold write_config_prog write_config
  simp only [exec_send]
  by_cases h1 : (i2c_master_send client device [TH02_CONFIG, config]).1 < 0
  · simp only [h1, if_true]
  · simp only [h1, if_false]

theorem exec_poll_loop_prog (client : Bus) (k : Option Int → Prog) :
    ∀ (fuel : Nat) (status : Nat) (polling : Int) (device : th02_device),
      Prog.exec client (poll_loop_prog fuel status polling k) device =
        match poll_loop client fuel device status polling with
        | none => none
        | some (d, r) => Prog.exec client (k r) d := by
  intro fuel
  induction fuel with
  | zero =>
    intro status polling device
    rfl
  | succ fuel ih =>
    intro status polling device
    unfold poll_loop_prog poll_loop
    by_cases hs : status = 0
    · simp only [hs, ne_eq, not_true_eq_false, if_false]
    · by_cases hp : polling = TH02_MAX_RETRY
      · simp only [hs, hp, ne_eq, not_true_eq_false, not_false_eq_true, if_true, if_false]
      · simp only [ne_eq, hs, not_false_eq_true, hp, if_true, exec_sleep,
          exec_read_status_prog]
        by_cases hr : (read_status client (msleep device 1) status).1 < 0
        · simp only [hr, if_true]
        · simp only [hr, if_false]
          exact ih _ _ _

/-- The rest of `read_sensor` after `mutex_lock`, in step form and as a
function, agree. -/
theorem exec_read_sensor_body (fuel : Nat) (client : Bus) (d1 : th02_device)
    (type result : Int) (config : Nat) :
    Prog.exec client
      (write_config_prog config (fun ret =>
        if ret < 0 then Prog.unlock (Prog.done ret result)
        else poll_loop_prog fuel 1 0 (fun r =>
          match r with
          | some ret => Prog.unlock (Prog.done ret result)
          | none => read_data_prog [0, 0] (fun ret buf =>
            if ret < 0 then Prog.unlock (Prog.done ret result)
            else
              if type = IIO_TEMP then
                Prog.unlock (Prog.done 0
                  (Int.tdiv ((buf.getD 1 0 <<< 6 ||| buf.getD 0 0 >>> 2 : Nat) : Int) 32
                    - 50))
              else if type = IIO_HUMIDITYRELATIVE then
                Prog.unlock (Prog.done 0
                  (Int.tdiv ((buf.getD 1 0 <<< 4 ||| buf.getD 0 0 >>> 4 : Nat) : Int) 16
                    - 24))
              else Prog.unlock (Prog.done (- EINVAL) result))))) d1 =
      (if (write_config client d1 config).1 < 0 then
        some ((write_config client d1 config).1, result,
          mutex_unlock (write_config client d1 config).2)
      else
        match poll_loop client fuel (write_config client d1 config).2 1 0 with
        | none => none
        | some (d3, some ret) => some (ret, result, mutex_unlock d3)
        | some (d3, none) =>
          if (read_data client d3 [0, 0]).1 < 0 then
            some ((read_data client d3 [0, 0]).1, result,
              mutex_unlock (read_data client d3 [0, 0]).2.2)
          else
            if type = IIO_TEMP then
              some (0, Int.tdiv (((read_data client d3 [0, 0]).2.1.getD 1 0 <<< 6 |||
                  (read_data client d3 [0, 0]).2.1.getD 0 0 >>> 2 : Nat) : Int) 32 - 50,
                mutex_unlock (read_data client d3 [0, 0]).2.2)
            else if type = IIO_HUMIDITYRELATIVE then
              some (0, Int.tdiv (((read_data client d3 [0, 0]).2.1.getD 1 0 <<< 4 |||
                  (read_data client d3 [0, 0]).2.1.getD 0 0 >>> 4 : Nat) : Int) 16 - 24,
                mutex_unlock (read_data client d3 [0, 0]).2.2)
            else some (- EINVAL, result, mutex_unlock (read_data client d3 [0, 0]).2.2)) := by
  rw [exec_write_config_prog]
  by_cases h1 : (write_config client d1 config).1 < 0
  · simp only [h1, if_true, exec_unlock, exec_done]
  · simp only [h1, if_false]
    rw [exec_poll_loop_prog]
    cases poll_loop client fuel (write_config client d1 config).2 1 0 with
    | none => rfl
    | some x =>
      obtain ⟨d3, r⟩ := x
      cases r with
      | some e => simp only [exec_unlock, exec_done]
      | none =>
        simp only [exec_read_data_prog]
        by_cases h2 : (read_data client d3 [0, 0]).1 < 0
        · simp only [h2, if_true, exec_unlock, exec_done]
        · simp only [h2, if_false]
          by_cases ht : type = IIO_TEMP
          · simp only [ht, if_true, exec_unlock, exec_done]
          · by_cases hh : type = IIO_HUMIDITYRELATIVE
            · subst hh
              simp only [ht, if_true, if_false, exec_unlock, exec_done]
            · simp only [ht, hh, if_false, exec_unlock, exec_done]

/-- The step form run alone is `read_sensor`. -/
theorem exec_read_sensor_prog (fuel : Nat) (client : Bus) (device : th02_device)
    (type result : Int) :
    Prog.exec client (read_sensor_prog fuel type result) device =
      read_sensor fuel client device type result := by
  unfold read_sensor_prog read_sensor
  by_cases ht : type = IIO_TEMP
  · simp only [ht, if_true, exec_lock]
    cases mutex_lock device with
    | none => rfl
    | some d1 => exact exec_read_sensor_body fuel client d1 IIO_TEMP result _
  · by_cases hh : type = IIO_HUMIDITYRELATIVE
    · subst hh
      simp only [ht, if_true, if_false, exec_lock]
      cases mutex_lock device with
      | none => rfl
      | some d1 =>
        exact exec_read_sensor_body fuel client d1 IIO_HUMIDITYRELATIVE result _
    · simp only [ht, hh, if_false, exec_done]

theorem inside_read_status_prog (status : Nat) (k : Int → Nat → Prog)
    (hk : ∀ r st, Inside (k r st)) : Inside (read_status_prog status k) := by
  unfold read_status_prog
  apply Inside.send
  intro r
  split
  · exact hk _ _
  · apply Inside.recv
    intro r' b
    split <;> exact hk _ _

theorem inside_read_data_prog (buf : List Nat) (k : Int → List Nat → Prog)
    (hk : ∀ r b, Inside (k r b)) : Inside (read_data_prog buf k) := by
  unfold read_data_prog
  apply Inside.send
  intro r
  split
  · exact hk _ _
  · apply Inside.recv
    intro r' b
    split
    · exact hk _ _
    · split <;> exact hk _ _

theorem inside_write_config_prog (config : Nat) (k : Int → Prog)
    (hk : ∀ r, Inside (k r)) : Inside (write_config_prog config k) := by
  unfold write_config_prog
  apply Inside.send
  intro r
  split <;> exact hk _

theorem inside_poll_loop_prog (k : Option Int → Prog) (hk : ∀ r, Inside (k r)) :
    ∀ (fuel : Nat) (status : Nat) (polling : Int),
      Inside (poll_loop_prog fuel status polling k) := by
  intro fuel
  induction fuel with
  | zero => intro status polling; exact Inside.stuck
  | succ fuel ih =>
    intro status polling
    unfold poll_loop_prog
    split
    · split
      · apply Inside.sleep
        apply inside_read_status_prog
        intro r st
        split
        · exact hk _
        · exact ih _ _
      · exact hk _
    · exact hk _

/-- The step form of `read_sensor` either returns at once, without any action on
the device, or takes the mutex and is then inside its critical section until
the `mutex_unlock` right before its return. -/
theorem outside_read_sensor_prog (fuel : Nat) (type result : Int) :
    Outside (read_sensor_prog fuel type result) := by
  have body : ∀ config : Nat, Inside
      (write_config_prog config (fun ret =>
        if ret < 0 then Prog.unlock (Prog.done ret result)
        else poll_loop_prog fuel 1 0 (fun r =>
          match r with
          | some ret => Prog.unlock (Prog.done ret result)
          | none => read_data_prog [0, 0] (fun ret buf =>
            if ret < 0 then Prog.unlock (Prog.done ret result)
            else
              if type = IIO_TEMP then
                Prog.unlock (Prog.done 0
                  (Int.tdiv ((buf.getD 1 0 <<< 6 ||| buf.getD 0 0 >>> 2 : Nat) : Int) 32
                    - 50))
              else if type = IIO_HUMIDITYRELATIVE then
                Prog.unlock (Prog.done 0
                  (Int.tdiv ((buf.getD 1 0 <<< 4 ||| buf.getD 0 0 >>> 4 : Nat) : Int) 16
                    - 24))
              else Prog.unlock (Prog.done (- EINVAL) result))))) := by
    intro config
    apply inside_write_config_prog
    intro r
    split
    · exact Inside.unlock _ _
    · apply inside_poll_loop_prog
      intro r'
      cases r' with
      | some e => exact Inside.unlock _ _
      | none =>
        apply inside_read_data_prog
        intro r'' b
        split
        · exact Inside.unlock _ _
        · split
          · exact Inside.unlock _ _
          · split <;> exact Inside.unlock _ _
  unfold read_sensor_prog
  by_cases ht : type = IIO_TEMP
  · simp only [ht, if_true]
    subst ht
    exact Or.inr ⟨_, rfl, body _⟩
  · by_cases hh : type = IIO_HUMIDITYRELATIVE
    · simp only [ht, hh, if_true, if_false]
      exact Or.inr ⟨_, rfl, by simpa only [hh] using body _⟩
    · simp only [ht, hh, if_false]
      exact Or.inl ⟨_, _, rfl⟩

theorem inside_not_returned {p : Prog} (h : Inside p) : p.returned = none := by
  cases h <;> rfl

/-- One action of a caller inside its critical section changes nothing of what
the caller does when run alone from there, and either leaves it inside with the
mutex held, or was its `mutex_unlock`, after which it has returned. -/
theorem inside_step (client : Bus) {p : Prog} (h : Inside p) (d : th02_device)
    (hl : d.lock = true) :
    Prog.exec client (Prog.step client d p).2 (Prog.step client d p).1 =
        Prog.exec client p d ∧
      ((Inside (Prog.step client d p).2 ∧ (Prog.step client d p).1.lock = true) ∨
        ∃ r v, (Prog.step client d p).2 = Prog.done r v ∧
          (Prog.step client d p).1.lock = false) := by
  cases h with
  | unlock ret result => exact ⟨rfl, Or.inr ⟨ret, result, rfl, rfl⟩⟩
  | stuck => exact ⟨rfl, Or.inl ⟨Inside.stuck, hl⟩⟩
  | sleep msecs k hk => exact ⟨rfl, Or.inl ⟨hk, hl⟩⟩
  | send buf k hk => exact ⟨rfl, Or.inl ⟨hk _, hl⟩⟩
  | recv buf count k hk => exact ⟨rfl, Or.inl ⟨hk _ _, hl⟩⟩

/-- A caller that has not started its critical section makes no progress while
the mutex is held. -/
theorem outside_step_held (client : Bus) {p : Prog} (h : Outside p) (d : th02_device)
    (hl : d.lock = true) : Prog.step client d p = (d, p) := by
  rcases h with ⟨r, v, rfl⟩ | ⟨k, rfl, _⟩
  · rfl
  · simp [Prog.step, mutex_lock, hl]

theorem done_step (client : Bus) (r v : Int) (d : th02_device) :
    Prog.step client d (Prog.done r v) = (d, Prog.done r v) := rfl

/-- A step of the caller whose critical section comes first keeps the state
serial. -/
theorem serial_step_first (client : Bus) (d0 : th02_device) (P Q p q : Prog)
    (d : th02_device) (h : Serial client d0 P Q p q d) :
    Serial client d0 P Q (Prog.step client d p).2 q (Prog.step client d p).1 := by
  rcases h with ⟨hl, hin, hq, hex⟩ | ⟨hl, hq, r, v, hp, hex⟩ |
      ⟨hl, hin, r, v, d1, hp, hex, hl1, hexq⟩ |
      ⟨hl, r, v, d1, r', v', hp, hex, hl1, hq, hexq⟩
  · obtain ⟨hstep, hcase | ⟨r, v, hdone, hfree⟩⟩ := inside_step client hin d hl
    · exact Or.inl ⟨hcase.2, hcase.1, hq, hstep.trans hex⟩
    · refine Or.inr (Or.inl ⟨hfree, hq, r, v, hdone, ?_⟩)
      rw [← hex, ← hstep, hdone]
      rfl
  · subst hp
    exact Or.inr (Or.inl ⟨hl, hq, r, v, rfl, hex⟩)
  · subst hp
    exact Or.inr (Or.inr (Or.inl ⟨hl, hin, r, v, d1, rfl, hex, hl1, hexq⟩))
  · subst hp
    exact Or.inr (Or.inr (Or.inr ⟨hl, r, v, d1, r', v', rfl, hex, hl1, hq, hexq⟩))

/-- A step of the caller whose critical section comes second keeps the state
serial. -/
theorem serial_step_second (client : Bus) (d0 : th02_device) (P Q p q : Prog)
    (d : th02_device) (hQ : Outside Q) (h : Serial client d0 P Q p q d) :
    Serial client d0 P Q p (Prog.step client d q).2 (Prog.step client d q).1 := by
  rcases h with ⟨hl, hin, hq, hex⟩ | ⟨hl, hq, r, v, hp, hex⟩ |
      ⟨hl, hin, r, v, d1, hp, hex, hl1, hexq⟩ |
      ⟨hl, r, v, d1, r', v', hp, hex, hl1, hq, hexq⟩
  · subst hq
    rw [outside_step_held client hQ d hl]
    exact Or.inl ⟨hl, hin, rfl, hex⟩
  · subst hq
    rcases hQ with ⟨r', v', rfl⟩ | ⟨k, rfl, hk⟩
    · exact Or.inr (Or.inl ⟨hl, rfl, r, v, hp, hex⟩)
    · have hstep : Prog.step client d (Prog.lock k) =
          (⟨true, d.log ++ [Event.lock]⟩, k) := by
        simp [Prog.step, mutex_lock, hl]
      rw [hstep]
      refine Or.inr (Or.inr (Or.inl ⟨rfl, hk, r, v, d, hp, hex, hl, ?_⟩))
      rw [exec_lock]
      simp [mutex_lock, hl]
  · obtain ⟨hstep, hcase | ⟨r', v', hdone, hfree⟩⟩ := inside_step client hin d hl
    · exact Or.inr (Or.inr (Or.inl ⟨hcase.2, hcase.1, r, v, d1, hp, hex, hl1,
        hstep.trans hexq⟩))
    · refine Or.inr (Or.inr (Or.inr ⟨hfree, r, v, d1, r', v', hp, hex, hl1, hdone, ?_⟩))
      rw [← hexq, ← hstep, hdone]
      rfl
  · subst hq
    exact Or.inr (Or.inr (Or.inr ⟨hl, r, v, d1, r', v', hp, hex, hl1, rfl, hexq⟩))

/-- A first step from the start makes the state serial, with the stepping caller
first. -/
theorem serial_start (client : Bus) (d0 : th02_device) (P Q : Prog)
    (hl : d0.lock = false) (hP : Outside P) :
    ((Prog.step client d0 P).1 = d0 ∧ (Prog.step client d0 P).2 = P) ∨
      Serial client d0 P Q (Prog.step client d0 P).2 Q (Prog.step client d0 P).1 := by
  rcases hP with ⟨r, v, rfl⟩ | ⟨k, rfl, hk⟩
  · exact Or.inl ⟨rfl, rfl⟩
  · have hstep : Prog.step client d0 (Prog.lock k) =
        (⟨true, d0.log ++ [Event.lock]⟩, k) := by
      simp [Prog.step, mutex_lock, hl]
    rw [hstep]
    refine Or.inr (Or.inl ⟨rfl, hk, rfl, ?_⟩)
    rw [exec_lock]
    simp [mutex_lock, hl]

/-- The invariant holds along every schedule. -/
theorem serialInv_step (client : Bus) (d0 : th02_device) (P Q : Prog)
    (hl : d0.lock = false) (hP : Outside P) (hQ : Outside Q) (s : Sys) (second : Bool)
    (h : SerialInv client d0 P Q s) : SerialInv client d0 P Q (Sys.step client s second) := by
  cases second with
  | false =>
    simp only [Sys.step, Bool.false_eq_true, if_false]
    rcases h with ⟨hd, h1, h2⟩ | h | h
    · rw [hd, h1, h2]
      rcases serial_start client d0 P Q hl hP with ⟨e1, e2⟩ | hs
      · exact Or.inl ⟨e1, e2, rfl⟩
      · exact Or.inr (Or.inl hs)
    · exact Or.inr (Or.inl (serial_step_first client d0 P Q _ _ _ h))
    · exact Or.inr (Or.inr (serial_step_second client d0 Q P _ _ _ hP h))
  | true =>
    simp only [Sys.step, if_true]
    rcases h with ⟨hd, h1, h2⟩ | h | h
    · rw [hd, h1, h2]
      rcases serial_start client d0 Q P hl hQ with ⟨e1, e2⟩ | hs
      · exact Or.inl ⟨e1, rfl, e2⟩
      · exact Or.inr (Or.inr hs)
    · exact Or.inr (Or.inl (serial_step_second client d0 P Q _ _ _ hQ h))
    · exact Or.inr (Or.inr (serial_step_first client d0 Q P _ _ _ h))

theorem serialInv_run (client : Bus) (d0 : th02_device) (P Q : Prog)
    (hl : d0.lock = false) (hP : Outside P) (hQ : Outside Q) :
    ∀ (sched : List Bool) (s : Sys), SerialInv client d0 P Q s →
      SerialInv client d0 P Q (Sys.run client sched s) := by
  intro sched
  induction sched with
  | nil => intro s h; exact h
  | cons second rest ih =>
    intro s h
    exact ih _ (serialInv_step client d0 P Q hl hP hQ s second h)

theorem done_of_returned {p : Prog} {r v : Int} (h : p.returned = some (r, v)) :
    p = Prog.done r v := by
  cases p with
  | done r' v' =>
    simp only [Prog.returned, Option.some.injEq, Prod.mk.injEq] at h
    rw [h.1, h.2]
  | stuck => simp [Prog.returned] at h
  | lock k => simp [Prog.returned] at h
  | unlock k => simp [Prog.returned] at h
  | sleep m k => simp [Prog.returned] at h
  | send b k => simp [Prog.returned] at h
  | recv b c k => simp [Prog.returned] at h

/-- A serial state in which both callers have returned is the state after the
two calls run alone one after the other. -/
theorem serial_final (client : Bus) (d0 : th02_device) (P Q p q : Prog) (d : th02_device)
    (h : Serial client d0 P Q p q d) (r1 v1 r2 v2 : Int)
    (hp : p.returned = some (r1, v1)) (hq : q.returned = some (r2, v2)) :
    ∃ d1, Prog.exec client P d0 = some (r1, v1, d1) ∧
      Prog.exec client Q d1 = some (r2, v2, d) := by
  rcases h with ⟨_, hin, _, _⟩ | ⟨_, hQ, r, v, hpd, hex⟩ |
      ⟨_, hin, _⟩ | ⟨_, r, v, d1, r', v', hpd, hex, _, hqd, hexq⟩
  · rw [inside_not_returned hin] at hp
    cases hp
  · have h1 := done_of_returned hp
    have h2 := done_of_returned hq
    rw [hpd] at h1
    cases h1
    rw [hQ] at h2
    exact ⟨d, hex, by rw [h2]; rfl⟩
  · rw [inside_not_returned hin] at hq
    cases hq
  · have h1 := done_of_returned hp
    have h2 := done_of_returned hq
    rw [hpd] at h1
    cases h1
    rw [hqd] at h2
    cases h2
    exact ⟨d1, hex, hexq⟩

/-- Run alone, a call only appends to the log of the device. -/
theorem exec_log_grows (client : Bus) :
    ∀ (p : Prog) (d : th02_device) (r v : Int) (d' : th02_device),
      Prog.exec client p d = some (r, v, d') → d.log <+: d'.log := by
  intro p
  induction p with
  | done ret result =>
    intro d r v d' h
    simp only [exec_done, Option.some.injEq, Prod.mk.injEq] at h
    rw [h.2.2]
  | stuck =>
    intro d r v d' h
    exact absurd h (by simp [Prog.exec])
  | lock k ih =>
    intro d r v d' h
    rw [exec_lock] at h
    by_cases hl : d.lock = true
    · simp [mutex_lock, hl] at h
    · simp only [mutex_lock, hl, Bool.false_eq_true, if_false] at h
      exact (List.prefix_append _ _).trans (ih _ _ _ _ h)
  | unlock k ih =>
    intro d r v d' h
    rw [exec_unlock] at h
    exact (List.prefix_append _ _).trans (ih _ _ _ _ h)
  | sleep msecs k ih =>
    intro d r v d' h
    rw [exec_sleep] at h
    exact (List.prefix_append _ _).trans (ih _ _ _ _ h)
  | send buf k ih =>
    intro d r v d' h
    rw [exec_send] at h
    exact (List.prefix_append _ _).trans (ih _ _ _ _ _ h)
  | recv buf count k ih =>
    intro d r v d' h
    rw [exec_recv] at h
    exact (List.prefix_append _ _).trans (ih _ _ _ _ _ _ h)

/-- The log of a serial state is a prefix of the log after the two calls run
alone one after the other. -/
theorem serial_sofar (client : Bus) (d0 : th02_device) (P Q p q : Prog) (d : th02_device)
    (h : Serial client d0 P Q p q d) (rA vA rB vB : Int) (dA dB : th02_device)
    (hA : Prog.exec client P d0 = some (rA, vA, dA))
    (hB : Prog.exec client Q dA = some (rB, vB, dB)) : d.log <+: dB.log := by
  rcases h with ⟨_, _, _, hex⟩ | ⟨_, _, r, v, _, hex⟩ |
      ⟨_, _, r, v, d1, _, hex, _, hexq⟩ | ⟨_, r, v, d1, r', v', _, hex, _, _, hexq⟩
  · rw [hA] at hex
    exact (exec_log_grows client _ _ _ _ _ hex).trans (exec_log_grows client _ _ _ _ _ hB)
  · rw [hA] at hex
    simp only [Option.some.injEq, Prod.mk.injEq] at hex
    rw [← hex.2.2]
    exact exec_log_grows client _ _ _ _ _ hB
  · rw [hA] at hex
    simp only [Option.some.injEq, Prod.mk.injEq] at hex
    rw [← hex.2.2, hB] at hexq
    exact exec_log_grows client _ _ _ _ _ hexq
  · rw [hA] at hex
    simp only [Option.some.injEq, Prod.mk.injEq] at hex
    rw [← hex.2.2, hB] at hexq
    simp only [Option.some.injEq, Prod.mk.injEq] at hexq
    rw [hexq.2.2]

/-- Under any schedule the log of the device is a prefix of the log after the
two calls run alone one after the other, in one of the two orders. -/
theorem concurrentCalls_sofar (fuel : Nat) (client : Bus) (d0 : th02_device)
    (type1 result1 type2 result2 : Int) (sched : List Bool) (hfuel : 16 < fuel)
    (hlock : d0.lock = false) :
    ∃ (rA vA rB vB : Int) (dA dB : th02_device),
      ((read_sensor fuel client d0 type1 result1 = some (rA, vA, dA) ∧
          read_sensor fuel client dA type2 result2 = some (rB, vB, dB)) ∨
        (read_sensor fuel client d0 type2 result2 = some (rA, vA, dA) ∧
          read_sensor fuel client dA type1 result1 = some (rB, vB, dB))) ∧
      (concurrentCalls fuel client d0 type1 result1 type2 result2 sched).device.log <+:
        dB.log := by
  have hinv := serialInv_run client d0 (read_sensor_prog fuel type1 result1)
    (read_sensor_prog fuel type2 result2) hlock (outside_read_sensor_prog _ _ _)
    (outside_read_sensor_prog _ _ _) sched
    ⟨d0, read_sensor_prog fuel type1 result1, read_sensor_prog fuel type2 result2⟩
    (Or.inl ⟨rfl, rfl, rfl⟩)
  have seq : ∀ (tyA resA tyB resB : Int), ∃ (rA vA rB vB : Int) (dA dB : th02_device),
      read_sensor fuel client d0 tyA resA = some (rA, vA, dA) ∧
      read_sensor fuel client dA tyB resB = some (rB, vB, dB) := by
    intro tyA resA tyB resB
    obtain ⟨⟨rA, vA, dA⟩, hA⟩ := read_sensor_returns fuel client d0 tyA resA hfuel hlock
    obtain ⟨hlA, _⟩ := read_sensor_run _ _ _ _ _ _ _ _ hA
    obtain ⟨⟨rB, vB, dB⟩, hB⟩ :=
      read_sensor_returns fuel client dA tyB resB hfuel (hlA.trans hlock)
    exact ⟨rA, vA, rB, vB, dA, dB, hA, hB⟩
  change SerialInv client d0 _ _
    (concurrentCalls fuel client d0 type1 result1 type2 result2 sched) at hinv
  generalize concurrentCalls fuel client d0 type1 result1 type2 result2 sched = s
    at hinv ⊢
  rcases hinv with ⟨hd, _, _⟩ | hser | hser
  · obtain ⟨rA, vA, rB, vB, dA, dB, hA, hB⟩ := seq type1 result1 type2 result2
    refine ⟨rA, vA, rB, vB, dA, dB, Or.inl ⟨hA, hB⟩, ?_⟩
    rw [hd]
    rw [← exec_read_sensor_prog] at hA hB
    exact (exec_log_grows client _ _ _ _ _ hA).trans (exec_log_grows client _ _ _ _ _ hB)
  · obtain ⟨rA, vA, rB, vB, dA, dB, hA, hB⟩ := seq type1 result1 type2 result2
    refine ⟨rA, vA, rB, vB, dA, dB, Or.inl ⟨hA, hB⟩, ?_⟩
    rw [← exec_read_sensor_prog] at hA hB
    exact serial_sofar client d0 _ _ _ _ _ hser _ _ _ _ _ _ hA hB
  · obtain ⟨rA, vA, rB, vB, dA, dB, hA, hB⟩ := seq type2 result2 type1 result1
    refine ⟨rA, vA, rB, vB, dA, dB, Or.inr ⟨hA, hB⟩, ?_⟩
    rw [← exec_read_sensor_prog] at hA hB
    exact serial_sofar client d0 _ _ _ _ _ hser _ _ _ _ _ _ hA hB

/-- When both concurrent calls have returned, the outcome is the one of the two
calls run alone one after the other. -/
theorem concurrentCalls_returned (fuel : Nat) (client : Bus) (d0 : th02_device)
    (type1 result1 type2 result2 : Int) (sched : List Bool) (ret1 res1 ret2 res2 : Int)
    (hlock : d0.lock = false)
    (h1 : (concurrentCalls fuel client d0 type1 result1 type2 result2 sched).caller1.returned
      = some (ret1, res1))
    (h2 : (concurrentCalls fuel client d0 type1 result1 type2 result2 sched).caller2.returned
      = some (ret2, res2)) :
    ∃ (d1 : th02_device) (tr1 tr2 : List Event),
      (concurrentCalls fuel client d0 type1 result1 type2 result2 sched).device.log =
        d0.log ++ tr1 ++ tr2 ∧
      (concurrentCalls fuel client d0 type1 result1 type2 result2 sched).device.lock = false ∧
      ((read_sensor fuel client d0 type1 result1 = some (ret1, res1, d1) ∧
          read_sensor fuel client d1 type2 result2 = some (ret2, res2,
            (concurrentCalls fuel client d0 type1 result1 type2 result2 sched).device) ∧
          SensorRun type1 result1 tr1 ret1 res1 ∧ SensorRun type2 result2 tr2 ret2 res2) ∨
        (read_sensor fuel client d0 type2 result2 = some (ret2, res2, d1) ∧
          read_sensor fuel client d1 type1 result1 = some (ret1, res1,
            (concurrentCalls fuel client d0 type1 result1 type2 result2 sched).device) ∧
          SensorRun type2 result2 tr1 ret2 res2 ∧ SensorRun type1 result1 tr2 ret1 res1)) := by
  have hinv := serialInv_run client d0 (read_sensor_prog fuel type1 result1)
    (read_sensor_prog fuel type2 result2) hlock (outside_read_sensor_prog _ _ _)
    (outside_read_sensor_prog _ _ _) sched
    ⟨d0, read_sensor_prog fuel type1 result1, read_sensor_prog fuel type2 result2⟩
    (Or.inl ⟨rfl, rfl, rfl⟩)
  have key : ∀ (tyA resA tyB resB rA vA rB vB : Int) (dA dB : th02_device),
      read_sensor fuel client d0 tyA resA = some (rA, vA, dA) →
      read_sensor fuel client dA tyB resB = some (rB, vB, dB) →
      ∃ trA trB, dB.log = d0.log ++ trA ++ trB ∧ dB.lock = false ∧
        SensorRun tyA resA trA rA vA ∧ SensorRun tyB resB trB rB vB := by
    intro tyA resA tyB resB rA vA rB vB dA dB hA hB
    obtain ⟨hlA, trA, hlogA, hsrA⟩ := read_sensor_run _ _ _ _ _ _ _ _ hA
    obtain ⟨hlB, trB, hlogB, hsrB⟩ := read_sensor_run _ _ _ _ _ _ _ _ hB
    exact ⟨trA, trB, by rw [hlogB, hlogA], by rw [hlB, hlA, hlock], hsrA, hsrB⟩
  change SerialInv client d0 _ _
    (concurrentCalls fuel client d0 type1 result1 type2 result2 sched) at hinv
  generalize concurrentCalls fuel client d0 type1 result1 type2 result2 sched = s
    at hinv h1 h2 ⊢
  rcases hinv with ⟨hd, hc1, hc2⟩ | hser | hser
  · have e1 := done_of_returned h1
    have e2 := done_of_returned h2
    rw [hc1] at e1
    rw [hc2] at e2
    have hA : read_sensor fuel client d0 type1 result1 = some (ret1, res1, d0) := by
      rw [← exec_read_sensor_prog, e1]
      rfl
    have hB : read_sensor fuel client d0 type2 result2 = some (ret2, res2, s.device) := by
      rw [← exec_read_sensor_prog, e2, hd]
      rfl
    obtain ⟨trA, trB, hlog, hl, hsrA, hsrB⟩ := key _ _ _ _ _ _ _ _ _ _ hA hB
    exact ⟨d0, trA, trB, hlog, hl, Or.inl ⟨hA, hB, hsrA, hsrB⟩⟩
  · obtain ⟨d1, hA, hB⟩ := serial_final client d0 _ _ _ _ _ hser ret1 res1 ret2 res2 h1 h2
    rw [exec_read_sensor_prog] at hA hB
    obtain ⟨trA, trB, hlog, hl, hsrA, hsrB⟩ := key _ _ _ _ _ _ _ _ _ _ hA hB
    exact ⟨d1, trA, trB, hlog, hl, Or.inl ⟨hA, hB, hsrA, hsrB⟩⟩
  · obtain ⟨d1, hA, hB⟩ := serial_final client d0 _ _ _ _ _ hser ret2 res2 ret1 res1 h2 h1
    rw [exec_read_sensor_prog] at hA hB
    obtain ⟨trA, trB, hlog, hl, hsrA, hsrB⟩ := key _ _ _ _ _ _ _ _ _ _ hA hB
    exact ⟨d1, trA, trB, hlog, hl, Or.inr ⟨hA, hB, hsrA, hsrB⟩⟩

/-- C14 (mutual exclusion): two concurrent `read_sensor` calls on one device
whose mutex is free, run under any schedule of their atomic actions
(`mutex_lock`, `i2c_master_send`, `i2c_master_recv`, `msleep`, `mutex_unlock`;
a caller waiting for the mutex makes no progress).  At every moment the events
on the device so far are a prefix of the events of one call run alone followed
by those of the other call run alone on the device as the first left it.  And
whenever both calls have returned, the events are exactly the complete trace of
one call followed by the complete trace of the other, the return values and
result cells are those of the two calls run alone in that order, and the mutex
is free again. -/
theorem C14_mutual_exclusion (fuel : Nat) (client : Bus) (d0 : th02_device)
    (type1 result1 type2 result2 : Int) (sched : List Bool) (hfuel : 16 < fuel)
    (hlock : d0.lock = false) :
    (∃ (rA vA rB vB : Int) (dA dB : th02_device),
      ((read_sensor fuel client d0 type1 result1 = some (rA, vA, dA) ∧
          read_sensor fuel client dA type2 result2 = some (rB, vB, dB)) ∨
        (read_sensor fuel client d0 type2 result2 = some (rA, vA, dA) ∧
          read_sensor fuel client dA type1 result1 = some (rB, vB, dB))) ∧
      (concurrentCalls fuel client d0 type1 result1 type2 result2 sched).device.log <+:
        dB.log) ∧
    ∀ ret1 res1 ret2 res2 : Int,
      (concurrentCalls fuel client d0 type1 result1 type2 result2 sched).caller1.returned
        = some (ret1, res1) →
      (concurrentCalls fuel client d0 type1 result1 type2 result2 sched).caller2.returned
        = some (ret2, res2) →
      ∃ (d1 : th02_device) (tr1 tr2 : List Event),
      (concurrentCalls fuel client d0 type1 result1 type2 result2 sched).device.log =
        d0.log ++ tr1 ++ tr2 ∧
      (concurrentCalls fuel client d0 type1 result1 type2 result2 sched).device.lock = false ∧
      ((read_sensor fuel client d0 type1 result1 = some (ret1, res1, d1) ∧
          read_sensor fuel client d1 type2 result2 = some (ret2, res2,
            (concurrentCalls fuel client d0 type1 result1 type2 result2 sched).device) ∧
          SensorRun type1 result1 tr1 ret1 res1 ∧ SensorRun type2 result2 tr2 ret2 res2) ∨
        (read_sensor fuel client d0 type2 result2 = some (ret2, res2, d1) ∧
          read_sensor fuel client d1 type1 result1 = some (ret1, res1,
            (concurrentCalls fuel client d0 type1 result1 type2 result2 sched).device) ∧
          SensorRun type2 result2 tr1 ret2 res2 ∧ SensorRun type1 result1 tr2 ret1 res1)) :=
  ⟨concurrentCalls_sofar fuel client d0 type1 result1 type2 result2 sched hfuel hlock,
    fun ret1 res1 ret2 res2 h1 h2 =>
      concurrentCalls_returned fuel client d0 type1 result1 type2 result2 sched
        ret1 res1 ret2 res2 hlock h1 h2⟩

/-- C14, witness: a temperature read and a humidity read on a bus that always
succeeds, scheduled alternately; the second caller takes the mutex first, the
first caller waits, and the log is the complete humidity cycle followed by the
complete temperature cycle. -/
theorem C14_mutual_exclusion_witness :
    (16 < 17 ∧ freshDevice.lock = false) ∧
    ((∃ (rA vA rB vB : Int) (dA dB : th02_device),
      ((read_sensor 17 (idealBus 0 0x00 0x80) freshDevice IIO_TEMP 0 = some (rA, vA, dA) ∧
          read_sensor 17 (idealBus 0 0x00 0x80) dA IIO_HUMIDITYRELATIVE 0 =
            some (rB, vB, dB)) ∨
        (read_sensor 17 (idealBus 0 0x00 0x80) freshDevice IIO_HUMIDITYRELATIVE 0 =
            some (rA, vA, dA) ∧
          read_sensor 17 (idealBus 0 0x00 0x80) dA IIO_TEMP 0 = some (rB, vB, dB))) ∧
      (concurrentCalls 17 (idealBus 0 0x00 0x80) freshDevice IIO_TEMP 0
        IIO_HUMIDITYRELATIVE 0 alternatingSchedule).device.log <+: dB.log) ∧
    ∀ ret1 res1 ret2 res2 : Int,
      (concurrentCalls 17 (idealBus 0 0x00 0x80) freshDevice IIO_TEMP 0
        IIO_HUMIDITYRELATIVE 0 alternatingSchedule).caller1.returned = some (ret1, res1) →
      (concurrentCalls 17 (idealBus 0 0x00 0x80) freshDevice IIO_TEMP 0
        IIO_HUMIDITYRELATIVE 0 alternatingSchedule).caller2.returned = some (ret2, res2) →
      ∃ (d1 : th02_device) (tr1 tr2 : List Event),
        (concurrentCalls 17 (idealBus 0 0x00 0x80) freshDevice IIO_TEMP 0
            IIO_HUMIDITYRELATIVE 0 alternatingSchedule).device.log =
          freshDevice.log ++ tr1 ++ tr2 ∧
        (concurrentCalls 17 (idealBus 0 0x00 0x80) freshDevice IIO_TEMP 0
            IIO_HUMIDITYRELATIVE 0 alternatingSchedule).device.lock = false ∧
        ((read_sensor 17 (idealBus 0 0x00 0x80) freshDevice IIO_TEMP 0 =
              some (ret1, res1, d1) ∧
            read_sensor 17 (idealBus 0 0x00 0x80) d1 IIO_HUMIDITYRELATIVE 0 =
              some (ret2, res2,
                (concurrentCalls 17 (idealBus 0 0x00 0x80) freshDevice IIO_TEMP 0
                  IIO_HUMIDITYRELATIVE 0 alternatingSchedule).device) ∧
            SensorRun IIO_TEMP 0 tr1 ret1 res1 ∧
            SensorRun IIO_HUMIDITYRELATIVE 0 tr2 ret2 res2) ∨
          (read_sensor 17 (idealBus 0 0x00 0x80) freshDevice IIO_HUMIDITYRELATIVE 0 =
              some (ret2, res2, d1) ∧
            read_sensor 17 (idealBus 0 0x00 0x80) d1 IIO_TEMP 0 =
              some (ret1, res1,
                (concurrentCalls 17 (idealBus 0 0x00 0x80) freshDevice IIO_TEMP 0
                  IIO_HUMIDITYRELATIVE 0 alternatingSchedule).device) ∧
            SensorRun IIO_HUMIDITYRELATIVE 0 tr1 ret2 res2 ∧
            SensorRun IIO_TEMP 0 tr2 ret1 res1))) ∧
    ((concurrentCalls 17 (idealBus 0 0x00 0x80) freshDevice IIO_TEMP 0
        IIO_HUMIDITYRELATIVE 0 alternatingSchedule).caller1.returned = some (0, 206) ∧
      (concurrentCalls 17 (idealBus 0 0x00 0x80) freshDevice IIO_TEMP 0
        IIO_HUMIDITYRELATIVE 0 alternatingSchedule).caller2.returned = some (0, 104) ∧
      (concurrentCalls 17 (idealBus 0 0x00 0x80) freshDevice IIO_TEMP 0
          IIO_HUMIDITYRELATIVE 0 alternatingSchedule).device =
        ⟨false, [Event.lock, Event.send [3, 0x01] 2, Event.msleep 1, Event.send [0] 1,
          Event.recv 1 1 [0], Event.send [1] 1, Event.recv 2 2 [0x00, 0x80], Event.unlock,
          Event.lock, Event.send [3, 0x11] 2, Event.msleep 1, Event.send [0] 1,
          Event.recv 1 1 [0], Event.send [1] 1, Event.recv 2 2 [0x00, 0x80],
          Event.unlock]⟩) :=
  ⟨⟨by decide, rfl⟩,
    C14_mutual_exclusion 17 (idealBus 0 0x00 0x80) freshDevice IIO_TEMP 0
      IIO_HUMIDITYRELATIVE 0 alternatingSchedule (by decide) rfl,
    by decide, by decide, by decide⟩

end TH02
